import Mathlib

/-!
The gv11b FIFO preemption unit (`hal/fifo/preempt_gv11b_fusa.c`).

A shallow embedding of the preempt trigger, the PBDMA / engine pollers, the
aggregate `is_preempt_pending` and the TSG preempt orchestrator, followed by
theorems about them.

Conventions of the embedding

* `struct gk20a *g` is the record `gk20a`: the software fifo state together
  with the chronological trace of every call the code makes to a collaborator
  outside this file (register access, timers, sleeps, locks, PMU mutex,
  scheduling control, recovery).  The collaborators themselves are the fields
  of `Oracle`: each answer is a function of the trace so far, so a hardware
  or OS behaviour of any (deterministic) kind is an `Oracle`.  Collaborators
  see the trace only: they do not write the fifo fields modelled here.
* The two pollers also record a marker when they are entered and when they
  return, so that which polls ran, in which order and with which result can
  be read off the trace.
* C `u32` values are `Nat`; `<<` and `*` wrap modulo `2^32` explicitly.
  `int` return codes are `Int`.
* `u32 *reset_eng_bitmask` is passed as a value and returned updated.
* Loops that may not terminate take a `fuel : Nat` (number of iterations
  allowed) and return `none` when it is used up.
* Diagnostics (`nvgpu_log*`, `nvgpu_err`) have no effect on the state the
  code computes with and are left out.
* Register accessors, tunable constants and build switches that come from
  other headers of the driver are the fields of `Config`.  The PBDMA phase enum
  with its `is_chsw_*` helpers, the bit iteration macros, `BIT32` and `EBUSY`
  are modelled directly.
* The HAL entries reached through `g->ops.fifo` are the fields of
  `gops_fifo`; `gv11b_ops` is the gv11b binding.
-/

namespace NvgpuPreempt

/-! Definitions -/

/-- Modelled from the spec: the error code of a `Busy` outcome, the errno
value `EBUSY` of `errno-base.h`, returned negated. -/
def EBUSY : Int := 16

/-- Modelled from the spec: the bit of engine `i` in a `u32` bitmask, the
macro `BIT32(i)` of `nvgpu/bitops.h`, that is `(u32)1 << i`. -/
def BIT32 (i : Nat) : Nat := (1 <<< i) % 2 ^ 32

/-- Header constants, register accessors and build configuration used by
`preempt_gv11b_fusa.c` and defined outside it (`nvgpu/fifo.h`,
`nvgpu/runlist.h`, `nvgpu/gk20a.h`, `preempt_gv11b.h`, `hw_fifo_gv11b.h`, the
`CONFIG_NVGPU_*` build switches). -/
structure Config where
  /-- Value of `ID_TYPE_TSG`. -/
  ID_TYPE_TSG : Nat
  /-- Value of `NVGPU_INVALID_RUNLIST_ID`. -/
  NVGPU_INVALID_RUNLIST_ID : Nat
  /-- Value of `POLL_DELAY_MIN_US`. -/
  POLL_DELAY_MIN_US : Nat
  /-- Value of `POLL_DELAY_MAX_US`. -/
  POLL_DELAY_MAX_US : Nat
  /-- Value of `PREEMPT_PENDING_POLL_PRE_SI_RETRIES`. -/
  PREEMPT_PENDING_POLL_PRE_SI_RETRIES : Nat
  /-- Whether `CONFIG_NVGPU_LS_PMU` is defined. -/
  CONFIG_NVGPU_LS_PMU : Bool
  /-- Whether `CONFIG_NVGPU_RECOVERY` is defined. -/
  CONFIG_NVGPU_RECOVERY : Bool
  /-- Address `fifo_preempt_r()`. -/
  fifo_preempt_r : Nat
  /-- Field constructor `fifo_preempt_id_f(v)`. -/
  fifo_preempt_id_f : Nat → Nat
  /-- Field value `fifo_preempt_type_tsg_f()`. -/
  fifo_preempt_type_tsg_f : Nat
  /-- Address `fifo_runlist_preempt_r()`. -/
  fifo_runlist_preempt_r : Nat
  /-- Mask `fifo_runlist_preempt_runlist_m(i)`. -/
  fifo_runlist_preempt_runlist_m : Nat → Nat
  /-- Address `fifo_engine_status_r(i)`. -/
  fifo_engine_status_r : Nat → Nat
  /-- Field extractor `fifo_engine_status_ctx_status_v(r)`. -/
  fifo_engine_status_ctx_status_v : Nat → Nat
  /-- Field extractor `fifo_engine_status_id_v(r)`. -/
  fifo_engine_status_id_v : Nat → Nat
  /-- Field extractor `fifo_engine_status_next_id_v(r)`. -/
  fifo_engine_status_next_id_v : Nat → Nat
  /-- Value `fifo_engine_status_ctx_status_valid_v()`. -/
  fifo_engine_status_ctx_status_valid_v : Nat
  /-- Value `fifo_engine_status_ctx_status_ctxsw_load_v()`. -/
  fifo_engine_status_ctx_status_ctxsw_load_v : Nat
  /-- Value `fifo_engine_status_ctx_status_ctxsw_save_v()`. -/
  fifo_engine_status_ctx_status_ctxsw_save_v : Nat
  /-- Value `fifo_engine_status_ctx_status_ctxsw_switch_v()`. -/
  fifo_engine_status_ctx_status_ctxsw_switch_v : Nat

/-- The four context-switch phases tested by `fifo_check_eng_intr_pending`
are pairwise different values. -/
def Config.ctx_status_distinct (K : Config) : Prop :=
  K.fifo_engine_status_ctx_status_ctxsw_switch_v ≠ K.fifo_engine_status_ctx_status_valid_v ∧
  K.fifo_engine_status_ctx_status_ctxsw_switch_v ≠ K.fifo_engine_status_ctx_status_ctxsw_save_v ∧
  K.fifo_engine_status_ctx_status_ctxsw_switch_v ≠ K.fifo_engine_status_ctx_status_ctxsw_load_v ∧
  K.fifo_engine_status_ctx_status_valid_v ≠ K.fifo_engine_status_ctx_status_ctxsw_load_v ∧
  K.fifo_engine_status_ctx_status_ctxsw_save_v ≠ K.fifo_engine_status_ctx_status_ctxsw_load_v

/-! PBDMA status -/

/-- Modelled from the spec: the enumerators of
`enum nvgpu_pbdma_status_chsw_status` (`nvgpu/pbdma_status.h`), the
channel-switch phases invalid, valid, load, save and switch.  The phase is
carried as the integer value of the C enum object. -/
def NVGPU_PBDMA_CHSW_STATUS_INVALID : Nat := 0

/-- Modelled from the spec: phase valid of `enum nvgpu_pbdma_status_chsw_status`. -/
def NVGPU_PBDMA_CHSW_STATUS_VALID : Nat := 1

/-- Modelled from the spec: phase load of `enum nvgpu_pbdma_status_chsw_status`. -/
def NVGPU_PBDMA_CHSW_STATUS_LOAD : Nat := 2

/-- Modelled from the spec: phase save of `enum nvgpu_pbdma_status_chsw_status`. -/
def NVGPU_PBDMA_CHSW_STATUS_SAVE : Nat := 3

/-- Modelled from the spec: phase switch of `enum nvgpu_pbdma_status_chsw_status`. -/
def NVGPU_PBDMA_CHSW_STATUS_SWITCH : Nat := 4

/-- The fields of `struct nvgpu_pbdma_status_info` read by this file. -/
structure nvgpu_pbdma_status_info where
  pbdma_reg_status : Nat
  chsw_status : Nat
  id : Nat
  next_id : Nat
deriving DecidableEq, Repr

/-- Modelled from the spec: helper `nvgpu_pbdma_status_is_chsw_valid`
(`common/fifo/pbdma_status.c`), true when the phase is valid. -/
def nvgpu_pbdma_status_is_chsw_valid (pbdma_status : nvgpu_pbdma_status_info) : Bool :=
  pbdma_status.chsw_status == NVGPU_PBDMA_CHSW_STATUS_VALID

/-- Modelled from the spec: helper `nvgpu_pbdma_status_is_chsw_save`. -/
def nvgpu_pbdma_status_is_chsw_save (pbdma_status : nvgpu_pbdma_status_info) : Bool :=
  pbdma_status.chsw_status == NVGPU_PBDMA_CHSW_STATUS_SAVE

/-- Modelled from the spec: helper `nvgpu_pbdma_status_is_chsw_load`. -/
def nvgpu_pbdma_status_is_chsw_load (pbdma_status : nvgpu_pbdma_status_info) : Bool :=
  pbdma_status.chsw_status == NVGPU_PBDMA_CHSW_STATUS_LOAD

/-- Modelled from the spec: helper `nvgpu_pbdma_status_is_chsw_switch`. -/
def nvgpu_pbdma_status_is_chsw_switch (pbdma_status : nvgpu_pbdma_status_info) : Bool :=
  pbdma_status.chsw_status == NVGPU_PBDMA_CHSW_STATUS_SWITCH

/-- `fifo_preempt_check_tsg_on_pbdma`: 0 when the TSG is no longer on the
PBDMA, `-EBUSY` otherwise. -/
def fifo_preempt_check_tsg_on_pbdma (tsgid : Nat)
    (pbdma_status : nvgpu_pbdma_status_info) : Int :=
  if nvgpu_pbdma_status_is_chsw_valid pbdma_status ||
      nvgpu_pbdma_status_is_chsw_save pbdma_status then
    if tsgid ≠ pbdma_status.id then 0 else -EBUSY
  else if nvgpu_pbdma_status_is_chsw_load pbdma_status then
    if tsgid ≠ pbdma_status.next_id then 0 else -EBUSY
  else if nvgpu_pbdma_status_is_chsw_switch pbdma_status then
    if tsgid ≠ pbdma_status.next_id ∧ tsgid ≠ pbdma_status.id then 0 else -EBUSY
  else
    -- pbdma status is invalid i.e. it is not loaded
    0

/-! Engine status -/

/-- `fifo_check_eng_intr_pending`: the return code and the updated
`*reset_eng_bitmask`. -/
def fifo_check_eng_intr_pending (K : Config) (id eng_stat ctx_stat eng_intr_pending
    engine_id reset_eng_bitmask : Nat) : Int × Nat :=
  if ctx_stat = K.fifo_engine_status_ctx_status_ctxsw_switch_v then
    -- Eng save hasn't started yet. Continue polling
    if eng_intr_pending ≠ 0 then
      (0, reset_eng_bitmask ||| BIT32 engine_id)
    else
      (-EBUSY, reset_eng_bitmask)
  else if ctx_stat = K.fifo_engine_status_ctx_status_valid_v ∨
      ctx_stat = K.fifo_engine_status_ctx_status_ctxsw_save_v then
    if id = K.fifo_engine_status_id_v eng_stat then
      if eng_intr_pending ≠ 0 then
        (0, reset_eng_bitmask ||| BIT32 engine_id)
      else
        (-EBUSY, reset_eng_bitmask)
    else
      (0, reset_eng_bitmask)
  else if ctx_stat = K.fifo_engine_status_ctx_status_ctxsw_load_v then
    if id = K.fifo_engine_status_next_id_v eng_stat then
      if eng_intr_pending ≠ 0 then
        (0, reset_eng_bitmask ||| BIT32 engine_id)
      else
        (-EBUSY, reset_eng_bitmask)
    else
      (0, reset_eng_bitmask)
  else
    (0, reset_eng_bitmask)

/-! The device: software fifo state and the trace of outside calls -/

/-- A call made to a collaborator outside `preempt_gv11b_fusa.c`, with its
arguments.  The last four are markers: `poll_pbdma` and `poll_eng` are
recorded on entry to `gv11b_fifo_preempt_poll_pbdma` and
`gv11b_fifo_preempt_poll_eng`, `poll_pbdma_ret` and `poll_eng_ret` when they
return, with the value returned. -/
inductive Event where
  | nvgpu_readl (addr : Nat)
  | nvgpu_writel (addr val : Nat)
  | nvgpu_timeout_init
  | nvgpu_timeout_expired
  | nvgpu_usleep_range (min_us max_us : Nat)
  | pbdma_handle_intr (pbdma_id : Nat)
  | is_stall_and_eng_intr_pending (engine_id : Nat)
  | nvgpu_pmu_lock_acquire
  | nvgpu_pmu_lock_release
  | nvgpu_mutex_acquire (runlist_id : Nat)
  | nvgpu_mutex_release (runlist_id : Nat)
  | nvgpu_tsg_disable_sched (tsgid : Nat)
  | nvgpu_tsg_enable_sched (tsgid : Nat)
  | nvgpu_rc_preempt_timeout (tsgid : Nat)
  | poll_pbdma (tsgid pbdma_id : Nat)
  | poll_eng (id engine_id : Nat)
  | poll_pbdma_ret (pbdma_id : Nat) (ret : Int)
  | poll_eng_ret (engine_id : Nat) (ret : Int)
deriving DecidableEq, Repr

/-- The fields of `struct nvgpu_tsg` read by this file. -/
structure nvgpu_tsg where
  tsgid : Nat
  runlist_id : Nat
deriving DecidableEq, Repr

/-- The fields of `struct nvgpu_channel` read by this file. -/
structure nvgpu_channel where
  chid : Nat
  tsgid : Nat
  runlist_id : Nat
deriving DecidableEq, Repr

/-- The fields of `struct nvgpu_runlist_info` used by this file (the
`runlist_lock` is named by the runlist id in the lock events). -/
structure nvgpu_runlist_info where
  runlist_id : Nat
  pbdma_bitmask : Nat
  eng_bitmask : Nat
  reset_eng_bitmask : Nat
deriving DecidableEq, Repr

/-- The fields of `struct nvgpu_fifo` used by this file.  The runlist objects
are `active_runlist_info[i]`; `runlist_info[runlist_id]` is a pointer to one
of them, carried as its index. -/
structure nvgpu_fifo where
  num_pbdma : Nat
  max_engines : Nat
  num_runlists : Nat
  tsg : Nat → nvgpu_tsg
  channel : Nat → nvgpu_channel
  runlist_info : Nat → Nat
  active_runlist_info : Nat → nvgpu_runlist_info

/-- The device `struct gk20a`: the fifo state and the calls made so far. -/
structure gk20a where
  trace : List Event
  fifo : nvgpu_fifo

/-- Record one outside call. -/
def gk20a.emit (g : gk20a) (e : Event) : gk20a :=
  { g with trace := g.trace ++ [e] }

/-- The runlist object `*f->runlist_info[runlist_id]`. -/
def nvgpu_fifo.runlist (f : nvgpu_fifo) (runlist_id : Nat) : nvgpu_runlist_info :=
  f.active_runlist_info (f.runlist_info runlist_id)

/-- Store to `f->active_runlist_info[i].reset_eng_bitmask`. -/
def nvgpu_fifo.set_reset_eng_bitmask (f : nvgpu_fifo) (i v : Nat) : nvgpu_fifo :=
  { f with active_runlist_info := fun j =>
      if j = i then { (f.active_runlist_info i) with reset_eng_bitmask := v }
      else f.active_runlist_info j }

/-- Store to `f->runlist_info[runlist_id]->reset_eng_bitmask`. -/
def gk20a.set_reset_eng_bitmask (g : gk20a) (runlist_id v : Nat) : gk20a :=
  { g with fifo := g.fifo.set_reset_eng_bitmask (g.fifo.runlist_info runlist_id) v }

/-- The collaborators of this file.  Every answer may depend on the whole
trace of earlier calls. -/
structure Oracle where
  /-- Result of `nvgpu_platform_is_silicon(g)`. -/
  nvgpu_platform_is_silicon : Bool
  /-- Value read by `nvgpu_readl(g, addr)`. -/
  nvgpu_readl : List Event → Nat → Nat
  /-- Return code of `nvgpu_timeout_init`. -/
  nvgpu_timeout_init : List Event → Int
  /-- Return value of `nvgpu_timeout_expired`. -/
  nvgpu_timeout_expired : List Event → Int
  /-- Status stored by `g->ops.pbdma.handle_intr(g, pbdma_id, NULL, &pbdma_status)`. -/
  pbdma_handle_intr : List Event → Nat → nvgpu_pbdma_status_info
  /-- Result of `g->ops.mc.is_stall_and_eng_intr_pending(g, engine_id, &eng_intr_pending)`
  and the value stored in `eng_intr_pending`. -/
  is_stall_and_eng_intr_pending : List Event → Nat → Bool × Nat
  /-- Return code of `nvgpu_pmu_lock_acquire(g, g->pmu, PMU_MUTEX_ID_FIFO, &token)`. -/
  nvgpu_pmu_lock_acquire : List Event → Int
  /-- Return code of `nvgpu_pmu_lock_release(g, g->pmu, PMU_MUTEX_ID_FIFO, &token)`. -/
  nvgpu_pmu_lock_release : List Event → Int
  /-- Result of `nvgpu_tsg_from_ch(ch)`, `none` for `NULL`. -/
  nvgpu_tsg_from_ch : nvgpu_fifo → nvgpu_channel → Option nvgpu_tsg

/-! Trigger and runlist preempt -/

/-- `gv11b_fifo_preempt_trigger`. -/
def gv11b_fifo_preempt_trigger (K : Config) (id id_type : Nat) (g : gk20a) : gk20a :=
  if id_type = K.ID_TYPE_TSG then
    g.emit (Event.nvgpu_writel K.fifo_preempt_r
      (K.fifo_preempt_id_f id ||| K.fifo_preempt_type_tsg_f))
  else
    -- channel preempt is noop
    g

/-- `gv11b_fifo_issue_runlist_preempt`. -/
def gv11b_fifo_issue_runlist_preempt (K : Config) (O : Oracle) (runlists_mask : Nat)
    (g : gk20a) : gk20a :=
  let reg_val := O.nvgpu_readl g.trace K.fifo_runlist_preempt_r
  let g := g.emit (Event.nvgpu_readl K.fifo_runlist_preempt_r)
  let reg_val := reg_val ||| runlists_mask
  g.emit (Event.nvgpu_writel K.fifo_runlist_preempt_r reg_val)

/-- The loop `for (i = 0U; i < f->num_runlists; i++)` of
`gv11b_fifo_preempt_runlists_for_rc`, with `n` iterations left from index `i`. -/
def gv11b_fifo_preempt_runlists_for_rc_loop (K : Config) (runlists_mask : Nat) :
    Nat → Nat → nvgpu_fifo → nvgpu_fifo
  | 0, _, f => f
  | n + 1, i, f =>
    let runlist := f.active_runlist_info i
    let f :=
      if K.fifo_runlist_preempt_runlist_m runlist.runlist_id &&& runlists_mask ≠ 0 then
        f.set_reset_eng_bitmask i runlist.eng_bitmask
      else f
    gv11b_fifo_preempt_runlists_for_rc_loop K runlists_mask n (i + 1) f

/-- `gv11b_fifo_preempt_runlists_for_rc`. -/
def gv11b_fifo_preempt_runlists_for_rc (K : Config) (O : Oracle) (runlists_mask : Nat)
    (g : gk20a) : gk20a :=
  let mutex_ret : Int := if K.CONFIG_NVGPU_LS_PMU then O.nvgpu_pmu_lock_acquire g.trace else 0
  let g := if K.CONFIG_NVGPU_LS_PMU then g.emit Event.nvgpu_pmu_lock_acquire else g
  -- issue runlist preempt
  let g := gv11b_fifo_issue_runlist_preempt K O runlists_mask g
  let g :=
    if K.CONFIG_NVGPU_RECOVERY then
      { g with fifo := (gv11b_fifo_preempt_runlists_for_rc_loop K runlists_mask
          g.fifo.num_runlists 0 g.fifo) }
    else g
  if K.CONFIG_NVGPU_LS_PMU = true ∧ mutex_ret = 0 then
    g.emit Event.nvgpu_pmu_lock_release
  else g

/-! Pollers -/

/-- The `do ... while (nvgpu_timeout_expired(&timeout) == 0)` loop of
`gv11b_fifo_preempt_poll_pbdma`, entered with the locals `delay`,
`loop_count` and `ret`; the result is `ret` at loop exit. -/
def gv11b_fifo_preempt_poll_pbdma_loop (K : Config) (O : Oracle) (tsgid pbdma_id : Nat) :
    Nat → Nat → Nat → Int → gk20a → Option (Int × gk20a)
  | 0, _, _, _, _ => none
  | fuel + 1, delay, loop_count, ret, g =>
    if O.nvgpu_platform_is_silicon = false ∧
        K.PREEMPT_PENDING_POLL_PRE_SI_RETRIES ≤ loop_count then
      some (ret, g)
    else
      let loop_count := if O.nvgpu_platform_is_silicon = false then loop_count + 1 else loop_count
      let pbdma_status := O.pbdma_handle_intr g.trace pbdma_id
      let g := g.emit (Event.pbdma_handle_intr pbdma_id)
      let ret := fifo_preempt_check_tsg_on_pbdma tsgid pbdma_status
      if ret = 0 then
        some (ret, g)
      else
        let g := g.emit (Event.nvgpu_usleep_range delay (delay * 2 % 2 ^ 32))
        let delay := min ((delay <<< 1) % 2 ^ 32) K.POLL_DELAY_MAX_US
        let expired := O.nvgpu_timeout_expired g.trace
        let g := g.emit Event.nvgpu_timeout_expired
        if expired = 0 then
          gv11b_fifo_preempt_poll_pbdma_loop K O tsgid pbdma_id fuel delay loop_count ret g
        else
          some (ret, g)

/-- `gv11b_fifo_preempt_poll_pbdma`. -/
def gv11b_fifo_preempt_poll_pbdma (K : Config) (O : Oracle) (fuel : Nat)
    (tsgid pbdma_id : Nat) (g : gk20a) : Option (Int × gk20a) :=
  let g := g.emit (Event.poll_pbdma tsgid pbdma_id)
  -- timeout in milli seconds
  let ret := O.nvgpu_timeout_init g.trace
  let g := g.emit Event.nvgpu_timeout_init
  if ret ≠ 0 then
    some (ret, g.emit (Event.poll_pbdma_ret pbdma_id ret))
  else
    -- Default return value: -EBUSY
    match gv11b_fifo_preempt_poll_pbdma_loop K O tsgid pbdma_id fuel K.POLL_DELAY_MIN_US 0
        (-EBUSY) g with
    | none => none
    | some (ret, g) => some (ret, g.emit (Event.poll_pbdma_ret pbdma_id ret))

/-- The `do ... while` loop of `gv11b_fifo_preempt_poll_eng`, entered with
the locals `delay`, `loop_count` and `ret` and with `*reset_eng_bitmask`; the
result is `ret` and `*reset_eng_bitmask` at loop exit. -/
def gv11b_fifo_preempt_poll_eng_loop (K : Config) (O : Oracle) (id engine_id : Nat) :
    Nat → Nat → Nat → Int → Nat → gk20a → Option (Int × Nat × gk20a)
  | 0, _, _, _, _, _ => none
  | fuel + 1, delay, loop_count, ret, reset_eng_bitmask, g =>
    if O.nvgpu_platform_is_silicon = false ∧
        K.PREEMPT_PENDING_POLL_PRE_SI_RETRIES ≤ loop_count then
      some (ret, reset_eng_bitmask, g)
    else
      let loop_count := if O.nvgpu_platform_is_silicon = false then loop_count + 1 else loop_count
      let eng_stat := O.nvgpu_readl g.trace (K.fifo_engine_status_r engine_id)
      let g := g.emit (Event.nvgpu_readl (K.fifo_engine_status_r engine_id))
      let ctx_stat := K.fifo_engine_status_ctx_status_v eng_stat
      let eng_intr_pending := (O.is_stall_and_eng_intr_pending g.trace engine_id).2
      let g := g.emit (Event.is_stall_and_eng_intr_pending engine_id)
      let chk := fifo_check_eng_intr_pending K id eng_stat ctx_stat eng_intr_pending
        engine_id reset_eng_bitmask
      let ret := chk.1
      let reset_eng_bitmask := chk.2
      if ret = 0 then
        some (ret, reset_eng_bitmask, g)
      else
        let g := g.emit (Event.nvgpu_usleep_range delay (delay * 2 % 2 ^ 32))
        let delay := min ((delay <<< 1) % 2 ^ 32) K.POLL_DELAY_MAX_US
        let expired := O.nvgpu_timeout_expired g.trace
        let g := g.emit Event.nvgpu_timeout_expired
        if expired = 0 then
          gv11b_fifo_preempt_poll_eng_loop K O id engine_id fuel delay loop_count ret
            reset_eng_bitmask g
        else
          some (ret, reset_eng_bitmask, g)

/-- `gv11b_fifo_preempt_poll_eng`: the return code, the updated
`*reset_eng_bitmask` and the device. -/
def gv11b_fifo_preempt_poll_eng (K : Config) (O : Oracle) (fuel : Nat)
    (id engine_id reset_eng_bitmask : Nat) (g : gk20a) : Option (Int × Nat × gk20a) :=
  let g := g.emit (Event.poll_eng id engine_id)
  -- timeout in milli seconds
  let ret := O.nvgpu_timeout_init g.trace
  let g := g.emit Event.nvgpu_timeout_init
  if ret ≠ 0 then
    some (ret, reset_eng_bitmask, g.emit (Event.poll_eng_ret engine_id ret))
  else
    match gv11b_fifo_preempt_poll_eng_loop K O id engine_id fuel K.POLL_DELAY_MIN_US 0
        (-EBUSY) reset_eng_bitmask g with
    | none => none
    | some (ret, reset_eng_bitmask, g) =>
      if ret ≠ 0 then
        some (ret, reset_eng_bitmask ||| BIT32 engine_id,
          g.emit (Event.poll_eng_ret engine_id ret))
      else
        some (ret, reset_eng_bitmask, g.emit (Event.poll_eng_ret engine_id ret))

/-! Aggregate poll -/

/-- Modelled from the spec: `find_next_bit` of `nvgpu/bitops.h`, scanning at
most `n` positions upwards from `offset`: the first position whose bit is set
in `addr`, or `size` when there is none. -/
def find_next_bit_from (addr size : Nat) : Nat → Nat → Nat
  | 0, _ => size
  | n + 1, offset =>
    if addr.testBit offset then offset else find_next_bit_from addr size n (offset + 1)

/-- Modelled from the spec: `find_next_bit(addr, size, offset)` of
`nvgpu/bitops.h`, the lowest set bit position in `[offset, size)`, or `size`. -/
def find_next_bit (addr size offset : Nat) : Nat :=
  find_next_bit_from addr size (size - offset) offset

/-- Modelled from the spec: `find_first_bit(addr, size)` of `nvgpu/bitops.h`. -/
def find_first_bit (addr size : Nat) : Nat :=
  find_next_bit addr size 0

/-- Modelled from the spec: the iteration of the macro
`for_each_set_bit(bit, addr, size)` of `nvgpu/bitops.h`,
`for (; bit < size; bit = find_next_bit(addr, size, bit + 1)) body`, with `n`
iterations allowed.  The body may fail to return (`none`). -/
def for_each_set_bit_from {σ : Type} (addr size : Nat) (body : Nat → σ → Option σ) :
    Nat → Nat → σ → Option σ
  | 0, bit, st => if bit < size then none else some st
  | n + 1, bit, st =>
    if bit < size then
      match body bit st with
      | none => none
      | some st => for_each_set_bit_from addr size body n (find_next_bit addr size (bit + 1)) st
    else some st

/-- Modelled from the spec: the macro `for_each_set_bit(bit, addr, size)`. -/
def for_each_set_bit {σ : Type} (addr size : Nat) (body : Nat → σ → Option σ) (st : σ) :
    Option σ :=
  for_each_set_bit_from addr size body size (find_first_bit addr size) st

/-- Body of the PBDMA loop of `gv11b_fifo_is_preempt_pending`, on the local
`ret` and the device. -/
def gv11b_fifo_is_preempt_pending_pbdma_body (K : Config) (O : Oracle) (fuel tsgid : Nat)
    (bit : Nat) (st : Int × gk20a) : Option (Int × gk20a) :=
  let pbdma_id := bit
  match gv11b_fifo_preempt_poll_pbdma K O fuel tsgid pbdma_id st.2 with
  | none => none
  | some (err, g) => some (if err ≠ 0 then err else st.1, g)

/-- Body of the engine loop of `gv11b_fifo_is_preempt_pending`, on the local
`ret` and the device. -/
def gv11b_fifo_is_preempt_pending_eng_body (K : Config) (O : Oracle)
    (fuel tsgid runlist_id : Nat) (bit : Nat) (st : Int × gk20a) : Option (Int × gk20a) :=
  let engine_id := bit
  match gv11b_fifo_preempt_poll_eng K O fuel tsgid engine_id
      (st.2.fifo.runlist runlist_id).reset_eng_bitmask st.2 with
  | none => none
  | some (err, reset_eng_bitmask, g) =>
    some (if err ≠ 0 ∧ st.1 = 0 then err else st.1,
      g.set_reset_eng_bitmask runlist_id reset_eng_bitmask)

/-- `gv11b_fifo_is_preempt_pending`. -/
def gv11b_fifo_is_preempt_pending (K : Config) (O : Oracle) (fuel : Nat)
    (id id_type : Nat) (g : gk20a) : Option (Int × gk20a) :=
  let f := g.fifo
  let runlist_id :=
    if id_type = K.ID_TYPE_TSG then (f.tsg id).runlist_id else (f.channel id).runlist_id
  let tsgid := if id_type = K.ID_TYPE_TSG then id else (f.channel id).tsgid
  let runlist_served_pbdmas := (f.runlist runlist_id).pbdma_bitmask
  let runlist_served_engines := (f.runlist runlist_id).eng_bitmask
  match for_each_set_bit runlist_served_pbdmas f.num_pbdma
      (gv11b_fifo_is_preempt_pending_pbdma_body K O fuel tsgid) (0, g) with
  | none => none
  | some (ret, g) =>
    let g := g.set_reset_eng_bitmask runlist_id 0
    for_each_set_bit runlist_served_engines f.max_engines
      (gv11b_fifo_is_preempt_pending_eng_body K O fuel tsgid runlist_id) (ret, g)

/-! Orchestrator -/

/-- The entries of `g->ops.fifo` called through the HAL table by this file. -/
structure gops_fifo where
  /-- Entry `g->ops.fifo.preempt_trigger`. -/
  preempt_trigger : Nat → Nat → gk20a → gk20a
  /-- Entry `g->ops.fifo.is_preempt_pending`; `none` when it does not return. -/
  is_preempt_pending : Nat → Nat → gk20a → Option (Int × gk20a)

/-- `gv11b_fifo_preempt_locked`. -/
def gv11b_fifo_preempt_locked (ops : gops_fifo) (id id_type : Nat) (g : gk20a) :
    Option (Int × gk20a) :=
  let g := ops.preempt_trigger id id_type g
  -- poll for preempt done
  ops.is_preempt_pending id id_type g

/-- `gv11b_fifo_preempt_tsg`. -/
def gv11b_fifo_preempt_tsg (K : Config) (O : Oracle) (ops : gops_fifo) (tsg : nvgpu_tsg)
    (g : gk20a) : Option (Int × gk20a) :=
  let runlist_id := tsg.runlist_id
  if runlist_id = K.NVGPU_INVALID_RUNLIST_ID then
    some (0, g)
  else
    let g := g.emit (Event.nvgpu_mutex_acquire runlist_id)
    -- WAR for Bug 2065990
    let g := g.emit (Event.nvgpu_tsg_disable_sched tsg.tsgid)
    let mutex_ret : Int :=
      if K.CONFIG_NVGPU_LS_PMU then O.nvgpu_pmu_lock_acquire g.trace else 0
    let g := if K.CONFIG_NVGPU_LS_PMU then g.emit Event.nvgpu_pmu_lock_acquire else g
    match gv11b_fifo_preempt_locked ops tsg.tsgid K.ID_TYPE_TSG g with
    | none => none
    | some (ret, g) =>
      let g :=
        if K.CONFIG_NVGPU_LS_PMU = true ∧ mutex_ret = 0 then
          g.emit Event.nvgpu_pmu_lock_release
        else g
      -- WAR for Bug 2065990
      let g := g.emit (Event.nvgpu_tsg_enable_sched tsg.tsgid)
      let g := g.emit (Event.nvgpu_mutex_release runlist_id)
      let g :=
        if ret ≠ 0 then
          if O.nvgpu_platform_is_silicon then g
          else g.emit (Event.nvgpu_rc_preempt_timeout tsg.tsgid)
        else g
      some (ret, g)

/-- `gv11b_fifo_preempt_channel`, with the HAL entry `g->ops.fifo.preempt_tsg`
as `preempt_tsg`. -/
def gv11b_fifo_preempt_channel (O : Oracle)
    (preempt_tsg : nvgpu_tsg → gk20a → Option (Int × gk20a)) (ch : nvgpu_channel)
    (g : gk20a) : Option (Int × gk20a) :=
  match O.nvgpu_tsg_from_ch g.fifo ch with
  | none => some (0, g)
  | some tsg =>
    -- Preempt tsg. Channel preempt is NOOP
    preempt_tsg tsg g

/-- The gv11b HAL binding of the `g->ops.fifo` entries used here. -/
def gv11b_ops (K : Config) (O : Oracle) (fuel : Nat) : gops_fifo where
  preempt_trigger := gv11b_fifo_preempt_trigger K
  is_preempt_pending := gv11b_fifo_is_preempt_pending K O fuel

/-! Reading a trace -/

/-- Whether the runlist lock of `runlist_id` is held after the calls of a trace. -/
def runlist_lock_held (runlist_id : Nat) (tr : List Event) : Bool :=
  tr.foldl (fun held e =>
    match e with
    | Event.nvgpu_mutex_acquire r => if r = runlist_id then true else held
    | Event.nvgpu_mutex_release r => if r = runlist_id then false else held
    | _ => held) false

/-- Whether scheduling of TSG `tsgid` is enabled after the calls of a trace. -/
def tsg_sched_enabled (tsgid : Nat) (tr : List Event) : Bool :=
  tr.foldl (fun en e =>
    match e with
    | Event.nvgpu_tsg_disable_sched t => if t = tsgid then false else en
    | Event.nvgpu_tsg_enable_sched t => if t = tsgid then true else en
    | _ => en) true

/-- The call markers of the two pollers. -/
def Event.is_poll_call (e : Event) : Bool :=
  match e with
  | Event.poll_pbdma _ _ => true
  | Event.poll_eng _ _ => true
  | _ => false

/-- The return markers of the two pollers. -/
def Event.is_poll_ret (e : Event) : Bool :=
  match e with
  | Event.poll_pbdma_ret _ _ => true
  | Event.poll_eng_ret _ _ => true
  | _ => false

/-- The calls made inside a poll loop: register reads, timer calls, sleeps
and status queries. -/
def Event.is_poll_internal (e : Event) : Bool :=
  match e with
  | Event.nvgpu_readl _ => true
  | Event.nvgpu_timeout_init => true
  | Event.nvgpu_timeout_expired => true
  | Event.nvgpu_usleep_range _ _ => true
  | Event.pbdma_handle_intr _ => true
  | Event.is_stall_and_eng_intr_pending _ => true
  | _ => false

/-- The events recorded by the pollers: their markers and the calls made
inside their loops. -/
def Event.is_poll_event (e : Event) : Bool :=
  e.is_poll_call || e.is_poll_ret || e.is_poll_internal

/-- The runlist lock calls, the scheduling calls and the register writes. -/
def Event.is_lock_sched_write (e : Event) : Bool :=
  match e with
  | Event.nvgpu_mutex_acquire _ => true
  | Event.nvgpu_mutex_release _ => true
  | Event.nvgpu_tsg_disable_sched _ => true
  | Event.nvgpu_tsg_enable_sched _ => true
  | Event.nvgpu_writel _ _ => true
  | _ => false

/-- The calls of the recovery path `nvgpu_rc_preempt_timeout`. -/
def Event.is_recovery (e : Event) : Bool :=
  match e with
  | Event.nvgpu_rc_preempt_timeout _ => true
  | _ => false

/-! Vocabulary of the statements -/

/-- The bit positions below `size` that are set in `mask`, ascending. -/
def set_bits (mask size : Nat) : List Nat :=
  (List.range size).filter (fun i => mask.testBit i)

/-- Run `body` once on every element of a list, in order, whatever the
earlier results are; `none` only when some run does not return. -/
def poll_each {σ : Type} (body : Nat → σ → Option σ) : List Nat → σ → Option σ
  | [], st => some st
  | b :: bs, st =>
    match body b st with
    | none => none
    | some st => poll_each body bs st

/-- The runlist id that `gv11b_fifo_is_preempt_pending` resolves `id` to. -/
def resolve_runlist_id (K : Config) (f : nvgpu_fifo) (id id_type : Nat) : Nat :=
  if id_type = K.ID_TYPE_TSG then (f.tsg id).runlist_id else (f.channel id).runlist_id

/-- The TSG id that `gv11b_fifo_is_preempt_pending` resolves `id` to. -/
def resolve_tsgid (K : Config) (f : nvgpu_fifo) (id id_type : Nat) : Nat :=
  if id_type = K.ID_TYPE_TSG then id else (f.channel id).tsgid

/-- The bitwise OR of `acc` with `BIT32 e` for every `e` of a list. -/
def or_bits (acc : Nat) (l : List Nat) : Nat :=
  l.foldl (fun a e => a ||| BIT32 e) acc

/-- The status samples of the pollers: PBDMA status queries and register
reads. -/
def Event.is_sample (e : Event) : Bool :=
  match e with
  | Event.pbdma_handle_intr _ => true
  | Event.nvgpu_readl _ => true
  | _ => false

/-- The sleeps. -/
def Event.is_sleep (e : Event) : Bool :=
  match e with
  | Event.nvgpu_usleep_range _ _ => true
  | _ => false

/-- The PMU mutex releases. -/
def Event.is_pmu_release (e : Event) : Bool :=
  match e with
  | Event.nvgpu_pmu_lock_release => true
  | _ => false

/-- The local `delay` of a poll loop at the start of its iteration `k`
(counted from 0): `POLL_DELAY_MIN_US`, then
`min_t(u32, delay << 1, POLL_DELAY_MAX_US)` of the previous one. -/
def poll_delay (K : Config) : Nat → Nat
  | 0 => K.POLL_DELAY_MIN_US
  | k + 1 => min ((poll_delay K k <<< 1) % 2 ^ 32) K.POLL_DELAY_MAX_US

/-- The sleep requested in iteration `k` of a poll loop:
`nvgpu_usleep_range(delay, delay * 2U)`. -/
def poll_sleep (K : Config) (k : Nat) : Event :=
  Event.nvgpu_usleep_range (poll_delay K k) (poll_delay K k * 2 % 2 ^ 32)

/-- The calls of `n` consecutive iterations of the PBDMA poll loop, from
iteration `j` on, in each of which the sample was classified busy: status
query, sleep, timeout check. -/
def pbdma_busy_iterations (K : Config) (pbdma_id : Nat) : Nat → Nat → List Event
  | _, 0 => []
  | j, n + 1 =>
    [Event.pbdma_handle_intr pbdma_id, poll_sleep K j, Event.nvgpu_timeout_expired] ++
      pbdma_busy_iterations K pbdma_id (j + 1) n

/-- The calls of `n` consecutive iterations of the engine poll loop, from
iteration `j` on, in each of which the sample was classified busy: status
register read, interrupt query, sleep, timeout check. -/
def eng_busy_iterations (K : Config) (engine_id : Nat) : Nat → Nat → List Event
  | _, 0 => []
  | j, n + 1 =>
    [Event.nvgpu_readl (K.fifo_engine_status_r engine_id),
      Event.is_stall_and_eng_intr_pending engine_id, poll_sleep K j,
      Event.nvgpu_timeout_expired] ++ eng_busy_iterations K engine_id (j + 1) n

/-- What `gv11b_fifo_preempt_poll_pbdma` has recorded when it starts
iteration `k` of its loop: its entry marker, `nvgpu_timeout_init` and `k`
busy iterations. -/
def pbdma_poll_events (K : Config) (tsgid pbdma_id k : Nat) : List Event :=
  [Event.poll_pbdma tsgid pbdma_id, Event.nvgpu_timeout_init] ++
    pbdma_busy_iterations K pbdma_id 0 k

/-- What `gv11b_fifo_preempt_poll_eng` has recorded when it starts iteration
`k` of its loop. -/
def eng_poll_events (K : Config) (id engine_id k : Nat) : List Event :=
  [Event.poll_eng id engine_id, Event.nvgpu_timeout_init] ++
    eng_busy_iterations K engine_id 0 k

/-- The classification by `fifo_preempt_check_tsg_on_pbdma` of the status
sampled when the trace is `tr`. -/
def pbdma_check_at (O : Oracle) (tsgid pbdma_id : Nat) (tr : List Event) : Int :=
  fifo_preempt_check_tsg_on_pbdma tsgid (O.pbdma_handle_intr tr pbdma_id)

/-- The result of `fifo_check_eng_intr_pending` on the engine status and the
interrupt-pending value sampled when the trace is `tr`. -/
def eng_check_at (K : Config) (O : Oracle) (id engine_id reset_eng_bitmask : Nat)
    (tr : List Event) : Int × Nat :=
  fifo_check_eng_intr_pending K id
    (O.nvgpu_readl tr (K.fifo_engine_status_r engine_id))
    (K.fifo_engine_status_ctx_status_v
      (O.nvgpu_readl tr (K.fifo_engine_status_r engine_id)))
    (O.is_stall_and_eng_intr_pending
      (tr ++ [Event.nvgpu_readl (K.fifo_engine_status_r engine_id)]) engine_id).2
    engine_id reset_eng_bitmask

/-- The value of `nvgpu_timeout_expired` at the end of a busy PBDMA poll
iteration `k` that started with the trace `tr`. -/
def pbdma_expired_at (K : Config) (O : Oracle) (pbdma_id k : Nat) (tr : List Event) : Int :=
  O.nvgpu_timeout_expired (tr ++ [Event.pbdma_handle_intr pbdma_id, poll_sleep K k])

/-- The value of `nvgpu_timeout_expired` at the end of a busy engine poll
iteration `k` that started with the trace `tr`. -/
def eng_expired_at (K : Config) (O : Oracle) (engine_id k : Nat) (tr : List Event) : Int :=
  O.nvgpu_timeout_expired (tr ++ [Event.nvgpu_readl (K.fifo_engine_status_r engine_id),
    Event.is_stall_and_eng_intr_pending engine_id, poll_sleep K k])

/-- The platform `O` with the behaviour of `nvgpu_pmu_lock_acquire` and of
`nvgpu_pmu_lock_release` replaced by `acquire` and `release`; every other
collaborator answers as in `O`. -/
def Oracle.with_pmu_lock (O : Oracle) (acquire release : List Event → Int) : Oracle :=
  { O with nvgpu_pmu_lock_acquire := acquire, nvgpu_pmu_lock_release := release }

/-- The observation of a finished call used to compare two runs: the return
value, the fifo, and the calls other than `nvgpu_pmu_lock_release`. -/
def outcome_without_pmu_release (x : Int × gk20a) : Int × nvgpu_fifo × List Event :=
  (x.1, x.2.fifo, x.2.trace.filter (fun e => !e.is_pmu_release))

/-- One engine poll of an invocation of `gv11b_fifo_is_preempt_pending`: the
engine polled, the trace on entry to `gv11b_fifo_preempt_poll_eng`, the code
the poll returned, the bits it contributed (the value it returns in
`*reset_eng_bitmask` when entered with 0), and the trace on return. -/
structure eng_poll_record where
  /-- The engine polled. -/
  engine_id : Nat
  /-- The trace when the poll was entered. -/
  entry : List Event
  /-- The return code of the poll. -/
  ret : Int
  /-- The bits contributed by the poll. -/
  bits : Nat
  /-- The trace when the poll returned. -/
  exit : List Event

/-- The engine polls made one after the other for the engines of a list,
the first one entered on the trace `tr`, each later one on the trace the
poll before it returned; the list ends at a poll that does not return.  The
fifo `f` is the one the polls run on (they do not read it). -/
def eng_poll_records (K : Config) (O : Oracle) (fuel id : Nat) (f : nvgpu_fifo) :
    List Nat → List Event → List eng_poll_record
  | [], _ => []
  | e :: l, tr =>
    match gv11b_fifo_preempt_poll_eng K O fuel id e 0 ⟨tr, f⟩ with
    | none => []
    | some (r, bits, g1) =>
      ⟨e, tr, r, bits, g1.trace⟩ :: eng_poll_records K O fuel id f l g1.trace

/-- The bitwise OR, starting from 0, of the values of a list. -/
def or_all (l : List Nat) : Nat :=
  l.foldl (fun a b => a ||| b) 0

/-! Sample instances -/

/-- A configuration with the gv11b register layout, delays of 20 us to 2 ms
and a retry ceiling of 3. -/
def sample_config : Config where
  ID_TYPE_TSG := 1
  NVGPU_INVALID_RUNLIST_ID := 4294967295
  POLL_DELAY_MIN_US := 20
  POLL_DELAY_MAX_US := 2000
  PREEMPT_PENDING_POLL_PRE_SI_RETRIES := 3
  CONFIG_NVGPU_LS_PMU := true
  CONFIG_NVGPU_RECOVERY := true
  fifo_preempt_r := 0x2634
  fifo_preempt_id_f := fun v => v &&& 0xfff
  fifo_preempt_type_tsg_f := 0x1000000
  fifo_runlist_preempt_r := 0x2638
  fifo_runlist_preempt_runlist_m := fun i => (1 <<< i) % 2 ^ 32
  fifo_engine_status_r := fun i => 0x2640 + i * 8
  fifo_engine_status_ctx_status_v := fun r => (r >>> 13) &&& 7
  fifo_engine_status_id_v := fun r => r &&& 0xfff
  fifo_engine_status_next_id_v := fun r => (r >>> 16) &&& 0xfff
  fifo_engine_status_ctx_status_valid_v := 1
  fifo_engine_status_ctx_status_ctxsw_load_v := 5
  fifo_engine_status_ctx_status_ctxsw_save_v := 6
  fifo_engine_status_ctx_status_ctxsw_switch_v := 7

/-- A fifo with one runlist object, of runlist id 2, serving the PBDMAs of
`pbdma_bitmask` and the engines of `eng_bitmask`; every TSG and channel is on
runlist 2 and every channel belongs to TSG 7. -/
def sample_fifo (pbdma_bitmask eng_bitmask reset_eng_bitmask : Nat) : nvgpu_fifo where
  num_pbdma := 4
  max_engines := 4
  num_runlists := 1
  tsg := fun id => { tsgid := id, runlist_id := 2 }
  channel := fun id => { chid := id, tsgid := 7, runlist_id := 2 }
  runlist_info := fun _ => 0
  active_runlist_info := fun _ =>
    { runlist_id := 2, pbdma_bitmask := pbdma_bitmask, eng_bitmask := eng_bitmask,
      reset_eng_bitmask := reset_eng_bitmask }

/-- A silicon platform on which every PBDMA reports phase valid with id 7 on
its first sample and id 9 afterwards, every engine status register reads 0
(phase invalid), no interrupt is pending, the timeout never expires and the
PMU mutex is granted. -/
def sample_oracle : Oracle where
  nvgpu_platform_is_silicon := true
  nvgpu_readl := fun _ _ => 0
  nvgpu_timeout_init := fun _ => 0
  nvgpu_timeout_expired := fun _ => 0
  pbdma_handle_intr := fun tr pbdma_id =>
    { pbdma_reg_status := 0, chsw_status := NVGPU_PBDMA_CHSW_STATUS_VALID,
      id := if tr.count (Event.pbdma_handle_intr pbdma_id) = 0 then 7 else 9, next_id := 0 }
  is_stall_and_eng_intr_pending := fun _ _ => (false, 0)
  nvgpu_pmu_lock_acquire := fun _ => 0
  nvgpu_pmu_lock_release := fun _ => 0
  nvgpu_tsg_from_ch := fun f ch => some (f.tsg ch.tsgid)

/-- A platform off silicon on which TSG 7 never leaves: every PBDMA reports
phase valid with id 7, every engine status register reads phase valid with
id 7, no interrupt is pending, the timeout never expires, and the PMU mutex
is refused. -/
def stuck_oracle : Oracle where
  nvgpu_platform_is_silicon := false
  nvgpu_readl := fun _ _ => 0x2007
  nvgpu_timeout_init := fun _ => 0
  nvgpu_timeout_expired := fun _ => 0
  pbdma_handle_intr := fun _ _ =>
    { pbdma_reg_status := 0, chsw_status := NVGPU_PBDMA_CHSW_STATUS_VALID, id := 7, next_id := 0 }
  is_stall_and_eng_intr_pending := fun _ _ => (false, 0)
  nvgpu_pmu_lock_acquire := fun _ => -16
  nvgpu_pmu_lock_release := fun _ => 0
  nvgpu_tsg_from_ch := fun _ _ => none

/-- A silicon platform on which the first `nvgpu_timeout_init` fails with
-22 and the later ones succeed, every PBDMA keeps reporting phase valid with
id 7, and the timeout is found expired at the first check. -/
def init_fail_oracle : Oracle where
  nvgpu_platform_is_silicon := true
  nvgpu_readl := fun _ _ => 0
  nvgpu_timeout_init := fun tr => if tr.count Event.nvgpu_timeout_init = 0 then -22 else 0
  nvgpu_timeout_expired := fun _ => -110
  pbdma_handle_intr := fun _ _ =>
    { pbdma_reg_status := 0, chsw_status := NVGPU_PBDMA_CHSW_STATUS_VALID, id := 7, next_id := 0 }
  is_stall_and_eng_intr_pending := fun _ _ => (false, 0)
  nvgpu_pmu_lock_acquire := fun _ => 0
  nvgpu_pmu_lock_release := fun _ => 0
  nvgpu_tsg_from_ch := fun f ch => some (f.tsg ch.tsgid)

/-- The platforms of the end-to-end scenarios, on or off silicon and with
the PMU mutex granted or refused: every PBDMA reports phase valid with id 7
on its first sample and id 9 afterwards; the engine status registers read
phase valid with id 7 when `engine_stuck` and 0 (phase invalid) otherwise;
no interrupt is pending; `nvgpu_timeout_init` succeeds and each timeout is
found expired at its check number `checks` and not before. -/
def scenario_oracle (silicon pmu_ok engine_stuck : Bool) (checks : Nat) : Oracle where
  nvgpu_platform_is_silicon := silicon
  nvgpu_readl := fun _ _ => if engine_stuck then 0x2007 else 0
  nvgpu_timeout_init := fun _ => 0
  nvgpu_timeout_expired := fun tr =>
    if checks ≤ ((tr.reverse.takeWhile
        (fun e => !(e == Event.nvgpu_timeout_init))).count Event.nvgpu_timeout_expired) + 1
    then -110 else 0
  pbdma_handle_intr := fun tr pbdma_id =>
    { pbdma_reg_status := 0, chsw_status := NVGPU_PBDMA_CHSW_STATUS_VALID,
      id := if tr.count (Event.pbdma_handle_intr pbdma_id) = 0 then 7 else 9, next_id := 0 }
  is_stall_and_eng_intr_pending := fun _ _ => (false, 0)
  nvgpu_pmu_lock_acquire := fun _ => if pmu_ok then 0 else -16
  nvgpu_pmu_lock_release := fun _ => 0
  nvgpu_tsg_from_ch := fun f ch => some (f.tsg ch.tsgid)

/-! Theorems -/

/-- C1: for a PBDMA status whose channel-switch phase is invalid, valid,
save, load or switch, `fifo_preempt_check_tsg_on_pbdma` returns 0 exactly
when the phase is valid or save and the reported id differs from the target,
or load and the next id differs, or switch and the target is neither the id
nor the next id, or invalid; in all other cases it returns `-EBUSY`, which is
not 0. -/
theorem fifo_preempt_check_tsg_on_pbdma_table (tsgid : Nat)
    (st : nvgpu_pbdma_status_info)
    (hphase : st.chsw_status = NVGPU_PBDMA_CHSW_STATUS_INVALID ∨
      st.chsw_status = NVGPU_PBDMA_CHSW_STATUS_VALID ∨
      st.chsw_status = NVGPU_PBDMA_CHSW_STATUS_SAVE ∨
      st.chsw_status = NVGPU_PBDMA_CHSW_STATUS_LOAD ∨
      st.chsw_status = NVGPU_PBDMA_CHSW_STATUS_SWITCH) :
    (fifo_preempt_check_tsg_on_pbdma tsgid st =
      if ((st.chsw_status = NVGPU_PBDMA_CHSW_STATUS_VALID ∨
            st.chsw_status = NVGPU_PBDMA_CHSW_STATUS_SAVE) ∧ st.id ≠ tsgid) ∨
          (st.chsw_status = NVGPU_PBDMA_CHSW_STATUS_LOAD ∧ st.next_id ≠ tsgid) ∨
          (st.chsw_status = NVGPU_PBDMA_CHSW_STATUS_SWITCH ∧
            tsgid ≠ st.id ∧ tsgid ≠ st.next_id) ∨
          st.chsw_status = NVGPU_PBDMA_CHSW_STATUS_INVALID
      then 0 else -EBUSY) ∧ -EBUSY ≠ 0 := by
  refine ⟨?_, by decide⟩
  obtain ⟨ps, ph, id, nid⟩ := st
  simp only [fifo_preempt_check_tsg_on_pbdma, nvgpu_pbdma_status_is_chsw_valid,
    nvgpu_pbdma_status_is_chsw_save, nvgpu_pbdma_status_is_chsw_load,
    nvgpu_pbdma_status_is_chsw_switch, NVGPU_PBDMA_CHSW_STATUS_INVALID,
    NVGPU_PBDMA_CHSW_STATUS_VALID, NVGPU_PBDMA_CHSW_STATUS_SAVE,
    NVGPU_PBDMA_CHSW_STATUS_LOAD, NVGPU_PBDMA_CHSW_STATUS_SWITCH] at hphase ⊢
  have e1 : (tsgid = id) = (id = tsgid) := propext eq_comm
  have e2 : (tsgid = nid) = (nid = tsgid) := propext eq_comm
  rcases hphase with h | h | h | h | h <;> subst h <;>
    by_cases h1 : id = tsgid <;> by_cases h2 : nid = tsgid <;> simp [h1, h2, e1, e2]

/-- Witness of C1: PBDMA in phase valid still holding the target TSG 7. -/
theorem fifo_preempt_check_tsg_on_pbdma_table_witness :
    (fifo_preempt_check_tsg_on_pbdma 7
        { pbdma_reg_status := 0, chsw_status := NVGPU_PBDMA_CHSW_STATUS_VALID,
          id := 7, next_id := 0 } = -EBUSY) ∧ -EBUSY ≠ 0 := by
  have h := fifo_preempt_check_tsg_on_pbdma_table 7
    { pbdma_reg_status := 0, chsw_status := NVGPU_PBDMA_CHSW_STATUS_VALID,
      id := 7, next_id := 0 } (Or.inr (Or.inl rfl))
  exact ⟨h.1.trans (by decide), h.2⟩

/-- C2: with pairwise different phase values and `engine_id < 32`,
`fifo_check_eng_intr_pending` follows the decision table.  Phase switch:
0 with the engine bit added if an interrupt is pending, else `-EBUSY` with
the bitmask unchanged.  Phase valid or save: if the current id is the target,
0 with the engine bit added if an interrupt is pending and `-EBUSY` with the
bitmask unchanged if not; if the current id differs, 0 with the bitmask
unchanged.  Phase load: the same with the next id.  Any other phase: 0 with
the bitmask unchanged. -/
theorem fifo_check_eng_intr_pending_table (K : Config) (id eng_stat ctx_stat
    eng_intr_pending engine_id reset_eng_bitmask : Nat)
    (hK : K.ctx_status_distinct) (hid : engine_id < 32) :
    (ctx_stat = K.fifo_engine_status_ctx_status_ctxsw_switch_v →
      fifo_check_eng_intr_pending K id eng_stat ctx_stat eng_intr_pending engine_id
          reset_eng_bitmask =
        if eng_intr_pending ≠ 0 then (0, reset_eng_bitmask ||| 2 ^ engine_id)
        else (-EBUSY, reset_eng_bitmask)) ∧
    (ctx_stat = K.fifo_engine_status_ctx_status_valid_v ∨
        ctx_stat = K.fifo_engine_status_ctx_status_ctxsw_save_v →
      fifo_check_eng_intr_pending K id eng_stat ctx_stat eng_intr_pending engine_id
          reset_eng_bitmask =
        if K.fifo_engine_status_id_v eng_stat ≠ id then (0, reset_eng_bitmask)
        else if eng_intr_pending ≠ 0 then (0, reset_eng_bitmask ||| 2 ^ engine_id)
        else (-EBUSY, reset_eng_bitmask)) ∧
    (ctx_stat = K.fifo_engine_status_ctx_status_ctxsw_load_v →
      fifo_check_eng_intr_pending K id eng_stat ctx_stat eng_intr_pending engine_id
          reset_eng_bitmask =
        if K.fifo_engine_status_next_id_v eng_stat ≠ id then (0, reset_eng_bitmask)
        else if eng_intr_pending ≠ 0 then (0, reset_eng_bitmask ||| 2 ^ engine_id)
        else (-EBUSY, reset_eng_bitmask)) ∧
    (ctx_stat ≠ K.fifo_engine_status_ctx_status_ctxsw_switch_v →
      ctx_stat ≠ K.fifo_engine_status_ctx_status_valid_v →
      ctx_stat ≠ K.fifo_engine_status_ctx_status_ctxsw_save_v →
      ctx_stat ≠ K.fifo_engine_status_ctx_status_ctxsw_load_v →
      fifo_check_eng_intr_pending K id eng_stat ctx_stat eng_intr_pending engine_id
          reset_eng_bitmask = (0, reset_eng_bitmask)) ∧
    -EBUSY ≠ 0 := by
  obtain ⟨d1, d2, d3, d4, d5⟩ := hK
  have hb : BIT32 engine_id = 2 ^ engine_id := by
    unfold BIT32
    rw [Nat.one_shiftLeft]
    exact Nat.mod_eq_of_lt (Nat.pow_lt_pow_right (by norm_num) hid)
  refine ⟨?_, ?_, ?_, ?_, by decide⟩
  · intro h
    simp [fifo_check_eng_intr_pending, h, hb]
  · intro h
    have hne : ctx_stat ≠ K.fifo_engine_status_ctx_status_ctxsw_switch_v := by
      rcases h with h | h <;> rw [h]
      · exact fun e => d1 e.symm
      · exact fun e => d2 e.symm
    by_cases hi : K.fifo_engine_status_id_v eng_stat = id
    · simp [fifo_check_eng_intr_pending, hne, h, hi, hb]
    · have hi2 : ¬ id = K.fifo_engine_status_id_v eng_stat := fun e => hi e.symm
      simp [fifo_check_eng_intr_pending, hne, h, hi, hi2]
  · intro h
    have hne1 : ctx_stat ≠ K.fifo_engine_status_ctx_status_ctxsw_switch_v := by
      rw [h]; exact fun e => d3 e.symm
    have hne2 : ¬ (ctx_stat = K.fifo_engine_status_ctx_status_valid_v ∨
        ctx_stat = K.fifo_engine_status_ctx_status_ctxsw_save_v) := by
      rw [h]; rintro (e | e)
      · exact d4 e.symm
      · exact d5 e.symm
    by_cases hi : K.fifo_engine_status_next_id_v eng_stat = id
    · simp only [fifo_check_eng_intr_pending, if_neg hne1, if_neg hne2]
      simp [h, hi, hb]
    · have hi2 : ¬ id = K.fifo_engine_status_next_id_v eng_stat := fun e => hi e.symm
      simp only [fifo_check_eng_intr_pending, if_neg hne1, if_neg hne2]
      simp [h, hi, hi2]
  · intro h1 h2 h3 h4
    simp [fifo_check_eng_intr_pending, h1, h2, h3, h4]

/-- Witness of C2: the sample configuration has pairwise different phases;
engine 1 in phase switch with an interrupt pending is confirmed and marked. -/
theorem fifo_check_eng_intr_pending_table_witness :
    sample_config.ctx_status_distinct ∧ 1 < 32 ∧
    fifo_check_eng_intr_pending sample_config 7 0xe007 7 1 1 4 = (0, 6) := by
  have hK : sample_config.ctx_status_distinct := by
    simp [Config.ctx_status_distinct, sample_config]
  have h := (fifo_check_eng_intr_pending_table sample_config 7 0xe007 7 1 1 4 hK
    (by decide)).1 rfl
  exact ⟨hK, by decide, h.trans (by decide)⟩

/-! Bit iteration -/

theorem find_next_bit_eq (addr size off : Nat) :
    find_next_bit addr size off =
      if off < size then
        (if addr.testBit off then off else find_next_bit addr size (off + 1))
      else size := by
  unfold find_next_bit
  by_cases h : off < size
  · obtain ⟨k, hk⟩ : ∃ k, size - off = k + 1 := ⟨size - off - 1, by omega⟩
    have hk2 : size - (off + 1) = k := by omega
    rw [hk, hk2]
    simp [find_next_bit_from, h]
  · have h0 : size - off = 0 := by omega
    rw [h0]
    simp [find_next_bit_from, h]

theorem for_each_set_bit_from_stop {σ : Type} (addr size : Nat)
    (body : Nat → σ → Option σ) (n : Nat) (st : σ) :
    for_each_set_bit_from addr size body n size st = some st := by
  cases n <;> simp [for_each_set_bit_from]

theorem for_each_set_bit_from_eq {σ : Type} (addr size : Nat)
    (body : Nat → σ → Option σ) :
    ∀ (k off n : Nat) (st : σ), size - off ≤ k → size - off ≤ n →
      for_each_set_bit_from addr size body n (find_next_bit addr size off) st =
        poll_each body
          ((List.range' off (size - off)).filter (fun i => addr.testBit i)) st := by
  intro k
  induction k with
  | zero =>
    intro off n st hk _
    have h0 : size - off = 0 := by omega
    have hlt : ¬ off < size := by omega
    rw [find_next_bit_eq, if_neg hlt, h0, for_each_set_bit_from_stop]
    simp [poll_each]
  | succ k ih =>
    intro off n st hk hn
    by_cases hlt : off < size
    · obtain ⟨m, hm⟩ : ∃ m, size - off = m + 1 := ⟨size - off - 1, by omega⟩
      have hm2 : size - (off + 1) = m := by omega
      rw [find_next_bit_eq, if_pos hlt, hm, List.range'_succ]
      by_cases hb : addr.testBit off = true
      · obtain ⟨n', hn'⟩ : ∃ n', n = n' + 1 := ⟨n - 1, by omega⟩
        subst hn'
        rw [if_pos hb, List.filter_cons_of_pos (by simpa using hb)]
        simp only [for_each_set_bit_from, if_pos hlt, poll_each]
        cases hbody : body off st with
        | none => rfl
        | some st' =>
          have := ih (off + 1) n' st' (by omega) (by omega)
          rw [hm2] at this
          simpa using this
      · rw [if_neg hb, List.filter_cons_of_neg (by simpa using hb)]
        have := ih (off + 1) n st (by omega) (by omega)
        rw [hm2] at this
        exact this
    · have h0 : size - off = 0 := by omega
      rw [find_next_bit_eq, if_neg hlt, h0, for_each_set_bit_from_stop]
      simp [poll_each]

theorem for_each_set_bit_eq {σ : Type} (addr size : Nat) (body : Nat → σ → Option σ)
    (st : σ) :
    for_each_set_bit addr size body st = poll_each body (set_bits addr size) st := by
  unfold for_each_set_bit find_first_bit set_bits
  have := for_each_set_bit_from_eq addr size body size 0 size st (by omega) (by omega)
  rw [this, List.range_eq_range']
  rfl

/-! Poll loops: effect on the trace and on the fifo -/

theorem poll_pbdma_loop_trace (K : Config) (O : Oracle) (tsgid pbdma_id : Nat) :
    ∀ (fuel delay loop_count : Nat) (ret : Int) (g : gk20a) (r : Int) (g' : gk20a),
      gv11b_fifo_preempt_poll_pbdma_loop K O tsgid pbdma_id fuel delay loop_count ret g =
        some (r, g') →
      g'.fifo = g.fifo ∧
        ∃ evs, g'.trace = g.trace ++ evs ∧ ∀ e ∈ evs, e.is_poll_internal = true := by
  intro fuel
  induction fuel with
  | zero => intro delay lc ret g r g' h; simp [gv11b_fifo_preempt_poll_pbdma_loop] at h
  | succ fuel ih =>
    intro delay lc ret g r g' h
    simp only [gv11b_fifo_preempt_poll_pbdma_loop] at h
    by_cases h1 : O.nvgpu_platform_is_silicon = false ∧
        K.PREEMPT_PENDING_POLL_PRE_SI_RETRIES ≤ lc
    · rw [if_pos h1] at h
      cases h
      exact ⟨rfl, [], by simp, by simp⟩
    · rw [if_neg h1] at h
      by_cases h2 : fifo_preempt_check_tsg_on_pbdma tsgid
          (O.pbdma_handle_intr g.trace pbdma_id) = 0
      · rw [if_pos h2] at h
        cases h
        exact ⟨rfl, [Event.pbdma_handle_intr pbdma_id], rfl,
          by simp [Event.is_poll_internal]⟩
      · rw [if_neg h2] at h
        have hint : ∀ e ∈ [Event.pbdma_handle_intr pbdma_id,
            Event.nvgpu_usleep_range delay (delay * 2 % 2 ^ 32),
            Event.nvgpu_timeout_expired], e.is_poll_internal = true := by
          intro e he
          simp only [List.mem_cons, List.mem_singleton, List.not_mem_nil, or_false] at he
          rcases he with rfl | rfl | rfl <;> rfl
        by_cases h3 : O.nvgpu_timeout_expired
            ((g.emit (Event.pbdma_handle_intr pbdma_id)).emit
              (Event.nvgpu_usleep_range delay (delay * 2 % 2 ^ 32))).trace = 0
        · rw [if_pos h3] at h
          obtain ⟨hf, evs, ht, hall⟩ := ih _ _ _ _ _ _ h
          refine ⟨hf, [Event.pbdma_handle_intr pbdma_id,
            Event.nvgpu_usleep_range delay (delay * 2 % 2 ^ 32),
            Event.nvgpu_timeout_expired] ++ evs, ?_, ?_⟩
          · rw [ht]; simp [gk20a.emit]
          · intro e he
            rcases List.mem_append.1 he with he | he
            · exact hint e he
            · exact hall e he
        · rw [if_neg h3] at h
          cases h
          exact ⟨rfl, _, by simp [gk20a.emit], hint⟩

theorem poll_pbdma_loop_fifo (K : Config) (O : Oracle) (tsgid pbdma_id : Nat) :
    ∀ (fuel delay loop_count : Nat) (ret : Int) (tr : List Event) (f f' : nvgpu_fifo),
      gv11b_fifo_preempt_poll_pbdma_loop K O tsgid pbdma_id fuel delay loop_count ret
          ⟨tr, f'⟩ =
        (gv11b_fifo_preempt_poll_pbdma_loop K O tsgid pbdma_id fuel delay loop_count ret
          ⟨tr, f⟩).map (fun x => (x.1, ⟨x.2.trace, f'⟩)) := by
  intro fuel
  induction fuel with
  | zero => intro delay lc ret tr f f'; simp [gv11b_fifo_preempt_poll_pbdma_loop]
  | succ fuel ih =>
    intro delay lc ret tr f f'
    simp only [gv11b_fifo_preempt_poll_pbdma_loop, gk20a.emit]
    split_ifs <;> first | rfl | exact ih _ _ _ _ _ _

theorem poll_pbdma_fifo (K : Config) (O : Oracle) (fuel tsgid pbdma_id : Nat)
    (tr : List Event) (f f' : nvgpu_fifo) :
    gv11b_fifo_preempt_poll_pbdma K O fuel tsgid pbdma_id ⟨tr, f'⟩ =
      (gv11b_fifo_preempt_poll_pbdma K O fuel tsgid pbdma_id ⟨tr, f⟩).map
        (fun x => (x.1, ⟨x.2.trace, f'⟩)) := by
  simp only [gv11b_fifo_preempt_poll_pbdma, gk20a.emit]
  split_ifs with h
  · rfl
  · rw [poll_pbdma_loop_fifo K O tsgid pbdma_id fuel _ _ _ _ f f']
    cases gv11b_fifo_preempt_poll_pbdma_loop K O tsgid pbdma_id fuel K.POLL_DELAY_MIN_US 0
      (-EBUSY) ⟨tr ++ [Event.poll_pbdma tsgid pbdma_id] ++ [Event.nvgpu_timeout_init], f⟩ with
    | none => rfl
    | some x => rfl

theorem poll_pbdma_trace (K : Config) (O : Oracle) (fuel tsgid pbdma_id : Nat)
    (g : gk20a) (r : Int) (g' : gk20a)
    (h : gv11b_fifo_preempt_poll_pbdma K O fuel tsgid pbdma_id g = some (r, g')) :
    g'.fifo = g.fifo ∧
      ∃ evs, g'.trace = g.trace ++ (Event.poll_pbdma tsgid pbdma_id :: evs) ++
          [Event.poll_pbdma_ret pbdma_id r] ∧
        ∀ e ∈ evs, e.is_poll_internal = true := by
  simp only [gv11b_fifo_preempt_poll_pbdma] at h
  split_ifs at h with h1
  · cases h
    exact ⟨rfl, [Event.nvgpu_timeout_init], by simp [gk20a.emit],
      by simp [Event.is_poll_internal]⟩
  · cases hl : gv11b_fifo_preempt_poll_pbdma_loop K O tsgid pbdma_id fuel
        K.POLL_DELAY_MIN_US 0 (-EBUSY)
        ((g.emit (Event.poll_pbdma tsgid pbdma_id)).emit Event.nvgpu_timeout_init) with
    | none => rw [hl] at h; cases h
    | some x =>
      obtain ⟨r1, g1⟩ := x
      rw [hl] at h
      cases h
      obtain ⟨hf, evs, ht, hall⟩ := poll_pbdma_loop_trace K O tsgid pbdma_id _ _ _ _ _ _ _ hl
      refine ⟨hf, Event.nvgpu_timeout_init :: evs, ?_, ?_⟩
      · simp [gk20a.emit, ht]
      · intro e he
        rcases List.mem_cons.1 he with rfl | he
        · rfl
        · exact hall e he

theorem poll_pbdma_loop_returns (K : Config) (O : Oracle) (tsgid pbdma_id : Nat)
    (hs : O.nvgpu_platform_is_silicon = false) :
    ∀ (fuel delay loop_count : Nat) (ret : Int) (g : gk20a),
      K.PREEMPT_PENDING_POLL_PRE_SI_RETRIES - loop_count < fuel →
      (gv11b_fifo_preempt_poll_pbdma_loop K O tsgid pbdma_id fuel delay loop_count ret
        g).isSome = true := by
  intro fuel
  induction fuel with
  | zero => intro delay lc ret g h; omega
  | succ fuel ih =>
    intro delay lc ret g h
    simp only [gv11b_fifo_preempt_poll_pbdma_loop, hs, true_and, if_true]
    split_ifs with h1 h2 h3
    · rfl
    · rfl
    · exact ih _ _ _ _ (by omega)
    · rfl

theorem poll_pbdma_returns (K : Config) (O : Oracle) (fuel tsgid pbdma_id : Nat)
    (g : gk20a) (hs : O.nvgpu_platform_is_silicon = false)
    (hfuel : K.PREEMPT_PENDING_POLL_PRE_SI_RETRIES < fuel) :
    (gv11b_fifo_preempt_poll_pbdma K O fuel tsgid pbdma_id g).isSome = true := by
  simp only [gv11b_fifo_preempt_poll_pbdma]
  split_ifs with h1
  · rfl
  · have := poll_pbdma_loop_returns K O tsgid pbdma_id hs fuel K.POLL_DELAY_MIN_US 0
      (-EBUSY) ((g.emit (Event.poll_pbdma tsgid pbdma_id)).emit Event.nvgpu_timeout_init)
      (by omega)
    cases hl : gv11b_fifo_preempt_poll_pbdma_loop K O tsgid pbdma_id fuel
        K.POLL_DELAY_MIN_US 0 (-EBUSY)
        ((g.emit (Event.poll_pbdma tsgid pbdma_id)).emit Event.nvgpu_timeout_init) with
    | none => rw [hl] at this; cases this
    | some x => rfl

theorem fifo_check_eng_intr_pending_acc (K : Config) (id eng_stat ctx_stat
    eng_intr_pending engine_id acc : Nat) :
    (fifo_check_eng_intr_pending K id eng_stat ctx_stat eng_intr_pending engine_id acc).2
        = acc ∨
      ((fifo_check_eng_intr_pending K id eng_stat ctx_stat eng_intr_pending engine_id acc).1
          = 0 ∧ eng_intr_pending ≠ 0 ∧
        (fifo_check_eng_intr_pending K id eng_stat ctx_stat eng_intr_pending engine_id acc).2
          = acc ||| BIT32 engine_id) := by
  unfold fifo_check_eng_intr_pending
  split_ifs <;> simp_all

theorem poll_eng_loop_trace (K : Config) (O : Oracle) (id engine_id : Nat) :
    ∀ (fuel delay loop_count : Nat) (ret : Int) (acc : Nat) (g : gk20a) (r : Int)
      (acc' : Nat) (g' : gk20a),
      gv11b_fifo_preempt_poll_eng_loop K O id engine_id fuel delay loop_count ret acc g =
        some (r, acc', g') →
      g'.fifo = g.fifo ∧
        (∃ evs, g'.trace = g.trace ++ evs ∧ ∀ e ∈ evs, e.is_poll_internal = true) ∧
        (acc' = acc ∨ (r = 0 ∧ acc' = acc ||| BIT32 engine_id)) ∧
        ((∀ tr, (O.is_stall_and_eng_intr_pending tr engine_id).2 = 0) → acc' = acc) := by
  intro fuel
  induction fuel with
  | zero =>
    intro delay lc ret acc g r acc' g' h
    simp [gv11b_fifo_preempt_poll_eng_loop] at h
  | succ fuel ih =>
    intro delay lc ret acc g r acc' g' h
    simp only [gv11b_fifo_preempt_poll_eng_loop] at h
    by_cases h1 : O.nvgpu_platform_is_silicon = false ∧
        K.PREEMPT_PENDING_POLL_PRE_SI_RETRIES ≤ lc
    · rw [if_pos h1] at h
      cases h
      exact ⟨rfl, ⟨[], by simp, by simp⟩, Or.inl rfl, fun _ => rfl⟩
    · rw [if_neg h1] at h
      have hacc := fifo_check_eng_intr_pending_acc K id
        (O.nvgpu_readl g.trace (K.fifo_engine_status_r engine_id))
        (K.fifo_engine_status_ctx_status_v
          (O.nvgpu_readl g.trace (K.fifo_engine_status_r engine_id)))
        (O.is_stall_and_eng_intr_pending
          (g.emit (Event.nvgpu_readl (K.fifo_engine_status_r engine_id))).trace engine_id).2
        engine_id acc
      have hnp : (∀ tr, (O.is_stall_and_eng_intr_pending tr engine_id).2 = 0) →
          (fifo_check_eng_intr_pending K id
            (O.nvgpu_readl g.trace (K.fifo_engine_status_r engine_id))
            (K.fifo_engine_status_ctx_status_v
              (O.nvgpu_readl g.trace (K.fifo_engine_status_r engine_id)))
            (O.is_stall_and_eng_intr_pending
              (g.emit (Event.nvgpu_readl (K.fifo_engine_status_r engine_id))).trace
              engine_id).2
            engine_id acc).2 = acc := by
        intro hno
        rcases hacc with hacc | ⟨-, hp, -⟩
        · exact hacc
        · exact absurd (hno _) hp
      by_cases h2 : (fifo_check_eng_intr_pending K id
            (O.nvgpu_readl g.trace (K.fifo_engine_status_r engine_id))
            (K.fifo_engine_status_ctx_status_v
              (O.nvgpu_readl g.trace (K.fifo_engine_status_r engine_id)))
            (O.is_stall_and_eng_intr_pending
              (g.emit (Event.nvgpu_readl (K.fifo_engine_status_r engine_id))).trace
              engine_id).2
            engine_id acc).1 = 0
      · rw [if_pos h2] at h
        cases h
        refine ⟨rfl, ⟨[Event.nvgpu_readl (K.fifo_engine_status_r engine_id),
          Event.is_stall_and_eng_intr_pending engine_id], by simp [gk20a.emit], ?_⟩, ?_, hnp⟩
        · intro e he
          simp only [List.mem_cons, List.mem_singleton, List.not_mem_nil, or_false] at he
          rcases he with rfl | rfl <;> rfl
        · rcases hacc with hacc | ⟨h0, -, hacc⟩
          · exact Or.inl hacc
          · exact Or.inr ⟨h0, hacc⟩
      · rw [if_neg h2] at h
        have hsame : (fifo_check_eng_intr_pending K id
            (O.nvgpu_readl g.trace (K.fifo_engine_status_r engine_id))
            (K.fifo_engine_status_ctx_status_v
              (O.nvgpu_readl g.trace (K.fifo_engine_status_r engine_id)))
            (O.is_stall_and_eng_intr_pending
              (g.emit (Event.nvgpu_readl (K.fifo_engine_status_r engine_id))).trace
              engine_id).2
            engine_id acc).2 = acc := by
          rcases hacc with hacc | ⟨h0, -, -⟩
          · exact hacc
          · exact absurd h0 h2
        rw [hsame] at h
        have hint : ∀ e ∈ [Event.nvgpu_readl (K.fifo_engine_status_r engine_id),
            Event.is_stall_and_eng_intr_pending engine_id,
            Event.nvgpu_usleep_range delay (delay * 2 % 2 ^ 32),
            Event.nvgpu_timeout_expired], e.is_poll_internal = true := by
          intro e he
          simp only [List.mem_cons, List.mem_singleton, List.not_mem_nil, or_false] at he
          rcases he with rfl | rfl | rfl | rfl <;> rfl
        by_cases h3 : O.nvgpu_timeout_expired
            (((g.emit (Event.nvgpu_readl (K.fifo_engine_status_r engine_id))).emit
              (Event.is_stall_and_eng_intr_pending engine_id)).emit
              (Event.nvgpu_usleep_range delay (delay * 2 % 2 ^ 32))).trace = 0
        · rw [if_pos h3] at h
          obtain ⟨hf, ⟨evs, ht, hall⟩, ha, hn⟩ := ih _ _ _ _ _ _ _ _ h
          refine ⟨hf, ⟨[Event.nvgpu_readl (K.fifo_engine_status_r engine_id),
            Event.is_stall_and_eng_intr_pending engine_id,
            Event.nvgpu_usleep_range delay (delay * 2 % 2 ^ 32),
            Event.nvgpu_timeout_expired] ++ evs, ?_, ?_⟩, ha, hn⟩
          · rw [ht]; simp [gk20a.emit]
          · intro e he
            rcases List.mem_append.1 he with he | he
            · exact hint e he
            · exact hall e he
        · rw [if_neg h3] at h
          cases h
          exact ⟨rfl, ⟨_, by simp [gk20a.emit], hint⟩, Or.inl rfl, fun _ => rfl⟩

theorem poll_eng_trace (K : Config) (O : Oracle) (fuel id engine_id acc : Nat) (g : gk20a)
    (err : Int) (acc' : Nat) (g' : gk20a)
    (h : gv11b_fifo_preempt_poll_eng K O fuel id engine_id acc g = some (err, acc', g')) :
    g'.fifo = g.fifo ∧
      (∃ evs, g'.trace = g.trace ++ (Event.poll_eng id engine_id :: evs) ++
          [Event.poll_eng_ret engine_id err] ∧
        ∀ e ∈ evs, e.is_poll_internal = true) ∧
      (acc' = acc ∨ acc' = acc ||| BIT32 engine_id) ∧
      ((∀ tr, (O.is_stall_and_eng_intr_pending tr engine_id).2 = 0) → err = 0 →
        acc' = acc) := by
  simp only [gv11b_fifo_preempt_poll_eng] at h
  by_cases h1 : O.nvgpu_timeout_init (g.emit (Event.poll_eng id engine_id)).trace ≠ 0
  · rw [if_pos h1] at h
    cases h
    exact ⟨rfl, ⟨[Event.nvgpu_timeout_init], by simp [gk20a.emit],
      by simp [Event.is_poll_internal]⟩, Or.inl rfl, fun _ _ => rfl⟩
  · rw [if_neg h1] at h
    cases hl : gv11b_fifo_preempt_poll_eng_loop K O id engine_id fuel K.POLL_DELAY_MIN_US 0
        (-EBUSY) acc
        ((g.emit (Event.poll_eng id engine_id)).emit Event.nvgpu_timeout_init) with
    | none => rw [hl] at h; cases h
    | some x =>
      obtain ⟨r1, acc1, g1⟩ := x
      rw [hl] at h
      obtain ⟨hf, ⟨evs, ht, hall⟩, ha, hn⟩ :=
        poll_eng_loop_trace K O id engine_id _ _ _ _ _ _ _ _ _ hl
      have hint : ∀ e ∈ Event.nvgpu_timeout_init :: evs, e.is_poll_internal = true := by
        intro e he
        rcases List.mem_cons.1 he with rfl | he
        · rfl
        · exact hall e he
      by_cases h2 : r1 ≠ 0
      · simp only [if_pos h2] at h
        cases h
        refine ⟨hf, ⟨Event.nvgpu_timeout_init :: evs, by simp [gk20a.emit, ht], hint⟩, ?_,
          fun _ h0 => absurd h0 h2⟩
        rcases ha with ha | ⟨h0, -⟩
        · exact Or.inr (by rw [ha])
        · exact absurd h0 h2
      · simp only [if_neg h2] at h
        cases h
        refine ⟨hf, ⟨Event.nvgpu_timeout_init :: evs, by simp [gk20a.emit, ht], hint⟩, ?_,
          fun hno _ => hn hno⟩
        rcases ha with ha | ⟨-, ha⟩
        · exact Or.inl ha
        · exact Or.inr ha

theorem poll_eng_loop_returns (K : Config) (O : Oracle) (id engine_id : Nat)
    (hs : O.nvgpu_platform_is_silicon = false) :
    ∀ (fuel delay loop_count : Nat) (ret : Int) (acc : Nat) (g : gk20a),
      K.PREEMPT_PENDING_POLL_PRE_SI_RETRIES - loop_count < fuel →
      (gv11b_fifo_preempt_poll_eng_loop K O id engine_id fuel delay loop_count ret acc
        g).isSome = true := by
  intro fuel
  induction fuel with
  | zero => intro delay lc ret acc g h; omega
  | succ fuel ih =>
    intro delay lc ret acc g h
    simp only [gv11b_fifo_preempt_poll_eng_loop, hs, true_and, if_true]
    split_ifs with h1 h2 h3
    · rfl
    · rfl
    · exact ih _ _ _ _ _ (by omega)
    · rfl

theorem poll_eng_returns (K : Config) (O : Oracle) (fuel id engine_id acc : Nat)
    (g : gk20a) (hs : O.nvgpu_platform_is_silicon = false)
    (hfuel : K.PREEMPT_PENDING_POLL_PRE_SI_RETRIES < fuel) :
    (gv11b_fifo_preempt_poll_eng K O fuel id engine_id acc g).isSome = true := by
  simp only [gv11b_fifo_preempt_poll_eng]
  split_ifs with h1
  · rfl
  · have := poll_eng_loop_returns K O id engine_id hs fuel K.POLL_DELAY_MIN_US 0
      (-EBUSY) acc ((g.emit (Event.poll_eng id engine_id)).emit Event.nvgpu_timeout_init)
      (by omega)
    cases hl : gv11b_fifo_preempt_poll_eng_loop K O id engine_id fuel
        K.POLL_DELAY_MIN_US 0 (-EBUSY) acc
        ((g.emit (Event.poll_eng id engine_id)).emit Event.nvgpu_timeout_init) with
    | none => rw [hl] at this; cases this
    | some x =>
      obtain ⟨r1, acc1, g1⟩ := x
      simp only
      split_ifs <;> rfl

/-! The two phases of the aggregate poll -/

theorem is_poll_call_of_internal (e : Event) (h : e.is_poll_internal = true) :
    e.is_poll_call = false := by
  cases e <;> simp_all [Event.is_poll_internal, Event.is_poll_call]

theorem filter_poll_call_internal (evs : List Event)
    (h : ∀ e ∈ evs, e.is_poll_internal = true) :
    evs.filter Event.is_poll_call = [] := by
  rw [List.filter_eq_nil_iff]
  intro e he
  simp [is_poll_call_of_internal e (h e he)]

theorem set_reset_eng_bitmask_read (g : gk20a) (runlist_id v : Nat) :
    ((g.set_reset_eng_bitmask runlist_id v).fifo.runlist runlist_id).reset_eng_bitmask
      = v := by
  simp [gk20a.set_reset_eng_bitmask, nvgpu_fifo.set_reset_eng_bitmask, nvgpu_fifo.runlist]

theorem pbdma_phase_trace (K : Config) (O : Oracle) (fuel tsgid : Nat) :
    ∀ (l : List Nat) (ret : Int) (g : gk20a) (ret' : Int) (g' : gk20a),
      poll_each (gv11b_fifo_is_preempt_pending_pbdma_body K O fuel tsgid) l (ret, g) =
        some (ret', g') →
      g'.fifo = g.fifo ∧
        ∃ evs, g'.trace = g.trace ++ evs ∧
          evs.filter Event.is_poll_call = l.map (Event.poll_pbdma tsgid) := by
  intro l
  induction l with
  | nil =>
    intro ret g ret' g' h
    simp only [poll_each] at h
    cases h
    exact ⟨rfl, [], by simp, rfl⟩
  | cons b bs ih =>
    intro ret g ret' g' h
    simp only [poll_each, gv11b_fifo_is_preempt_pending_pbdma_body] at h
    cases hp : gv11b_fifo_preempt_poll_pbdma K O fuel tsgid b g with
    | none => rw [hp] at h; cases h
    | some x =>
      obtain ⟨err, g1⟩ := x
      rw [hp] at h
      obtain ⟨hf1, evs1, ht1, hall1⟩ := poll_pbdma_trace K O fuel tsgid b g err g1 hp
      obtain ⟨hf, evs, ht, hflt⟩ := ih _ _ _ _ h
      refine ⟨hf.trans hf1, (Event.poll_pbdma tsgid b :: evs1) ++
        [Event.poll_pbdma_ret b err] ++ evs, ?_, ?_⟩
      · rw [ht, ht1]; simp
      · simp [List.filter_cons, Event.is_poll_call, hflt,
          filter_poll_call_internal evs1 hall1]

theorem pbdma_phase_fifo (K : Config) (O : Oracle) (fuel tsgid : Nat) :
    ∀ (l : List Nat) (ret : Int) (tr : List Event) (f f' : nvgpu_fifo),
      poll_each (gv11b_fifo_is_preempt_pending_pbdma_body K O fuel tsgid) l
          (ret, ⟨tr, f'⟩) =
        (poll_each (gv11b_fifo_is_preempt_pending_pbdma_body K O fuel tsgid) l
          (ret, ⟨tr, f⟩)).map (fun x => (x.1, ⟨x.2.trace, f'⟩)) := by
  intro l
  induction l with
  | nil => intro ret tr f f'; rfl
  | cons b bs ih =>
    intro ret tr f f'
    simp only [poll_each, gv11b_fifo_is_preempt_pending_pbdma_body]
    rw [poll_pbdma_fifo K O fuel tsgid b tr f f']
    cases hp : gv11b_fifo_preempt_poll_pbdma K O fuel tsgid b ⟨tr, f⟩ with
    | none => rfl
    | some x =>
      obtain ⟨err, g1⟩ := x
      obtain ⟨hf1, -⟩ := poll_pbdma_trace K O fuel tsgid b _ err g1 hp
      obtain ⟨tr1, f1⟩ := g1
      simp only at hf1
      subst hf1
      simp only [Option.map_some']
      exact ih _ _ _ _

theorem eng_phase_trace (K : Config) (O : Oracle) (fuel tsgid runlist_id : Nat) :
    ∀ (l : List Nat) (ret : Int) (g : gk20a) (ret' : Int) (g' : gk20a),
      poll_each (gv11b_fifo_is_preempt_pending_eng_body K O fuel tsgid runlist_id) l
          (ret, g) = some (ret', g') →
      g'.fifo.runlist_info = g.fifo.runlist_info ∧
        ∃ evs marked, g'.trace = g.trace ++ evs ∧
          evs.filter Event.is_poll_call = l.map (Event.poll_eng tsgid) ∧
          marked.Sublist l ∧
          (g'.fifo.runlist runlist_id).reset_eng_bitmask =
            or_bits (g.fifo.runlist runlist_id).reset_eng_bitmask marked ∧
          (∀ e ∈ marked, (∃ r, r ≠ 0 ∧ Event.poll_eng_ret e r ∈ evs) ∨
            (∃ tr, (O.is_stall_and_eng_intr_pending tr e).2 ≠ 0)) := by
  intro l
  induction l with
  | nil =>
    intro ret g ret' g' h
    simp only [poll_each] at h
    cases h
    exact ⟨rfl, [], [], by simp, rfl, List.Sublist.refl _, rfl, by simp⟩
  | cons b bs ih =>
    intro ret g ret' g' h
    simp only [poll_each, gv11b_fifo_is_preempt_pending_eng_body] at h
    cases hp : gv11b_fifo_preempt_poll_eng K O fuel tsgid b
        (g.fifo.runlist runlist_id).reset_eng_bitmask g with
    | none => rw [hp] at h; cases h
    | some x =>
      obtain ⟨err, acc1, g1⟩ := x
      rw [hp] at h
      obtain ⟨hf1, ⟨evs1, ht1, hall1⟩, ha1, hn1⟩ := poll_eng_trace K O fuel tsgid b _ g err
        acc1 g1 hp
      obtain ⟨hri, evs, marked, ht, hflt, hsub, hres, hwhy⟩ := ih _ _ _ _ h
      have hwhy2 : ∀ e ∈ marked, (∃ r, r ≠ 0 ∧ Event.poll_eng_ret e r ∈
          (Event.poll_eng tsgid b :: evs1) ++ [Event.poll_eng_ret b err] ++ evs) ∨
          (∃ tr, (O.is_stall_and_eng_intr_pending tr e).2 ≠ 0) := by
        intro e he
        rcases hwhy e he with ⟨r, hr, hmem⟩ | hi
        · exact Or.inl ⟨r, hr, List.mem_append_right _ hmem⟩
        · exact Or.inr hi
      have hri1 : (g1.set_reset_eng_bitmask runlist_id acc1).fifo.runlist_info =
          g.fifo.runlist_info := by
        simp [gk20a.set_reset_eng_bitmask, nvgpu_fifo.set_reset_eng_bitmask, hf1]
      rw [set_reset_eng_bitmask_read] at hres
      have htr : g'.trace = g.trace ++ ((Event.poll_eng tsgid b :: evs1) ++
          [Event.poll_eng_ret b err] ++ evs) := by
        rw [ht]
        simp [gk20a.set_reset_eng_bitmask, ht1]
      have hfl : ((Event.poll_eng tsgid b :: evs1) ++ [Event.poll_eng_ret b err] ++
          evs).filter Event.is_poll_call = (b :: bs).map (Event.poll_eng tsgid) := by
        simp [List.filter_cons, Event.is_poll_call, hflt,
          filter_poll_call_internal evs1 hall1]
      by_cases hacc : acc1 = (g.fifo.runlist runlist_id).reset_eng_bitmask
      · refine ⟨hri.trans hri1, _, marked, htr, hfl, List.Sublist.cons b hsub, ?_, ?_⟩
        · rw [hres, hacc]
        · exact hwhy2
      · have hacc2 : acc1 = (g.fifo.runlist runlist_id).reset_eng_bitmask ||| BIT32 b := by
          rcases ha1 with ha1 | ha1
          · exact absurd ha1 hacc
          · exact ha1
        refine ⟨hri.trans hri1, _, b :: marked, htr, hfl, List.Sublist.cons₂ b hsub, ?_, ?_⟩
        · rw [hres, hacc2]; rfl
        · intro e he
          rcases List.mem_cons.1 he with rfl | he
          · by_cases herr : err = 0
            · right
              by_contra hcon
              exact hacc (hn1 (fun tr => by
                by_contra hne
                exact hcon ⟨tr, hne⟩) herr)
            · exact Or.inl ⟨err, herr, by simp⟩
          · exact hwhy2 e he

/-! The aggregate poll -/

theorem gv11b_fifo_is_preempt_pending_eq (K : Config) (O : Oracle) (fuel id id_type : Nat)
    (g : gk20a) :
    gv11b_fifo_is_preempt_pending K O fuel id id_type g =
      (poll_each
        (gv11b_fifo_is_preempt_pending_pbdma_body K O fuel (resolve_tsgid K g.fifo id id_type))
        (set_bits (g.fifo.runlist (resolve_runlist_id K g.fifo id id_type)).pbdma_bitmask
          g.fifo.num_pbdma) (0, g)).bind (fun x =>
        poll_each
          (gv11b_fifo_is_preempt_pending_eng_body K O fuel
            (resolve_tsgid K g.fifo id id_type) (resolve_runlist_id K g.fifo id id_type))
          (set_bits (g.fifo.runlist (resolve_runlist_id K g.fifo id id_type)).eng_bitmask
            g.fifo.max_engines)
          (x.1, x.2.set_reset_eng_bitmask (resolve_runlist_id K g.fifo id id_type) 0)) := by
  simp only [gv11b_fifo_is_preempt_pending, for_each_set_bit_eq, resolve_tsgid,
    resolve_runlist_id]
  cases poll_each
      (gv11b_fifo_is_preempt_pending_pbdma_body K O fuel
        (if id_type = K.ID_TYPE_TSG then id else (g.fifo.channel id).tsgid))
      (set_bits (g.fifo.runlist (if id_type = K.ID_TYPE_TSG then (g.fifo.tsg id).runlist_id
        else (g.fifo.channel id).runlist_id)).pbdma_bitmask g.fifo.num_pbdma) (0, g) with
  | none => rfl
  | some x => rfl

theorem poll_each_returns {σ : Type} (body : Nat → σ → Option σ)
    (hb : ∀ b st, (body b st).isSome = true) :
    ∀ (l : List Nat) (st : σ), (poll_each body l st).isSome = true := by
  intro l
  induction l with
  | nil => intro st; rfl
  | cons b bs ih =>
    intro st
    simp only [poll_each]
    obtain ⟨st', hst⟩ := Option.isSome_iff_exists.1 (hb b st)
    rw [hst]
    exact ih st'

theorem gv11b_fifo_is_preempt_pending_returns (K : Config) (O : Oracle)
    (fuel id id_type : Nat) (g : gk20a)
    (hp : ∀ t p g1, (gv11b_fifo_preempt_poll_pbdma K O fuel t p g1).isSome = true)
    (he : ∀ t e a g1, (gv11b_fifo_preempt_poll_eng K O fuel t e a g1).isSome = true) :
    (gv11b_fifo_is_preempt_pending K O fuel id id_type g).isSome = true := by
  rw [gv11b_fifo_is_preempt_pending_eq]
  have h1 := poll_each_returns
    (gv11b_fifo_is_preempt_pending_pbdma_body K O fuel (resolve_tsgid K g.fifo id id_type))
    (by
      intro b st
      simp only [gv11b_fifo_is_preempt_pending_pbdma_body]
      obtain ⟨x, hx⟩ := Option.isSome_iff_exists.1 (hp (resolve_tsgid K g.fifo id id_type) b st.2)
      rw [hx]
      rfl)
    (set_bits (g.fifo.runlist (resolve_runlist_id K g.fifo id id_type)).pbdma_bitmask
      g.fifo.num_pbdma) (0, g)
  obtain ⟨x, hx⟩ := Option.isSome_iff_exists.1 h1
  rw [hx]
  simp only [Option.some_bind]
  apply poll_each_returns
  intro b st
  simp only [gv11b_fifo_is_preempt_pending_eng_body]
  obtain ⟨y, hy⟩ := Option.isSome_iff_exists.1 (he (resolve_tsgid K g.fifo id id_type) b
    (st.2.fifo.runlist (resolve_runlist_id K g.fifo id id_type)).reset_eng_bitmask st.2)
  rw [hy]
  rfl

/-- C3: whenever `gv11b_fifo_is_preempt_pending` returns, the poller calls it
made are exactly one `gv11b_fifo_preempt_poll_pbdma` call for each bit below
`num_pbdma` set in the runlist's `pbdma_bitmask`, ascending, followed by
exactly one `gv11b_fifo_preempt_poll_eng` call for each bit below
`max_engines` set in its `eng_bitmask`, ascending, whatever the polls
returned.  It returns as soon as every poll returns, which is the case off
silicon with more fuel than the retry ceiling. -/
theorem gv11b_fifo_is_preempt_pending_polls_each_once (K : Config) (O : Oracle)
    (fuel id id_type : Nat) (g : gk20a) :
    (∀ r g', gv11b_fifo_is_preempt_pending K O fuel id id_type g = some (r, g') →
      ∃ evs, g'.trace = g.trace ++ evs ∧
        evs.filter Event.is_poll_call =
          (set_bits (g.fifo.runlist (resolve_runlist_id K g.fifo id id_type)).pbdma_bitmask
              g.fifo.num_pbdma).map (Event.poll_pbdma (resolve_tsgid K g.fifo id id_type)) ++
          (set_bits (g.fifo.runlist (resolve_runlist_id K g.fifo id id_type)).eng_bitmask
              g.fifo.max_engines).map (Event.poll_eng (resolve_tsgid K g.fifo id id_type))) ∧
    ((∀ t p g1, (gv11b_fifo_preempt_poll_pbdma K O fuel t p g1).isSome = true) →
      (∀ t e a g1, (gv11b_fifo_preempt_poll_eng K O fuel t e a g1).isSome = true) →
      (gv11b_fifo_is_preempt_pending K O fuel id id_type g).isSome = true) ∧
    (O.nvgpu_platform_is_silicon = false → K.PREEMPT_PENDING_POLL_PRE_SI_RETRIES < fuel →
      (gv11b_fifo_is_preempt_pending K O fuel id id_type g).isSome = true) := by
  refine ⟨?_, gv11b_fifo_is_preempt_pending_returns K O fuel id id_type g, ?_⟩
  · intro r g' h
    rw [gv11b_fifo_is_preempt_pending_eq] at h
    obtain ⟨x, hx, h2⟩ := Option.bind_eq_some.1 h
    obtain ⟨ret1, g1⟩ := x
    obtain ⟨hf1, evs1, ht1, hfl1⟩ := pbdma_phase_trace K O fuel _ _ _ _ _ _ hx
    obtain ⟨-, evs2, marked, ht2, hfl2, -⟩ := eng_phase_trace K O fuel _ _ _ _ _ _ _ h2
    refine ⟨evs1 ++ evs2, ?_, ?_⟩
    · rw [ht2]
      simp [gk20a.set_reset_eng_bitmask, ht1]
    · rw [List.filter_append, hfl1, hfl2]
  · intro hs hfuel
    exact gv11b_fifo_is_preempt_pending_returns K O fuel id id_type g
      (fun t p g1 => poll_pbdma_returns K O fuel t p g1 hs hfuel)
      (fun t e a g1 => poll_eng_returns K O fuel t e a g1 hs hfuel)

/-- Witness of C3: PBDMAs 0 and 1 and engines 1 and 2; the poll of PBDMA 0
fails in `nvgpu_timeout_init`, the poll of PBDMA 1 times out, and all four
are polled, once each and in order. -/
theorem gv11b_fifo_is_preempt_pending_polls_each_once_witness :
    (gv11b_fifo_is_preempt_pending sample_config init_fail_oracle 5 7 1
        ⟨[], sample_fifo 3 6 5⟩).map
      (fun x => (x.1, x.2.trace.filter Event.is_poll_ret)) =
      some (-16, [Event.poll_pbdma_ret 0 (-22), Event.poll_pbdma_ret 1 (-16),
        Event.poll_eng_ret 1 0, Event.poll_eng_ret 2 0]) ∧
    ∃ r g', gv11b_fifo_is_preempt_pending sample_config init_fail_oracle 5 7 1
        ⟨[], sample_fifo 3 6 5⟩ = some (r, g') ∧
      g'.trace.filter Event.is_poll_call =
        [Event.poll_pbdma 7 0, Event.poll_pbdma 7 1, Event.poll_eng 7 1,
          Event.poll_eng 7 2] := by
  have hev : (gv11b_fifo_is_preempt_pending sample_config init_fail_oracle 5 7 1
        ⟨[], sample_fifo 3 6 5⟩).map
      (fun x => (x.1, x.2.trace.filter Event.is_poll_ret)) =
      some (-16, [Event.poll_pbdma_ret 0 (-22), Event.poll_pbdma_ret 1 (-16),
        Event.poll_eng_ret 1 0, Event.poll_eng_ret 2 0]) := by decide
  refine ⟨hev, ?_⟩
  obtain ⟨⟨r, g'⟩, hx, -⟩ := Option.map_eq_some'.1 hev
  obtain ⟨evs, ht, hfl⟩ := (gv11b_fifo_is_preempt_pending_polls_each_once sample_config
    init_fail_oracle 5 7 1 ⟨[], sample_fifo 3 6 5⟩).1 r g' hx
  refine ⟨r, g', hx, ?_⟩
  rw [ht, List.nil_append, hfl]
  decide

/-- C4, evaluated on two PBDMAs whose polls fail with different codes: the
poll of PBDMA 0 returns -22 (failed `nvgpu_timeout_init`), the poll of
PBDMA 1 returns -16 (timeout), and `gv11b_fifo_is_preempt_pending` returns
-16, the code of the second failing poll. -/
theorem gv11b_fifo_is_preempt_pending_returns_last_pbdma_error :
    (gv11b_fifo_is_preempt_pending sample_config init_fail_oracle 5 7 1
        ⟨[], sample_fifo 3 0 0⟩).map
      (fun x => (x.1, x.2.trace.filter Event.is_poll_ret)) =
      some (-16, [Event.poll_pbdma_ret 0 (-22), Event.poll_pbdma_ret 1 (-16)]) := by
  decide

/-! The reset bitmask computed by the aggregate poll -/

theorem set_reset_eng_bitmask_twice (f : nvgpu_fifo) (i v w : Nat) :
    (f.set_reset_eng_bitmask i v).set_reset_eng_bitmask i w =
      f.set_reset_eng_bitmask i w := by
  simp only [nvgpu_fifo.set_reset_eng_bitmask, if_true]
  congr 1
  funext j
  by_cases h : j = i
  · simp [h]
  · simp [h]

theorem set_reset_eng_bitmask_masks (f : nvgpu_fifo) (i v runlist_id : Nat) :
    ((f.set_reset_eng_bitmask i v).runlist runlist_id).pbdma_bitmask =
        (f.runlist runlist_id).pbdma_bitmask ∧
      ((f.set_reset_eng_bitmask i v).runlist runlist_id).eng_bitmask =
        (f.runlist runlist_id).eng_bitmask := by
  simp only [nvgpu_fifo.set_reset_eng_bitmask, nvgpu_fifo.runlist]
  by_cases h : f.runlist_info runlist_id = i
  · simp [h]
  · simp [h]

theorem or_bits_testBit (l : List Nat) :
    ∀ (acc b : Nat), (or_bits acc l).testBit b = true →
      acc.testBit b = true ∨ (b ∈ l ∧ b < 32) := by
  induction l with
  | nil => intro acc b h; exact Or.inl h
  | cons e l ih =>
    intro acc b h
    have h1 : (or_bits (acc ||| BIT32 e) l).testBit b = true := h
    rcases ih _ _ h1 with h2 | ⟨h2, h3⟩
    · rw [Nat.testBit_or, Bool.or_eq_true] at h2
      rcases h2 with h2 | h2
      · exact Or.inl h2
      · unfold BIT32 at h2
        rw [Nat.one_shiftLeft, Nat.testBit_mod_two_pow, Nat.testBit_two_pow] at h2
        simp only [Bool.and_eq_true, decide_eq_true_eq] at h2
        exact Or.inr ⟨by rw [h2.2]; exact List.mem_cons_self _ _, h2.1⟩
    · exact Or.inr ⟨List.mem_cons_of_mem _ h2, h3⟩

theorem gv11b_fifo_is_preempt_pending_set_reset (K : Config) (O : Oracle)
    (fuel id id_type : Nat) (tr : List Event) (f : nvgpu_fifo) (v : Nat) :
    gv11b_fifo_is_preempt_pending K O fuel id id_type
        ⟨tr, f.set_reset_eng_bitmask (f.runlist_info (resolve_runlist_id K f id id_type)) v⟩ =
      (poll_each
        (gv11b_fifo_is_preempt_pending_pbdma_body K O fuel (resolve_tsgid K f id id_type))
        (set_bits (f.runlist (resolve_runlist_id K f id id_type)).pbdma_bitmask f.num_pbdma)
        (0, ⟨tr, f⟩)).bind (fun x =>
        poll_each
          (gv11b_fifo_is_preempt_pending_eng_body K O fuel (resolve_tsgid K f id id_type)
            (resolve_runlist_id K f id id_type))
          (set_bits (f.runlist (resolve_runlist_id K f id id_type)).eng_bitmask f.max_engines)
          (x.1, ⟨x.2.trace, f.set_reset_eng_bitmask
            (f.runlist_info (resolve_runlist_id K f id id_type)) 0⟩)) := by
  rw [gv11b_fifo_is_preempt_pending_eq]
  have hr : resolve_runlist_id K (f.set_reset_eng_bitmask
      (f.runlist_info (resolve_runlist_id K f id id_type)) v) id id_type =
      resolve_runlist_id K f id id_type := rfl
  have ht : resolve_tsgid K (f.set_reset_eng_bitmask
      (f.runlist_info (resolve_runlist_id K f id id_type)) v) id id_type =
      resolve_tsgid K f id id_type := rfl
  have hm := set_reset_eng_bitmask_masks f
    (f.runlist_info (resolve_runlist_id K f id id_type)) v (resolve_runlist_id K f id id_type)
  simp only [hr, ht, hm.1, hm.2]
  have hnp : (f.set_reset_eng_bitmask
      (f.runlist_info (resolve_runlist_id K f id id_type)) v).num_pbdma = f.num_pbdma := rfl
  have hme : (f.set_reset_eng_bitmask
      (f.runlist_info (resolve_runlist_id K f id id_type)) v).max_engines = f.max_engines := rfl
  rw [hnp, hme, pbdma_phase_fifo K O fuel _ _ 0 tr f]
  cases hx : poll_each
      (gv11b_fifo_is_preempt_pending_pbdma_body K O fuel (resolve_tsgid K f id id_type))
      (set_bits (f.runlist (resolve_runlist_id K f id id_type)).pbdma_bitmask f.num_pbdma)
      (0, ⟨tr, f⟩) with
  | none => rfl
  | some x =>
    simp only [Option.map_some', Option.some_bind, gk20a.set_reset_eng_bitmask]
    have hri : (f.set_reset_eng_bitmask
        (f.runlist_info (resolve_runlist_id K f id id_type)) v).runlist_info = f.runlist_info :=
      rfl
    rw [hri, set_reset_eng_bitmask_twice]

/-! Events of the aggregate poll -/

theorem is_poll_event_of_internal (e : Event) (h : e.is_poll_internal = true) :
    e.is_poll_event = true := by
  simp [Event.is_poll_event, h]

theorem pbdma_phase_events (K : Config) (O : Oracle) (fuel tsgid : Nat) :
    ∀ (l : List Nat) (ret : Int) (g : gk20a) (ret' : Int) (g' : gk20a),
      poll_each (gv11b_fifo_is_preempt_pending_pbdma_body K O fuel tsgid) l (ret, g) =
        some (ret', g') →
      ∃ evs, g'.trace = g.trace ++ evs ∧ ∀ e ∈ evs, e.is_poll_event = true := by
  intro l
  induction l with
  | nil =>
    intro ret g ret' g' h
    simp only [poll_each] at h
    cases h
    exact ⟨[], by simp, by simp⟩
  | cons b bs ih =>
    intro ret g ret' g' h
    simp only [poll_each, gv11b_fifo_is_preempt_pending_pbdma_body] at h
    cases hp : gv11b_fifo_preempt_poll_pbdma K O fuel tsgid b g with
    | none => rw [hp] at h; cases h
    | some x =>
      obtain ⟨err, g1⟩ := x
      rw [hp] at h
      obtain ⟨-, evs1, ht1, hall1⟩ := poll_pbdma_trace K O fuel tsgid b g err g1 hp
      obtain ⟨evs, ht, hall⟩ := ih _ _ _ _ h
      refine ⟨(Event.poll_pbdma tsgid b :: evs1) ++ [Event.poll_pbdma_ret b err] ++ evs,
        ?_, ?_⟩
      · rw [ht, ht1]; simp
      · intro e he
        simp only [List.mem_append, List.mem_cons, List.mem_singleton, List.not_mem_nil,
          or_false] at he
        rcases he with ((rfl | he) | rfl) | he
        · rfl
        · exact is_poll_event_of_internal e (hall1 e he)
        · rfl
        · exact hall e he

theorem eng_phase_events (K : Config) (O : Oracle) (fuel tsgid runlist_id : Nat) :
    ∀ (l : List Nat) (ret : Int) (g : gk20a) (ret' : Int) (g' : gk20a),
      poll_each (gv11b_fifo_is_preempt_pending_eng_body K O fuel tsgid runlist_id) l
          (ret, g) = some (ret', g') →
      ∃ evs, g'.trace = g.trace ++ evs ∧ ∀ e ∈ evs, e.is_poll_event = true := by
  intro l
  induction l with
  | nil =>
    intro ret g ret' g' h
    simp only [poll_each] at h
    cases h
    exact ⟨[], by simp, by simp⟩
  | cons b bs ih =>
    intro ret g ret' g' h
    simp only [poll_each, gv11b_fifo_is_preempt_pending_eng_body] at h
    cases hp : gv11b_fifo_preempt_poll_eng K O fuel tsgid b
        (g.fifo.runlist runlist_id).reset_eng_bitmask g with
    | none => rw [hp] at h; cases h
    | some x =>
      obtain ⟨err, acc1, g1⟩ := x
      rw [hp] at h
      obtain ⟨-, ⟨evs1, ht1, hall1⟩, -, -⟩ := poll_eng_trace K O fuel tsgid b _ g err
        acc1 g1 hp
      obtain ⟨evs, ht, hall⟩ := ih _ _ _ _ h
      refine ⟨(Event.poll_eng tsgid b :: evs1) ++ [Event.poll_eng_ret b err] ++ evs,
        ?_, ?_⟩
      · rw [ht]
        simp [gk20a.set_reset_eng_bitmask, ht1]
      · intro e he
        simp only [List.mem_append, List.mem_cons, List.mem_singleton, List.not_mem_nil,
          or_false] at he
        rcases he with ((rfl | he) | rfl) | he
        · rfl
        · exact is_poll_event_of_internal e (hall1 e he)
        · rfl
        · exact hall e he

theorem gv11b_fifo_is_preempt_pending_events (K : Config) (O : Oracle)
    (fuel id id_type : Nat) (g : gk20a) (r : Int) (g' : gk20a)
    (h : gv11b_fifo_is_preempt_pending K O fuel id id_type g = some (r, g')) :
    ∃ evs, g'.trace = g.trace ++ evs ∧ ∀ e ∈ evs, e.is_poll_event = true := by
  rw [gv11b_fifo_is_preempt_pending_eq] at h
  obtain ⟨x, hx, h2⟩ := Option.bind_eq_some.1 h
  obtain ⟨ret1, g1⟩ := x
  obtain ⟨evs1, ht1, hall1⟩ := pbdma_phase_events K O fuel _ _ _ _ _ _ hx
  obtain ⟨evs2, ht2, hall2⟩ := eng_phase_events K O fuel _ _ _ _ _ _ _ h2
  refine ⟨evs1 ++ evs2, ?_, ?_⟩
  · rw [ht2]
    simp [gk20a.set_reset_eng_bitmask, ht1]
  · intro e he
    rcases List.mem_append.1 he with he | he
    · exact hall1 e he
    · exact hall2 e he

theorem filter_lock_sched_write_poll (evs : List Event)
    (h : ∀ e ∈ evs, e.is_poll_event = true) :
    evs.filter Event.is_lock_sched_write = [] := by
  rw [List.filter_eq_nil_iff]
  intro e he
  have := h e he
  cases e <;> simp_all [Event.is_poll_event, Event.is_poll_call, Event.is_poll_ret,
    Event.is_poll_internal, Event.is_lock_sched_write]

/-! The orchestrator -/

theorem gv11b_fifo_preempt_tsg_eq (K : Config) (O : Oracle) (ops : gops_fifo)
    (tsg : nvgpu_tsg) (g : gk20a) (hrl : tsg.runlist_id ≠ K.NVGPU_INVALID_RUNLIST_ID) :
    gv11b_fifo_preempt_tsg K O ops tsg g =
      (ops.is_preempt_pending tsg.tsgid K.ID_TYPE_TSG
        (ops.preempt_trigger tsg.tsgid K.ID_TYPE_TSG
          ⟨g.trace ++ [Event.nvgpu_mutex_acquire tsg.runlist_id,
              Event.nvgpu_tsg_disable_sched tsg.tsgid] ++
            (if K.CONFIG_NVGPU_LS_PMU = true then [Event.nvgpu_pmu_lock_acquire] else []),
            g.fifo⟩)).map
        (fun x => (x.1,
          ⟨x.2.trace ++
            (if K.CONFIG_NVGPU_LS_PMU = true ∧
                O.nvgpu_pmu_lock_acquire (g.trace ++
                  [Event.nvgpu_mutex_acquire tsg.runlist_id,
                    Event.nvgpu_tsg_disable_sched tsg.tsgid]) = 0
              then [Event.nvgpu_pmu_lock_release] else []) ++
            [Event.nvgpu_tsg_enable_sched tsg.tsgid,
              Event.nvgpu_mutex_release tsg.runlist_id] ++
            (if x.1 ≠ 0 ∧ O.nvgpu_platform_is_silicon = false
              then [Event.nvgpu_rc_preempt_timeout tsg.tsgid] else []),
            x.2.fifo⟩)) := by
  simp only [gv11b_fifo_preempt_tsg, if_neg hrl, gv11b_fifo_preempt_locked, gk20a.emit,
    List.append_assoc, List.singleton_append]
  cases hpmu : K.CONFIG_NVGPU_LS_PMU with
  | false =>
    simp only [Bool.false_eq_true, if_false, false_and, List.append_nil, List.nil_append]
    cases ops.is_preempt_pending tsg.tsgid K.ID_TYPE_TSG
        (ops.preempt_trigger tsg.tsgid K.ID_TYPE_TSG
          ⟨g.trace ++ [Event.nvgpu_mutex_acquire tsg.runlist_id,
            Event.nvgpu_tsg_disable_sched tsg.tsgid], g.fifo⟩) with
    | none => rfl
    | some x =>
      obtain ⟨ret, gp⟩ := x
      simp only [Option.map_some']
      by_cases hret : ret ≠ 0
      · cases hs : O.nvgpu_platform_is_silicon <;> simp [hret]
      · simp [hret]
  | true =>
    simp only [if_true, true_and]
    cases ops.is_preempt_pending tsg.tsgid K.ID_TYPE_TSG
        (ops.preempt_trigger tsg.tsgid K.ID_TYPE_TSG
          ⟨g.trace ++ ([Event.nvgpu_mutex_acquire tsg.runlist_id,
            Event.nvgpu_tsg_disable_sched tsg.tsgid] ++ [Event.nvgpu_pmu_lock_acquire]),
            g.fifo⟩) with
    | none => rfl
    | some x =>
      obtain ⟨ret, gp⟩ := x
      simp only [Option.map_some']
      by_cases hacq : O.nvgpu_pmu_lock_acquire (g.trace ++
          [Event.nvgpu_mutex_acquire tsg.runlist_id,
            Event.nvgpu_tsg_disable_sched tsg.tsgid]) = 0
      · by_cases hret : ret ≠ 0
        · cases hs : O.nvgpu_platform_is_silicon <;> simp [hret, hacq]
        · simp [hret, hacq]
      · by_cases hret : ret ≠ 0
        · cases hs : O.nvgpu_platform_is_silicon <;> simp [hret, hacq]
        · simp [hret, hacq]

theorem gv11b_fifo_preempt_tsg_some (K : Config) (O : Oracle) (ops : gops_fifo)
    (tsg : nvgpu_tsg) (g : gk20a) (hrl : tsg.runlist_id ≠ K.NVGPU_INVALID_RUNLIST_ID)
    (ret : Int) (g' : gk20a) (h : gv11b_fifo_preempt_tsg K O ops tsg g = some (ret, g')) :
    ∃ gp, ops.is_preempt_pending tsg.tsgid K.ID_TYPE_TSG
        (ops.preempt_trigger tsg.tsgid K.ID_TYPE_TSG
          ⟨g.trace ++ [Event.nvgpu_mutex_acquire tsg.runlist_id,
              Event.nvgpu_tsg_disable_sched tsg.tsgid] ++
            (if K.CONFIG_NVGPU_LS_PMU = true then [Event.nvgpu_pmu_lock_acquire] else []),
            g.fifo⟩) = some (ret, gp) ∧
      g'.fifo = gp.fifo ∧
      g'.trace = gp.trace ++
        (if K.CONFIG_NVGPU_LS_PMU = true ∧
            O.nvgpu_pmu_lock_acquire (g.trace ++
              [Event.nvgpu_mutex_acquire tsg.runlist_id,
                Event.nvgpu_tsg_disable_sched tsg.tsgid]) = 0
          then [Event.nvgpu_pmu_lock_release] else []) ++
        [Event.nvgpu_tsg_enable_sched tsg.tsgid,
          Event.nvgpu_mutex_release tsg.runlist_id] ++
        (if ret ≠ 0 ∧ O.nvgpu_platform_is_silicon = false
          then [Event.nvgpu_rc_preempt_timeout tsg.tsgid] else []) := by
  rw [gv11b_fifo_preempt_tsg_eq K O ops tsg g hrl] at h
  obtain ⟨⟨r, gp⟩, hx, hy⟩ := Option.map_eq_some'.1 h
  simp only [Prod.mk.injEq] at hy
  obtain ⟨rfl, rfl⟩ := hy
  exact ⟨gp, hx, rfl, rfl⟩

theorem gv11b_fifo_preempt_tsg_gv11b_trace (K : Config) (O : Oracle) (fuel : Nat)
    (tsg : nvgpu_tsg) (g : gk20a) (hrl : tsg.runlist_id ≠ K.NVGPU_INVALID_RUNLIST_ID)
    (ret : Int) (g' : gk20a)
    (h : gv11b_fifo_preempt_tsg K O (gv11b_ops K O fuel) tsg g = some (ret, g')) :
    ∃ evs, (∀ e ∈ evs, e.is_poll_event = true) ∧
      g'.trace = g.trace ++ [Event.nvgpu_mutex_acquire tsg.runlist_id,
          Event.nvgpu_tsg_disable_sched tsg.tsgid] ++
        (if K.CONFIG_NVGPU_LS_PMU = true then [Event.nvgpu_pmu_lock_acquire] else []) ++
        [Event.nvgpu_writel K.fifo_preempt_r
          (K.fifo_preempt_id_f tsg.tsgid ||| K.fifo_preempt_type_tsg_f)] ++ evs ++
        (if K.CONFIG_NVGPU_LS_PMU = true ∧
            O.nvgpu_pmu_lock_acquire (g.trace ++
              [Event.nvgpu_mutex_acquire tsg.runlist_id,
                Event.nvgpu_tsg_disable_sched tsg.tsgid]) = 0
          then [Event.nvgpu_pmu_lock_release] else []) ++
        [Event.nvgpu_tsg_enable_sched tsg.tsgid,
          Event.nvgpu_mutex_release tsg.runlist_id] ++
        (if ret ≠ 0 ∧ O.nvgpu_platform_is_silicon = false
          then [Event.nvgpu_rc_preempt_timeout tsg.tsgid] else []) := by
  obtain ⟨gp, hx, -, ht⟩ := gv11b_fifo_preempt_tsg_some K O _ tsg g hrl ret g' h
  simp only [gv11b_ops, gv11b_fifo_preempt_trigger, if_true, gk20a.emit] at hx
  obtain ⟨evs, hte, hall⟩ := gv11b_fifo_is_preempt_pending_events K O fuel _ _ _ _ _ hx
  refine ⟨evs, hall, ?_⟩
  rw [ht, hte]

/-- C6: for a TSG with a valid runlist id, and whatever the HAL entries
`preempt_trigger` and `is_preempt_pending` do and whatever the PMU mutex
acquisition returns, `gv11b_fifo_preempt_tsg` returns exactly when the poll
entry returns, and then: it has recorded the runlist lock acquisition and the
scheduling disable (and the PMU acquisition), run the trigger entry on that
state, run the poll entry on the trigger's result, and appended to the poll's
result the scheduling enable and the runlist lock release, with at most the
PMU release before and the recovery call after.  On return the runlist lock
is not held and scheduling of the TSG is enabled, whatever the poll returned.
With the gv11b entries the lock, scheduling and register-write calls are, in
order and once each: lock acquire, scheduling disable, the preempt register
write, scheduling enable, lock release. -/
theorem gv11b_fifo_preempt_tsg_sequence (K : Config) (O : Oracle) (ops : gops_fifo)
    (tsg : nvgpu_tsg) (g : gk20a) (hrl : tsg.runlist_id ≠ K.NVGPU_INVALID_RUNLIST_ID) :
    ((gv11b_fifo_preempt_tsg K O ops tsg g).isSome =
      (ops.is_preempt_pending tsg.tsgid K.ID_TYPE_TSG
        (ops.preempt_trigger tsg.tsgid K.ID_TYPE_TSG
          ⟨g.trace ++ [Event.nvgpu_mutex_acquire tsg.runlist_id,
              Event.nvgpu_tsg_disable_sched tsg.tsgid] ++
            (if K.CONFIG_NVGPU_LS_PMU = true then [Event.nvgpu_pmu_lock_acquire] else []),
            g.fifo⟩)).isSome) ∧
    (∀ ret g', gv11b_fifo_preempt_tsg K O ops tsg g = some (ret, g') →
      ∃ gp a b, ops.is_preempt_pending tsg.tsgid K.ID_TYPE_TSG
          (ops.preempt_trigger tsg.tsgid K.ID_TYPE_TSG
            ⟨g.trace ++ [Event.nvgpu_mutex_acquire tsg.runlist_id,
                Event.nvgpu_tsg_disable_sched tsg.tsgid] ++
              (if K.CONFIG_NVGPU_LS_PMU = true then [Event.nvgpu_pmu_lock_acquire] else []),
              g.fifo⟩) = some (ret, gp) ∧
        g'.fifo = gp.fifo ∧
        g'.trace = gp.trace ++ a ++
          [Event.nvgpu_tsg_enable_sched tsg.tsgid,
            Event.nvgpu_mutex_release tsg.runlist_id] ++ b ∧
        (a = [] ∨ a = [Event.nvgpu_pmu_lock_release]) ∧
        (b = [] ∨ b = [Event.nvgpu_rc_preempt_timeout tsg.tsgid]) ∧
        runlist_lock_held tsg.runlist_id g'.trace = false ∧
        tsg_sched_enabled tsg.tsgid g'.trace = true) ∧
    (∀ fuel ret g',
      gv11b_fifo_preempt_tsg K O (gv11b_ops K O fuel) tsg g = some (ret, g') →
      ∃ evs, g'.trace = g.trace ++ evs ∧
        evs.filter Event.is_lock_sched_write =
          [Event.nvgpu_mutex_acquire tsg.runlist_id,
            Event.nvgpu_tsg_disable_sched tsg.tsgid,
            Event.nvgpu_writel K.fifo_preempt_r
              (K.fifo_preempt_id_f tsg.tsgid ||| K.fifo_preempt_type_tsg_f),
            Event.nvgpu_tsg_enable_sched tsg.tsgid,
            Event.nvgpu_mutex_release tsg.runlist_id]) := by
  refine ⟨?_, ?_, ?_⟩
  · rw [gv11b_fifo_preempt_tsg_eq K O ops tsg g hrl, Option.isSome_map']
  · intro ret g' h
    obtain ⟨gp, hx, hf, ht⟩ := gv11b_fifo_preempt_tsg_some K O ops tsg g hrl ret g' h
    refine ⟨gp, _, _, hx, hf, ht, ?_, ?_, ?_, ?_⟩
    · split_ifs
      · exact Or.inr rfl
      · exact Or.inl rfl
    · split_ifs
      · exact Or.inr rfl
      · exact Or.inl rfl
    · rw [ht]
      split_ifs <;> simp [runlist_lock_held, List.foldl_append]
    · rw [ht]
      split_ifs <;> simp [tsg_sched_enabled, List.foldl_append]
  · intro fuel ret g' h
    obtain ⟨evs, hall, ht⟩ := gv11b_fifo_preempt_tsg_gv11b_trace K O fuel tsg g hrl ret g' h
    refine ⟨[Event.nvgpu_mutex_acquire tsg.runlist_id,
          Event.nvgpu_tsg_disable_sched tsg.tsgid] ++
        (if K.CONFIG_NVGPU_LS_PMU = true then [Event.nvgpu_pmu_lock_acquire] else []) ++
        [Event.nvgpu_writel K.fifo_preempt_r
          (K.fifo_preempt_id_f tsg.tsgid ||| K.fifo_preempt_type_tsg_f)] ++ evs ++
        (if K.CONFIG_NVGPU_LS_PMU = true ∧
            O.nvgpu_pmu_lock_acquire (g.trace ++
              [Event.nvgpu_mutex_acquire tsg.runlist_id,
                Event.nvgpu_tsg_disable_sched tsg.tsgid]) = 0
          then [Event.nvgpu_pmu_lock_release] else []) ++
        [Event.nvgpu_tsg_enable_sched tsg.tsgid,
          Event.nvgpu_mutex_release tsg.runlist_id] ++
        (if ret ≠ 0 ∧ O.nvgpu_platform_is_silicon = false
          then [Event.nvgpu_rc_preempt_timeout tsg.tsgid] else []),
      by rw [ht]; simp only [List.append_assoc], ?_⟩
    have hfl := filter_lock_sched_write_poll evs hall
    simp only [List.filter_append, hfl]
    split_ifs <;> simp [List.filter_cons, Event.is_lock_sched_write]

/-- Witness of C6: TSG 7 on runlist 2, off silicon, the PMU mutex refused and
both polls timing out; the lock is released and scheduling re-enabled. -/
theorem gv11b_fifo_preempt_tsg_sequence_witness :
    (gv11b_fifo_preempt_tsg sample_config stuck_oracle (gv11b_ops sample_config stuck_oracle 4)
        ⟨7, 2⟩ ⟨[], sample_fifo 8 2 5⟩).map
      (fun x => (x.1, x.2.trace.filter Event.is_lock_sched_write)) =
      some (-16, [Event.nvgpu_mutex_acquire 2, Event.nvgpu_tsg_disable_sched 7,
        Event.nvgpu_writel 0x2634 0x1000007, Event.nvgpu_tsg_enable_sched 7,
        Event.nvgpu_mutex_release 2]) ∧
    ∃ r g', gv11b_fifo_preempt_tsg sample_config stuck_oracle
        (gv11b_ops sample_config stuck_oracle 4) ⟨7, 2⟩ ⟨[], sample_fifo 8 2 5⟩ =
          some (r, g') ∧
      runlist_lock_held 2 g'.trace = false ∧ tsg_sched_enabled 7 g'.trace = true := by
  have hev : (gv11b_fifo_preempt_tsg sample_config stuck_oracle
        (gv11b_ops sample_config stuck_oracle 4) ⟨7, 2⟩ ⟨[], sample_fifo 8 2 5⟩).map
      (fun x => (x.1, x.2.trace.filter Event.is_lock_sched_write)) =
      some (-16, [Event.nvgpu_mutex_acquire 2, Event.nvgpu_tsg_disable_sched 7,
        Event.nvgpu_writel 0x2634 0x1000007, Event.nvgpu_tsg_enable_sched 7,
        Event.nvgpu_mutex_release 2]) := by decide
  refine ⟨hev, ?_⟩
  obtain ⟨⟨r, g'⟩, hx, -⟩ := Option.map_eq_some'.1 hev
  obtain ⟨gp, a, b, -, -, -, -, -, hl, hs⟩ :=
    (gv11b_fifo_preempt_tsg_sequence sample_config stuck_oracle
      (gv11b_ops sample_config stuck_oracle 4) ⟨7, 2⟩ ⟨[], sample_fifo 8 2 5⟩
      (by decide)).2.1 r g' hx
  exact ⟨r, g', hx, hl, hs⟩

/-- C7: for a TSG with a valid runlist id, the value `gv11b_fifo_preempt_tsg`
returns is exactly the value returned by the `is_preempt_pending` entry.
After the poll's result the function appends calls that contain no recovery
call, then the runlist lock release, and then `nvgpu_rc_preempt_timeout`
exactly when that value is non-zero and the platform is not silicon, nothing
otherwise.  With the gv11b entries the recovery calls of the whole run are
that single call in that case and none on silicon or after a successful
poll.  The function returns exactly when the poll entry returns; with the
gv11b entries it returns off silicon whenever the fuel exceeds the retry
ceiling. -/
theorem gv11b_fifo_preempt_tsg_result_and_recovery (K : Config) (O : Oracle)
    (ops : gops_fifo) (tsg : nvgpu_tsg) (g : gk20a)
    (hrl : tsg.runlist_id ≠ K.NVGPU_INVALID_RUNLIST_ID) :
    (∀ ret g', gv11b_fifo_preempt_tsg K O ops tsg g = some (ret, g') →
      ∃ gp a, ops.is_preempt_pending tsg.tsgid K.ID_TYPE_TSG
          (ops.preempt_trigger tsg.tsgid K.ID_TYPE_TSG
            ⟨g.trace ++ [Event.nvgpu_mutex_acquire tsg.runlist_id,
                Event.nvgpu_tsg_disable_sched tsg.tsgid] ++
              (if K.CONFIG_NVGPU_LS_PMU = true then [Event.nvgpu_pmu_lock_acquire] else []),
              g.fifo⟩) = some (ret, gp) ∧
        g'.trace = gp.trace ++ a ++ [Event.nvgpu_mutex_release tsg.runlist_id] ++
          (if ret ≠ 0 ∧ O.nvgpu_platform_is_silicon = false
            then [Event.nvgpu_rc_preempt_timeout tsg.tsgid] else []) ∧
        a.filter Event.is_recovery = []) ∧
    (∀ fuel ret g',
      gv11b_fifo_preempt_tsg K O (gv11b_ops K O fuel) tsg g = some (ret, g') →
      ∃ evs, g'.trace = g.trace ++ evs ∧
        evs.filter Event.is_recovery =
          if ret ≠ 0 ∧ O.nvgpu_platform_is_silicon = false
            then [Event.nvgpu_rc_preempt_timeout tsg.tsgid] else []) ∧
    ((gv11b_fifo_preempt_tsg K O ops tsg g).isSome =
      (ops.is_preempt_pending tsg.tsgid K.ID_TYPE_TSG
        (ops.preempt_trigger tsg.tsgid K.ID_TYPE_TSG
          ⟨g.trace ++ [Event.nvgpu_mutex_acquire tsg.runlist_id,
              Event.nvgpu_tsg_disable_sched tsg.tsgid] ++
            (if K.CONFIG_NVGPU_LS_PMU = true then [Event.nvgpu_pmu_lock_acquire] else []),
            g.fifo⟩)).isSome) ∧
    (∀ fuel, O.nvgpu_platform_is_silicon = false →
      K.PREEMPT_PENDING_POLL_PRE_SI_RETRIES < fuel →
      (gv11b_fifo_preempt_tsg K O (gv11b_ops K O fuel) tsg g).isSome = true) := by
  refine ⟨?_, ?_, ?_, ?_⟩
  rotate_left 2
  · rw [gv11b_fifo_preempt_tsg_eq K O ops tsg g hrl, Option.isSome_map']
  · intro fuel hs hfuel
    rw [gv11b_fifo_preempt_tsg_eq K O _ tsg g hrl, Option.isSome_map']
    exact gv11b_fifo_is_preempt_pending_returns K O fuel _ _ _
      (fun t p g1 => poll_pbdma_returns K O fuel t p g1 hs hfuel)
      (fun t e acc g1 => poll_eng_returns K O fuel t e acc g1 hs hfuel)
  · intro ret g' h
    obtain ⟨gp, hx, -, ht⟩ := gv11b_fifo_preempt_tsg_some K O ops tsg g hrl ret g' h
    refine ⟨gp, (if K.CONFIG_NVGPU_LS_PMU = true ∧
            O.nvgpu_pmu_lock_acquire (g.trace ++
              [Event.nvgpu_mutex_acquire tsg.runlist_id,
                Event.nvgpu_tsg_disable_sched tsg.tsgid]) = 0
          then [Event.nvgpu_pmu_lock_release] else []) ++
        [Event.nvgpu_tsg_enable_sched tsg.tsgid], hx, ?_, ?_⟩
    · rw [ht]; simp only [List.append_assoc, List.singleton_append]
    · split_ifs <;> simp [List.filter_cons, Event.is_recovery]
  · intro fuel ret g' h
    obtain ⟨evs, hall, ht⟩ := gv11b_fifo_preempt_tsg_gv11b_trace K O fuel tsg g hrl ret g' h
    refine ⟨[Event.nvgpu_mutex_acquire tsg.runlist_id,
          Event.nvgpu_tsg_disable_sched tsg.tsgid] ++
        (if K.CONFIG_NVGPU_LS_PMU = true then [Event.nvgpu_pmu_lock_acquire] else []) ++
        [Event.nvgpu_writel K.fifo_preempt_r
          (K.fifo_preempt_id_f tsg.tsgid ||| K.fifo_preempt_type_tsg_f)] ++ evs ++
        (if K.CONFIG_NVGPU_LS_PMU = true ∧
            O.nvgpu_pmu_lock_acquire (g.trace ++
              [Event.nvgpu_mutex_acquire tsg.runlist_id,
                Event.nvgpu_tsg_disable_sched tsg.tsgid]) = 0
          then [Event.nvgpu_pmu_lock_release] else []) ++
        [Event.nvgpu_tsg_enable_sched tsg.tsgid,
          Event.nvgpu_mutex_release tsg.runlist_id] ++
        (if ret ≠ 0 ∧ O.nvgpu_platform_is_silicon = false
          then [Event.nvgpu_rc_preempt_timeout tsg.tsgid] else []),
      by rw [ht]; simp only [List.append_assoc], ?_⟩
    have hfl : evs.filter Event.is_recovery = [] := by
      rw [List.filter_eq_nil_iff]
      intro e he
      have := hall e he
      cases e <;> simp_all [Event.is_poll_event, Event.is_poll_call, Event.is_poll_ret,
        Event.is_poll_internal, Event.is_recovery]
    simp only [List.filter_append, hfl]
    split_ifs <;> simp [List.filter_cons, Event.is_recovery]

/-- Witness of C7: TSG 7 on runlist 2 off silicon with both polls timing out:
the call returns -16 and recovery is called once, as the last call. -/
theorem gv11b_fifo_preempt_tsg_result_and_recovery_witness :
    (gv11b_fifo_preempt_tsg sample_config stuck_oracle (gv11b_ops sample_config stuck_oracle 4)
        ⟨7, 2⟩ ⟨[], sample_fifo 8 2 5⟩).map
      (fun x => (x.1, x.2.trace.getLast?)) =
      some (-16, some (Event.nvgpu_rc_preempt_timeout 7)) ∧
    ∃ r g', gv11b_fifo_preempt_tsg sample_config stuck_oracle
        (gv11b_ops sample_config stuck_oracle 4) ⟨7, 2⟩ ⟨[], sample_fifo 8 2 5⟩ =
          some (r, g') ∧ r = -16 ∧
      g'.trace.filter Event.is_recovery = [Event.nvgpu_rc_preempt_timeout 7] := by
  have hev : (gv11b_fifo_preempt_tsg sample_config stuck_oracle
        (gv11b_ops sample_config stuck_oracle 4) ⟨7, 2⟩ ⟨[], sample_fifo 8 2 5⟩).map
      (fun x => (x.1, x.2.trace.getLast?)) =
      some (-16, some (Event.nvgpu_rc_preempt_timeout 7)) := by decide
  refine ⟨hev, ?_⟩
  obtain ⟨⟨r, g'⟩, hx, hy⟩ := Option.map_eq_some'.1 hev
  have hr : r = -16 := (Prod.mk.inj hy).1
  obtain ⟨evs, ht, hfl⟩ :=
    (gv11b_fifo_preempt_tsg_result_and_recovery sample_config stuck_oracle
      (gv11b_ops sample_config stuck_oracle 4) ⟨7, 2⟩ ⟨[], sample_fifo 8 2 5⟩
      (by decide)).2.1 4 r g' hx
  refine ⟨r, g', hx, hr, ?_⟩
  rw [ht, List.nil_append, hfl, hr]
  decide

/-- C8: `gv11b_fifo_preempt_channel` on a channel for which
`nvgpu_tsg_from_ch` gives `NULL`, and `gv11b_fifo_preempt_tsg` on a TSG whose
`runlist_id` is `NVGPU_INVALID_RUNLIST_ID`, return 0 and leave the device as
it was: no call of any kind is added to the trace (no register write, lock,
scheduling, PMU, trigger or poll call) and the fifo is unchanged. -/
theorem preempt_noop_on_unbound (K : Config) (O : Oracle) (ops : gops_fifo)
    (preempt_tsg : nvgpu_tsg → gk20a → Option (Int × gk20a)) (g : gk20a) :
    (∀ ch, O.nvgpu_tsg_from_ch g.fifo ch = none →
      gv11b_fifo_preempt_channel O preempt_tsg ch g = some (0, g)) ∧
    (∀ tsg, tsg.runlist_id = K.NVGPU_INVALID_RUNLIST_ID →
      gv11b_fifo_preempt_tsg K O ops tsg g = some (0, g)) := by
  refine ⟨?_, ?_⟩
  · intro ch h
    simp only [gv11b_fifo_preempt_channel, h]
  · intro tsg h
    simp only [gv11b_fifo_preempt_tsg, h, if_true]

/-- Witness of C8: a channel bound to no TSG, and a TSG with the invalid
runlist id, on the stuck platform: both calls return 0 on the spot. -/
theorem preempt_noop_on_unbound_witness :
    stuck_oracle.nvgpu_tsg_from_ch (sample_fifo 8 2 5) ⟨0, 7, 2⟩ = none ∧
    (gv11b_fifo_preempt_channel stuck_oracle
        (gv11b_fifo_preempt_tsg sample_config stuck_oracle
          (gv11b_ops sample_config stuck_oracle 4)) ⟨0, 7, 2⟩ ⟨[], sample_fifo 8 2 5⟩).map
      (fun x => (x.1, x.2.trace)) = some (0, []) ∧
    (gv11b_fifo_preempt_tsg sample_config stuck_oracle
        (gv11b_ops sample_config stuck_oracle 4) ⟨7, 4294967295⟩
        ⟨[], sample_fifo 8 2 5⟩).map
      (fun x => (x.1, x.2.trace)) = some (0, []) := by
  have h := preempt_noop_on_unbound sample_config stuck_oracle
    (gv11b_ops sample_config stuck_oracle 4)
    (gv11b_fifo_preempt_tsg sample_config stuck_oracle
      (gv11b_ops sample_config stuck_oracle 4)) ⟨[], sample_fifo 8 2 5⟩
  refine ⟨rfl, ?_, ?_⟩
  · rw [h.1 ⟨0, 7, 2⟩ rfl]
    rfl
  · rw [h.2 ⟨7, 4294967295⟩ rfl]
    rfl

/-- C9: with `id_type == ID_TYPE_TSG`, `gv11b_fifo_preempt_trigger` makes
exactly one call, a write to `fifo_preempt_r()` of
`fifo_preempt_id_f(id) | fifo_preempt_type_tsg_f()`, and leaves the fifo
unchanged; with any other `id_type` it leaves the device as it was. -/
theorem gv11b_fifo_preempt_trigger_write (K : Config) (id id_type : Nat) (g : gk20a) :
    (id_type = K.ID_TYPE_TSG →
      gv11b_fifo_preempt_trigger K id id_type g =
        ⟨g.trace ++ [Event.nvgpu_writel K.fifo_preempt_r
          (K.fifo_preempt_id_f id ||| K.fifo_preempt_type_tsg_f)], g.fifo⟩) ∧
    (id_type ≠ K.ID_TYPE_TSG → gv11b_fifo_preempt_trigger K id id_type g = g) := by
  refine ⟨?_, ?_⟩
  · intro h
    simp only [gv11b_fifo_preempt_trigger, h, if_true, gk20a.emit]
  · intro h
    simp only [gv11b_fifo_preempt_trigger, if_neg h]

/-- Witness of C9: TSG 7 gives one write of `0x1000007` to `0x2634`; a
channel id gives no call. -/
theorem gv11b_fifo_preempt_trigger_write_witness :
    (gv11b_fifo_preempt_trigger sample_config 7 1 ⟨[], sample_fifo 8 2 5⟩).trace =
      [Event.nvgpu_writel 0x2634 0x1000007] ∧
    (gv11b_fifo_preempt_trigger sample_config 7 0 ⟨[], sample_fifo 8 2 5⟩).trace = [] := by
  have h := gv11b_fifo_preempt_trigger_write sample_config 7 1 ⟨[], sample_fifo 8 2 5⟩
  have h0 := gv11b_fifo_preempt_trigger_write sample_config 7 0 ⟨[], sample_fifo 8 2 5⟩
  refine ⟨?_, ?_⟩
  · rw [h.1 rfl]
    decide
  · rw [h0.2 (by decide)]

/-! Runlist preempt for recovery -/

theorem gv11b_fifo_preempt_runlists_for_rc_loop_eq (K : Config) (runlists_mask : Nat) :
    ∀ (n i : Nat) (f : nvgpu_fifo),
      gv11b_fifo_preempt_runlists_for_rc_loop K runlists_mask n i f =
        { f with active_runlist_info := fun j =>
            if i ≤ j ∧ j < i + n ∧
                K.fifo_runlist_preempt_runlist_m (f.active_runlist_info j).runlist_id &&&
                  runlists_mask ≠ 0 then
              { (f.active_runlist_info j) with
                reset_eng_bitmask := (f.active_runlist_info j).eng_bitmask }
            else f.active_runlist_info j } := by
  intro n
  induction n with
  | zero =>
    intro i f
    simp only [gv11b_fifo_preempt_runlists_for_rc_loop]
    have : ∀ j, ¬ (i ≤ j ∧ j < i + 0 ∧
        K.fifo_runlist_preempt_runlist_m (f.active_runlist_info j).runlist_id &&&
          runlists_mask ≠ 0) := by
      intro j h
      omega
    simp only [this, if_false]
  | succ n ih =>
    intro i f
    simp only [gv11b_fifo_preempt_runlists_for_rc_loop]
    rw [ih]
    by_cases hb : K.fifo_runlist_preempt_runlist_m (f.active_runlist_info i).runlist_id &&&
        runlists_mask ≠ 0
    · simp only [if_pos hb, nvgpu_fifo.set_reset_eng_bitmask]
      congr 1
      funext j
      by_cases hj : j = i
      · subst hj
        have h1 : ¬ (j + 1 ≤ j ∧ j < j + 1 + n ∧
            K.fifo_runlist_preempt_runlist_m
              ((if j = j then { (f.active_runlist_info j) with
                  reset_eng_bitmask := (f.active_runlist_info j).eng_bitmask }
                else f.active_runlist_info j)).runlist_id &&& runlists_mask ≠ 0) := by
          intro h
          omega
        have h2 : j ≤ j ∧ j < j + (n + 1) ∧
            K.fifo_runlist_preempt_runlist_m (f.active_runlist_info j).runlist_id &&&
              runlists_mask ≠ 0 := ⟨le_refl _, by omega, hb⟩
        rw [if_neg h1, if_pos h2]
        simp
      · simp only [if_neg hj]
        by_cases hc : i ≤ j ∧ j < i + (n + 1) ∧
            K.fifo_runlist_preempt_runlist_m (f.active_runlist_info j).runlist_id &&&
              runlists_mask ≠ 0
        · have hc2 : i + 1 ≤ j ∧ j < i + 1 + n ∧
              K.fifo_runlist_preempt_runlist_m (f.active_runlist_info j).runlist_id &&&
                runlists_mask ≠ 0 := ⟨by omega, by omega, hc.2.2⟩
          rw [if_pos hc, if_pos hc2]
        · have hc2 : ¬ (i + 1 ≤ j ∧ j < i + 1 + n ∧
              K.fifo_runlist_preempt_runlist_m (f.active_runlist_info j).runlist_id &&&
                runlists_mask ≠ 0) := by
            intro h
            exact hc ⟨by omega, by omega, h.2.2⟩
          rw [if_neg hc, if_neg hc2]
    · simp only [if_neg hb]
      congr 1
      funext j
      by_cases hc : i ≤ j ∧ j < i + (n + 1) ∧
          K.fifo_runlist_preempt_runlist_m (f.active_runlist_info j).runlist_id &&&
            runlists_mask ≠ 0
      · have hji : j ≠ i := by
          intro e
          rw [e] at hc
          exact hb hc.2.2
        have hc2 : i + 1 ≤ j ∧ j < i + 1 + n ∧
            K.fifo_runlist_preempt_runlist_m (f.active_runlist_info j).runlist_id &&&
              runlists_mask ≠ 0 := ⟨by omega, by omega, hc.2.2⟩
        rw [if_pos hc, if_pos hc2]
      · have hc2 : ¬ (i + 1 ≤ j ∧ j < i + 1 + n ∧
            K.fifo_runlist_preempt_runlist_m (f.active_runlist_info j).runlist_id &&&
              runlists_mask ≠ 0) := by
          intro h
          exact hc ⟨by omega, by omega, h.2.2⟩
        rw [if_neg hc, if_neg hc2]

/-- C10: with recovery support configured, `gv11b_fifo_preempt_runlists_for_rc`
adds to the trace, between the optional PMU mutex acquire and release, one
read of `fifo_runlist_preempt_r()` and one write to it of the value read OR
`runlists_mask`, and nothing else (no PBDMA or engine status query);
every runlist object below `num_runlists` whose preempt bit is in
`runlists_mask` ends with `reset_eng_bitmask` equal to its `eng_bitmask`,
every other runlist object keeps its `reset_eng_bitmask`, and `runlist_id`,
`eng_bitmask` and `pbdma_bitmask` of all runlist objects and the rest of the
fifo are unchanged. -/
theorem gv11b_fifo_preempt_runlists_for_rc_effect (K : Config) (O : Oracle)
    (runlists_mask : Nat) (g : gk20a) (hrec : K.CONFIG_NVGPU_RECOVERY = true) :
    (gv11b_fifo_preempt_runlists_for_rc K O runlists_mask g).trace =
      g.trace ++
        (if K.CONFIG_NVGPU_LS_PMU = true then [Event.nvgpu_pmu_lock_acquire] else []) ++
        [Event.nvgpu_readl K.fifo_runlist_preempt_r,
          Event.nvgpu_writel K.fifo_runlist_preempt_r
            (O.nvgpu_readl (g.trace ++
                (if K.CONFIG_NVGPU_LS_PMU = true then [Event.nvgpu_pmu_lock_acquire]
                  else [])) K.fifo_runlist_preempt_r ||| runlists_mask)] ++
        (if K.CONFIG_NVGPU_LS_PMU = true ∧ O.nvgpu_pmu_lock_acquire g.trace = 0
          then [Event.nvgpu_pmu_lock_release] else []) ∧
    (∀ j, j < g.fifo.num_runlists →
      K.fifo_runlist_preempt_runlist_m (g.fifo.active_runlist_info j).runlist_id &&&
        runlists_mask ≠ 0 →
      ((gv11b_fifo_preempt_runlists_for_rc K O runlists_mask g).fifo.active_runlist_info
          j).reset_eng_bitmask = (g.fifo.active_runlist_info j).eng_bitmask) ∧
    (∀ j, ¬ (j < g.fifo.num_runlists ∧
        K.fifo_runlist_preempt_runlist_m (g.fifo.active_runlist_info j).runlist_id &&&
          runlists_mask ≠ 0) →
      ((gv11b_fifo_preempt_runlists_for_rc K O runlists_mask g).fifo.active_runlist_info
          j).reset_eng_bitmask = (g.fifo.active_runlist_info j).reset_eng_bitmask) ∧
    (∀ j,
      ((gv11b_fifo_preempt_runlists_for_rc K O runlists_mask g).fifo.active_runlist_info
          j).eng_bitmask = (g.fifo.active_runlist_info j).eng_bitmask ∧
      ((gv11b_fifo_preempt_runlists_for_rc K O runlists_mask g).fifo.active_runlist_info
          j).pbdma_bitmask = (g.fifo.active_runlist_info j).pbdma_bitmask ∧
      ((gv11b_fifo_preempt_runlists_for_rc K O runlists_mask g).fifo.active_runlist_info
          j).runlist_id = (g.fifo.active_runlist_info j).runlist_id) ∧
    (gv11b_fifo_preempt_runlists_for_rc K O runlists_mask g).fifo.runlist_info =
      g.fifo.runlist_info ∧
    (gv11b_fifo_preempt_runlists_for_rc K O runlists_mask g).fifo.num_runlists =
      g.fifo.num_runlists ∧
    (gv11b_fifo_preempt_runlists_for_rc K O runlists_mask g).fifo.num_pbdma =
      g.fifo.num_pbdma ∧
    (gv11b_fifo_preempt_runlists_for_rc K O runlists_mask g).fifo.max_engines =
      g.fifo.max_engines := by
  have hfifo : (gv11b_fifo_preempt_runlists_for_rc K O runlists_mask g).fifo =
      gv11b_fifo_preempt_runlists_for_rc_loop K runlists_mask g.fifo.num_runlists 0
        g.fifo := by
    simp only [gv11b_fifo_preempt_runlists_for_rc, gv11b_fifo_issue_runlist_preempt, hrec,
      if_true, gk20a.emit]
    cases K.CONFIG_NVGPU_LS_PMU
    · simp
    · by_cases hacq : O.nvgpu_pmu_lock_acquire g.trace = 0 <;> simp [hacq]
  rw [hfifo, gv11b_fifo_preempt_runlists_for_rc_loop_eq]
  refine ⟨?_, ?_, ?_, ?_, rfl, rfl, rfl, rfl⟩
  · simp only [gv11b_fifo_preempt_runlists_for_rc, gv11b_fifo_issue_runlist_preempt, hrec,
      if_true, gk20a.emit]
    cases K.CONFIG_NVGPU_LS_PMU
    · simp
    · by_cases hacq : O.nvgpu_pmu_lock_acquire g.trace = 0 <;> simp [hacq]
  · intro j hj hb
    have hc : 0 ≤ j ∧ j < 0 + g.fifo.num_runlists ∧
        K.fifo_runlist_preempt_runlist_m (g.fifo.active_runlist_info j).runlist_id &&&
          runlists_mask ≠ 0 := ⟨Nat.zero_le _, by omega, hb⟩
    simp only [if_pos hc]
  · intro j hn
    have hc : ¬ (0 ≤ j ∧ j < 0 + g.fifo.num_runlists ∧
        K.fifo_runlist_preempt_runlist_m (g.fifo.active_runlist_info j).runlist_id &&&
          runlists_mask ≠ 0) := by
      intro h
      exact hn ⟨by omega, h.2.2⟩
    simp only [if_neg hc]
  · intro j
    by_cases hc : 0 ≤ j ∧ j < 0 + g.fifo.num_runlists ∧
        K.fifo_runlist_preempt_runlist_m (g.fifo.active_runlist_info j).runlist_id &&&
          runlists_mask ≠ 0
    · simp only [if_pos hc, and_self]
    · simp only [if_neg hc, and_self]

/-- Witness of C10: runlist 2 preempted with mask `0b100` while the register
reads 0: one write of 4, and the runlist's `reset_eng_bitmask` goes from 5 to
its `eng_bitmask` 2. -/
theorem gv11b_fifo_preempt_runlists_for_rc_effect_witness :
    sample_config.CONFIG_NVGPU_RECOVERY = true ∧
    (gv11b_fifo_preempt_runlists_for_rc sample_config sample_oracle 4
        ⟨[], sample_fifo 8 2 5⟩).trace =
      [Event.nvgpu_pmu_lock_acquire, Event.nvgpu_readl 0x2638,
        Event.nvgpu_writel 0x2638 4, Event.nvgpu_pmu_lock_release] ∧
    ((gv11b_fifo_preempt_runlists_for_rc sample_config sample_oracle 4
        ⟨[], sample_fifo 8 2 5⟩).fifo.active_runlist_info 0).reset_eng_bitmask = 2 := by
  have h := gv11b_fifo_preempt_runlists_for_rc_effect sample_config sample_oracle 4
    ⟨[], sample_fifo 8 2 5⟩ rfl
  refine ⟨rfl, ?_, ?_⟩
  · rw [h.1]
    decide
  · rw [h.2.1 0 (by decide) (by decide)]
    rfl

/-! Phases outside the decision tables -/

/-- C14, as stated, fails: a PBDMA status whose phase value 5 is none of
invalid, valid, save, load and switch, with id 7 the target, is classified
confirmed (0), not `-EBUSY`. -/
theorem fifo_preempt_check_tsg_on_pbdma_other_phase_not_busy :
    ¬ (∀ (tsgid : Nat) (st : nvgpu_pbdma_status_info),
      st.chsw_status ≠ NVGPU_PBDMA_CHSW_STATUS_INVALID →
      st.chsw_status ≠ NVGPU_PBDMA_CHSW_STATUS_VALID →
      st.chsw_status ≠ NVGPU_PBDMA_CHSW_STATUS_SAVE →
      st.chsw_status ≠ NVGPU_PBDMA_CHSW_STATUS_LOAD →
      st.chsw_status ≠ NVGPU_PBDMA_CHSW_STATUS_SWITCH →
      fifo_preempt_check_tsg_on_pbdma tsgid st = -EBUSY) := by
  intro h
  have h5 := h 7 { pbdma_reg_status := 0, chsw_status := 5, id := 7, next_id := 7 }
    (by decide) (by decide) (by decide) (by decide) (by decide)
  revert h5
  decide

/-- C14, amended: for a PBDMA status whose phase is none of valid, save, load
and switch (phase invalid or any other value), `fifo_preempt_check_tsg_on_pbdma`
returns 0, eviction confirmed, whatever the target, the reported id and the
next id are. -/
theorem fifo_preempt_check_tsg_on_pbdma_other_phase (tsgid : Nat)
    (st : nvgpu_pbdma_status_info)
    (hv : st.chsw_status ≠ NVGPU_PBDMA_CHSW_STATUS_VALID)
    (hs : st.chsw_status ≠ NVGPU_PBDMA_CHSW_STATUS_SAVE)
    (hl : st.chsw_status ≠ NVGPU_PBDMA_CHSW_STATUS_LOAD)
    (hw : st.chsw_status ≠ NVGPU_PBDMA_CHSW_STATUS_SWITCH) :
    fifo_preempt_check_tsg_on_pbdma tsgid st = 0 := by
  simp [fifo_preempt_check_tsg_on_pbdma, nvgpu_pbdma_status_is_chsw_valid,
    nvgpu_pbdma_status_is_chsw_save, nvgpu_pbdma_status_is_chsw_load,
    nvgpu_pbdma_status_is_chsw_switch, hv, hs, hl, hw]

/-- Witness of the amended C14: phase value 5 with the target's id reported
both as id and as next id. -/
theorem fifo_preempt_check_tsg_on_pbdma_other_phase_witness :
    fifo_preempt_check_tsg_on_pbdma 7
      { pbdma_reg_status := 0, chsw_status := 5, id := 7, next_id := 7 } = 0 :=
  fifo_preempt_check_tsg_on_pbdma_other_phase 7
    { pbdma_reg_status := 0, chsw_status := 5, id := 7, next_id := 7 }
    (by decide) (by decide) (by decide) (by decide)

/-- C15, as stated, fails: in phase switch with an interrupt pending, the
engine's bit is added although the target 7 is neither the current id 3 nor
the next id 4 of the engine status. -/
theorem fifo_check_eng_intr_pending_switch_marks_unrelated :
    7 ≠ sample_config.fifo_engine_status_id_v 0x4e003 ∧
    7 ≠ sample_config.fifo_engine_status_next_id_v 0x4e003 ∧
    (fifo_check_eng_intr_pending sample_config 7 0x4e003
      (sample_config.fifo_engine_status_ctx_status_v 0x4e003) 1 1 0).2 ≠ 0 := by
  decide

/-- C15, amended: when the target id equals neither the engine's current id
nor its next id, `fifo_check_eng_intr_pending` returns the reset bitmask
unchanged in every phase other than switch, whatever the interrupt-pending
value, and in phase switch when no interrupt is pending. -/
theorem fifo_check_eng_intr_pending_unrelated_target (K : Config) (id eng_stat ctx_stat
    eng_intr_pending engine_id reset_eng_bitmask : Nat)
    (hid : id ≠ K.fifo_engine_status_id_v eng_stat)
    (hnext : id ≠ K.fifo_engine_status_next_id_v eng_stat)
    (hsw : ctx_stat ≠ K.fifo_engine_status_ctx_status_ctxsw_switch_v ∨
      eng_intr_pending = 0) :
    (fifo_check_eng_intr_pending K id eng_stat ctx_stat eng_intr_pending engine_id
      reset_eng_bitmask).2 = reset_eng_bitmask := by
  unfold fifo_check_eng_intr_pending
  rcases hsw with hsw | hsw
  · rw [if_neg hsw, if_neg hid, if_neg hnext]
    split_ifs <;> rfl
  · subst hsw
    rw [if_neg hid, if_neg hnext]
    split_ifs <;> first | rfl | simp_all

/-- Witness of the amended C15: phase valid with an interrupt pending and an
unrelated target leaves the bitmask 4 as it is. -/
theorem fifo_check_eng_intr_pending_unrelated_target_witness :
    7 ≠ sample_config.fifo_engine_status_id_v 0x42003 ∧
    7 ≠ sample_config.fifo_engine_status_next_id_v 0x42003 ∧
    (fifo_check_eng_intr_pending sample_config 7 0x42003 1 1 1 4).2 = 4 :=
  ⟨by decide, by decide,
    fifo_check_eng_intr_pending_unrelated_target sample_config 7 0x42003 1 1 1 4
      (by decide) (by decide) (Or.inl (by decide))⟩

/-! Failure of the timeout construction -/

/-- C17: when `nvgpu_timeout_init` returns `e ≠ 0`, each poller returns `e`
at once, for any fuel: the only calls it has made are the
`nvgpu_timeout_init` call itself (between its entry and return markers), so
no status sample is taken and no sleep is requested, the fifo is unchanged,
and `gv11b_fifo_preempt_poll_eng` returns the reset bitmask it was given. -/
theorem poll_timeout_init_failure (K : Config) (O : Oracle) (fuel tsgid pbdma_id id
    engine_id reset_eng_bitmask : Nat) (g : gk20a) (e : Int) (he : e ≠ 0) :
    (O.nvgpu_timeout_init (g.trace ++ [Event.poll_pbdma tsgid pbdma_id]) = e →
      gv11b_fifo_preempt_poll_pbdma K O fuel tsgid pbdma_id g =
        some (e, ⟨g.trace ++ [Event.poll_pbdma tsgid pbdma_id, Event.nvgpu_timeout_init,
          Event.poll_pbdma_ret pbdma_id e], g.fifo⟩)) ∧
    (O.nvgpu_timeout_init (g.trace ++ [Event.poll_eng id engine_id]) = e →
      gv11b_fifo_preempt_poll_eng K O fuel id engine_id reset_eng_bitmask g =
        some (e, reset_eng_bitmask,
          ⟨g.trace ++ [Event.poll_eng id engine_id, Event.nvgpu_timeout_init,
            Event.poll_eng_ret engine_id e], g.fifo⟩)) := by
  constructor
  · intro h
    simp only [gv11b_fifo_preempt_poll_pbdma, gk20a.emit, h, if_pos he, List.append_assoc,
      List.singleton_append]
    rfl
  · intro h
    simp only [gv11b_fifo_preempt_poll_eng, gk20a.emit, h, if_pos he, List.append_assoc,
      List.singleton_append]
    rfl

/-- Witness of C17: on the platform whose first `nvgpu_timeout_init` fails
with -22, the poll of PBDMA 0 and the poll of engine 1 return -22 with no
sample and no sleep, and the bitmask 5 is returned as it was. -/
theorem poll_timeout_init_failure_witness :
    (-22 : Int) ≠ 0 ∧
    init_fail_oracle.nvgpu_timeout_init ([] ++ [Event.poll_pbdma 7 0]) = -22 ∧
    (gv11b_fifo_preempt_poll_pbdma sample_config init_fail_oracle 0 7 0
        ⟨[], sample_fifo 3 2 5⟩).map (fun x => (x.1, x.2.trace)) =
      some (-22, [Event.poll_pbdma 7 0, Event.nvgpu_timeout_init,
        Event.poll_pbdma_ret 0 (-22)]) ∧
    (gv11b_fifo_preempt_poll_eng sample_config init_fail_oracle 0 7 1 5
        ⟨[], sample_fifo 3 2 5⟩).map (fun x => (x.1, x.2.1, x.2.2.trace)) =
      some (-22, 5, [Event.poll_eng 7 1, Event.nvgpu_timeout_init,
        Event.poll_eng_ret 1 (-22)]) := by
  have h := poll_timeout_init_failure sample_config init_fail_oracle 0 7 0 7 1 5
    ⟨[], sample_fifo 3 2 5⟩ (-22) (by decide)
  refine ⟨by decide, by decide, ?_, ?_⟩
  · rw [h.1 (by decide)]
    rfl
  · rw [h.2 (by decide)]
    rfl

/-! Runs of the PBDMA poll loop -/

theorem fifo_preempt_check_tsg_on_pbdma_values (tsgid : Nat)
    (st : nvgpu_pbdma_status_info) :
    fifo_preempt_check_tsg_on_pbdma tsgid st = 0 ∨
      fifo_preempt_check_tsg_on_pbdma tsgid st = -EBUSY := by
  unfold fifo_preempt_check_tsg_on_pbdma
  split_ifs <;> simp

theorem pbdma_loop_step_ceiling (K : Config) (O : Oracle) (tsgid pbdma_id fuel delay
    loop_count : Nat) (ret : Int) (g : gk20a)
    (hc : O.nvgpu_platform_is_silicon = false ∧
      K.PREEMPT_PENDING_POLL_PRE_SI_RETRIES ≤ loop_count) :
    gv11b_fifo_preempt_poll_pbdma_loop K O tsgid pbdma_id (fuel + 1) delay loop_count ret g =
      some (ret, g) := by
  simp only [gv11b_fifo_preempt_poll_pbdma_loop, if_pos hc]

theorem pbdma_loop_step_confirm (K : Config) (O : Oracle) (tsgid pbdma_id fuel delay
    loop_count : Nat) (ret : Int) (tr : List Event) (f : nvgpu_fifo)
    (hc : ¬ (O.nvgpu_platform_is_silicon = false ∧
      K.PREEMPT_PENDING_POLL_PRE_SI_RETRIES ≤ loop_count))
    (h0 : pbdma_check_at O tsgid pbdma_id tr = 0) :
    gv11b_fifo_preempt_poll_pbdma_loop K O tsgid pbdma_id (fuel + 1) delay loop_count ret
        ⟨tr, f⟩ =
      some (0, ⟨tr ++ [Event.pbdma_handle_intr pbdma_id], f⟩) := by
  unfold pbdma_check_at at h0
  simp only [gv11b_fifo_preempt_poll_pbdma_loop, if_neg hc, h0, if_true, gk20a.emit]

theorem pbdma_loop_step_expire (K : Config) (O : Oracle) (tsgid pbdma_id fuel j
    loop_count : Nat) (ret : Int) (tr : List Event) (f : nvgpu_fifo)
    (hc : ¬ (O.nvgpu_platform_is_silicon = false ∧
      K.PREEMPT_PENDING_POLL_PRE_SI_RETRIES ≤ loop_count))
    (hb : pbdma_check_at O tsgid pbdma_id tr ≠ 0)
    (he : pbdma_expired_at K O pbdma_id j tr ≠ 0) :
    gv11b_fifo_preempt_poll_pbdma_loop K O tsgid pbdma_id (fuel + 1) (poll_delay K j)
        loop_count ret ⟨tr, f⟩ =
      some (-EBUSY, ⟨tr ++ [Event.pbdma_handle_intr pbdma_id, poll_sleep K j,
        Event.nvgpu_timeout_expired], f⟩) := by
  have hv : pbdma_check_at O tsgid pbdma_id tr = -EBUSY := by
    rcases fifo_preempt_check_tsg_on_pbdma_values tsgid (O.pbdma_handle_intr tr pbdma_id)
      with h | h
    · exact absurd h hb
    · exact h
  unfold pbdma_check_at at hb hv
  unfold pbdma_expired_at poll_sleep at he
  simp only [gv11b_fifo_preempt_poll_pbdma_loop, if_neg hc, if_neg hb, gk20a.emit,
    List.append_assoc, List.singleton_append, if_neg he, hv, poll_sleep]
  rfl

theorem pbdma_loop_step_busy (K : Config) (O : Oracle) (tsgid pbdma_id fuel j
    loop_count : Nat) (ret : Int) (tr : List Event) (f : nvgpu_fifo)
    (hc : ¬ (O.nvgpu_platform_is_silicon = false ∧
      K.PREEMPT_PENDING_POLL_PRE_SI_RETRIES ≤ loop_count))
    (hb : pbdma_check_at O tsgid pbdma_id tr ≠ 0)
    (he : pbdma_expired_at K O pbdma_id j tr = 0) :
    gv11b_fifo_preempt_poll_pbdma_loop K O tsgid pbdma_id (fuel + 1) (poll_delay K j)
        loop_count ret ⟨tr, f⟩ =
      gv11b_fifo_preempt_poll_pbdma_loop K O tsgid pbdma_id fuel (poll_delay K (j + 1))
        (if O.nvgpu_platform_is_silicon = false then loop_count + 1 else loop_count)
        (-EBUSY)
        ⟨tr ++ [Event.pbdma_handle_intr pbdma_id, poll_sleep K j,
          Event.nvgpu_timeout_expired], f⟩ := by
  have hv : pbdma_check_at O tsgid pbdma_id tr = -EBUSY := by
    rcases fifo_preempt_check_tsg_on_pbdma_values tsgid (O.pbdma_handle_intr tr pbdma_id)
      with h | h
    · exact absurd h hb
    · exact h
  unfold pbdma_check_at at hb hv
  unfold pbdma_expired_at poll_sleep at he
  simp only [gv11b_fifo_preempt_poll_pbdma_loop, if_neg hc, if_neg hb, gk20a.emit,
    List.append_assoc, List.singleton_append, if_pos he, hv, poll_sleep, poll_delay]
  rfl

theorem pbdma_loop_busy_run (K : Config) (O : Oracle) (tsgid pbdma_id : Nat) :
    ∀ (n j loop_count fuel : Nat) (ret : Int) (tr : List Event) (f : nvgpu_fifo),
      (∀ i, i < n →
        pbdma_check_at O tsgid pbdma_id (tr ++ pbdma_busy_iterations K pbdma_id j i) ≠ 0) →
      (∀ i, i < n →
        pbdma_expired_at K O pbdma_id (j + i)
          (tr ++ pbdma_busy_iterations K pbdma_id j i) = 0) →
      (O.nvgpu_platform_is_silicon = false →
        loop_count + n ≤ K.PREEMPT_PENDING_POLL_PRE_SI_RETRIES) →
      gv11b_fifo_preempt_poll_pbdma_loop K O tsgid pbdma_id (fuel + n) (poll_delay K j)
          loop_count ret ⟨tr, f⟩ =
        gv11b_fifo_preempt_poll_pbdma_loop K O tsgid pbdma_id fuel (poll_delay K (j + n))
          (if O.nvgpu_platform_is_silicon = false then loop_count + n else loop_count)
          (if n = 0 then ret else -EBUSY)
          ⟨tr ++ pbdma_busy_iterations K pbdma_id j n, f⟩ := by
  intro n
  induction n with
  | zero =>
    intro j lc fuel ret tr f _ _ _
    simp [pbdma_busy_iterations]
  | succ n ih =>
    intro j lc fuel ret tr f hb he hc
    have hnc : ¬ (O.nvgpu_platform_is_silicon = false ∧
        K.PREEMPT_PENDING_POLL_PRE_SI_RETRIES ≤ lc) := by
      rintro ⟨hs, hle⟩
      have := hc hs
      omega
    have hb0 : pbdma_check_at O tsgid pbdma_id tr ≠ 0 := by
      have := hb 0 (Nat.succ_pos n)
      simpa [pbdma_busy_iterations] using this
    have he0 : pbdma_expired_at K O pbdma_id j tr = 0 := by
      have := he 0 (Nat.succ_pos n)
      simpa [pbdma_busy_iterations] using this
    have hstep := pbdma_loop_step_busy K O tsgid pbdma_id (fuel + n) j lc ret tr f hnc hb0 he0
    rw [show fuel + (n + 1) = fuel + n + 1 by omega, hstep]
    have hih := ih (j + 1)
      (if O.nvgpu_platform_is_silicon = false then lc + 1 else lc) fuel (-EBUSY)
      (tr ++ [Event.pbdma_handle_intr pbdma_id, poll_sleep K j,
        Event.nvgpu_timeout_expired]) f
      (by
        intro i hi
        have := hb (i + 1) (by omega)
        simpa [pbdma_busy_iterations, List.append_assoc] using this)
      (by
        intro i hi
        have := he (i + 1) (by omega)
        rw [show j + (i + 1) = j + 1 + i by omega] at this
        simpa [pbdma_busy_iterations, List.append_assoc] using this)
      (by
        intro hs
        have := hc hs
        simp only [hs, if_true]
        omega)
    rw [hih]
    have e1 : j + 1 + n = j + (n + 1) := by omega
    have e2 : (if O.nvgpu_platform_is_silicon = false then
        (if O.nvgpu_platform_is_silicon = false then lc + 1 else lc) + n
        else (if O.nvgpu_platform_is_silicon = false then lc + 1 else lc)) =
        (if O.nvgpu_platform_is_silicon = false then lc + (n + 1) else lc) := by
      rcases Bool.eq_false_or_eq_true O.nvgpu_platform_is_silicon with hs | hs
      · simp [hs]
      · simp only [hs, if_true]; omega
    have e3 : (if n = 0 then (-EBUSY : Int) else -EBUSY) =
        (if n + 1 = 0 then ret else -EBUSY) := by
      simp
    rw [e1, e2, e3]
    simp [pbdma_busy_iterations, List.append_assoc]

theorem pbdma_loop_shape (K : Config) (O : Oracle) (tsgid pbdma_id : Nat) :
    ∀ (fuel j loop_count : Nat) (ret : Int) (g : gk20a) (r : Int) (g' : gk20a),
      gv11b_fifo_preempt_poll_pbdma_loop K O tsgid pbdma_id fuel (poll_delay K j)
          loop_count ret g = some (r, g') →
      ∃ n,
        (g'.trace = g.trace ++ pbdma_busy_iterations K pbdma_id j n ∧
          (r = ret ∨ r = -EBUSY) ∧
          (O.nvgpu_platform_is_silicon = false →
            loop_count ≤ K.PREEMPT_PENDING_POLL_PRE_SI_RETRIES →
            loop_count + n ≤ K.PREEMPT_PENDING_POLL_PRE_SI_RETRIES)) ∨
        (g'.trace = g.trace ++ pbdma_busy_iterations K pbdma_id j n ++
            [Event.pbdma_handle_intr pbdma_id] ∧ r = 0 ∧
          (O.nvgpu_platform_is_silicon = false →
            loop_count + n + 1 ≤ K.PREEMPT_PENDING_POLL_PRE_SI_RETRIES)) := by
  intro fuel
  induction fuel with
  | zero =>
    intro j lc ret g r g' h
    simp [gv11b_fifo_preempt_poll_pbdma_loop] at h
  | succ fuel ih =>
    intro j lc ret g r g' h
    obtain ⟨tr, f⟩ := g
    by_cases hc : O.nvgpu_platform_is_silicon = false ∧
        K.PREEMPT_PENDING_POLL_PRE_SI_RETRIES ≤ lc
    · rw [pbdma_loop_step_ceiling K O tsgid pbdma_id fuel _ lc ret _ hc] at h
      cases h
      exact ⟨0, Or.inl ⟨by simp [pbdma_busy_iterations], Or.inl rfl, fun _ hle => hle⟩⟩
    · have hlt : O.nvgpu_platform_is_silicon = false →
          lc + 1 ≤ K.PREEMPT_PENDING_POLL_PRE_SI_RETRIES := by
        intro hs
        by_contra hcon
        exact hc ⟨hs, by omega⟩
      by_cases hb : pbdma_check_at O tsgid pbdma_id tr = 0
      · rw [pbdma_loop_step_confirm K O tsgid pbdma_id fuel _ lc ret tr f hc hb] at h
        cases h
        exact ⟨0, Or.inr ⟨by simp [pbdma_busy_iterations], rfl, hlt⟩⟩
      · by_cases he : pbdma_expired_at K O pbdma_id j tr = 0
        · rw [pbdma_loop_step_busy K O tsgid pbdma_id fuel j lc ret tr f hc hb he] at h
          obtain ⟨n, hn⟩ := ih _ _ _ _ _ _ h
          refine ⟨n + 1, ?_⟩
          rcases hn with ⟨ht, hr, hbound⟩ | ⟨ht, hr, hbound⟩
          · refine Or.inl ⟨?_, ?_, ?_⟩
            · rw [ht]; simp [pbdma_busy_iterations, List.append_assoc]
            · rcases hr with hr | hr <;> exact Or.inr hr
            · intro hs hle
              have := hbound hs (by simp only [hs, if_true]; exact hlt hs)
              simp only [hs, if_true] at this
              omega
          · refine Or.inr ⟨?_, hr, ?_⟩
            · rw [ht]; simp [pbdma_busy_iterations, List.append_assoc]
            · intro hs
              have := hbound hs
              simp only [hs, if_true] at this
              omega
        · rw [pbdma_loop_step_expire K O tsgid pbdma_id fuel j lc ret tr f hc hb he] at h
          cases h
          exact ⟨1, Or.inl ⟨by simp [pbdma_busy_iterations], Or.inr rfl,
            fun hs _ => hlt hs⟩⟩

/-! Runs of the engine poll loop -/

theorem fifo_check_eng_intr_pending_values (K : Config) (id eng_stat ctx_stat
    eng_intr_pending engine_id acc : Nat) :
    (fifo_check_eng_intr_pending K id eng_stat ctx_stat eng_intr_pending engine_id acc).1
        = 0 ∨
      (fifo_check_eng_intr_pending K id eng_stat ctx_stat eng_intr_pending engine_id acc).1
        = -EBUSY := by
  unfold fifo_check_eng_intr_pending
  split_ifs <;> simp

theorem eng_check_at_busy (K : Config) (O : Oracle) (id engine_id acc : Nat)
    (tr : List Event) (hb : (eng_check_at K O id engine_id acc tr).1 ≠ 0) :
    eng_check_at K O id engine_id acc tr = (-EBUSY, acc) := by
  unfold eng_check_at at hb ⊢
  have h1 := fifo_check_eng_intr_pending_values K id
    (O.nvgpu_readl tr (K.fifo_engine_status_r engine_id))
    (K.fifo_engine_status_ctx_status_v
      (O.nvgpu_readl tr (K.fifo_engine_status_r engine_id)))
    (O.is_stall_and_eng_intr_pending
      (tr ++ [Event.nvgpu_readl (K.fifo_engine_status_r engine_id)]) engine_id).2
    engine_id acc
  have h2 := fifo_check_eng_intr_pending_acc K id
    (O.nvgpu_readl tr (K.fifo_engine_status_r engine_id))
    (K.fifo_engine_status_ctx_status_v
      (O.nvgpu_readl tr (K.fifo_engine_status_r engine_id)))
    (O.is_stall_and_eng_intr_pending
      (tr ++ [Event.nvgpu_readl (K.fifo_engine_status_r engine_id)]) engine_id).2
    engine_id acc
  have e1 := h1.resolve_left hb
  have e2 : _ := h2.resolve_right (fun h => hb h.1)
  exact Prod.ext e1 e2

theorem eng_loop_step_ceiling (K : Config) (O : Oracle) (id engine_id fuel delay
    loop_count : Nat) (ret : Int) (acc : Nat) (g : gk20a)
    (hc : O.nvgpu_platform_is_silicon = false ∧
      K.PREEMPT_PENDING_POLL_PRE_SI_RETRIES ≤ loop_count) :
    gv11b_fifo_preempt_poll_eng_loop K O id engine_id (fuel + 1) delay loop_count ret acc g =
      some (ret, acc, g) := by
  simp only [gv11b_fifo_preempt_poll_eng_loop, if_pos hc]

theorem eng_loop_step_confirm (K : Config) (O : Oracle) (id engine_id fuel delay
    loop_count : Nat) (ret : Int) (acc : Nat) (tr : List Event) (f : nvgpu_fifo)
    (hc : ¬ (O.nvgpu_platform_is_silicon = false ∧
      K.PREEMPT_PENDING_POLL_PRE_SI_RETRIES ≤ loop_count))
    (h0 : (eng_check_at K O id engine_id acc tr).1 = 0) :
    gv11b_fifo_preempt_poll_eng_loop K O id engine_id (fuel + 1) delay loop_count ret acc
        ⟨tr, f⟩ =
      some (0, (eng_check_at K O id engine_id acc tr).2,
        ⟨tr ++ [Event.nvgpu_readl (K.fifo_engine_status_r engine_id),
          Event.is_stall_and_eng_intr_pending engine_id], f⟩) := by
  unfold eng_check_at at h0 ⊢
  simp only [gv11b_fifo_preempt_poll_eng_loop, if_neg hc, gk20a.emit, h0, if_true,
    List.append_assoc, List.singleton_append]

theorem eng_loop_step_expire (K : Config) (O : Oracle) (id engine_id fuel j
    loop_count : Nat) (ret : Int) (acc : Nat) (tr : List Event) (f : nvgpu_fifo)
    (hc : ¬ (O.nvgpu_platform_is_silicon = false ∧
      K.PREEMPT_PENDING_POLL_PRE_SI_RETRIES ≤ loop_count))
    (hb : (eng_check_at K O id engine_id acc tr).1 ≠ 0)
    (he : eng_expired_at K O engine_id j tr ≠ 0) :
    gv11b_fifo_preempt_poll_eng_loop K O id engine_id (fuel + 1) (poll_delay K j)
        loop_count ret acc ⟨tr, f⟩ =
      some (-EBUSY, acc,
        ⟨tr ++ [Event.nvgpu_readl (K.fifo_engine_status_r engine_id),
          Event.is_stall_and_eng_intr_pending engine_id, poll_sleep K j,
          Event.nvgpu_timeout_expired], f⟩) := by
  have hv := eng_check_at_busy K O id engine_id acc tr hb
  have hv1 : (eng_check_at K O id engine_id acc tr).1 = -EBUSY := by rw [hv]
  have hv2 : (eng_check_at K O id engine_id acc tr).2 = acc := by rw [hv]
  unfold eng_check_at at hb hv1 hv2
  unfold eng_expired_at poll_sleep at he
  have hne : ¬ ((-EBUSY : Int) = 0) := by decide
  simp only [gv11b_fifo_preempt_poll_eng_loop, if_neg hc, gk20a.emit,
    List.append_assoc, List.singleton_append, List.cons_append, List.nil_append, hv1, hv2,
    poll_sleep, if_neg hne, if_neg he]

theorem eng_loop_step_busy (K : Config) (O : Oracle) (id engine_id fuel j
    loop_count : Nat) (ret : Int) (acc : Nat) (tr : List Event) (f : nvgpu_fifo)
    (hc : ¬ (O.nvgpu_platform_is_silicon = false ∧
      K.PREEMPT_PENDING_POLL_PRE_SI_RETRIES ≤ loop_count))
    (hb : (eng_check_at K O id engine_id acc tr).1 ≠ 0)
    (he : eng_expired_at K O engine_id j tr = 0) :
    gv11b_fifo_preempt_poll_eng_loop K O id engine_id (fuel + 1) (poll_delay K j)
        loop_count ret acc ⟨tr, f⟩ =
      gv11b_fifo_preempt_poll_eng_loop K O id engine_id fuel (poll_delay K (j + 1))
        (if O.nvgpu_platform_is_silicon = false then loop_count + 1 else loop_count)
        (-EBUSY) acc
        ⟨tr ++ [Event.nvgpu_readl (K.fifo_engine_status_r engine_id),
          Event.is_stall_and_eng_intr_pending engine_id, poll_sleep K j,
          Event.nvgpu_timeout_expired], f⟩ := by
  have hv := eng_check_at_busy K O id engine_id acc tr hb
  have hv1 : (eng_check_at K O id engine_id acc tr).1 = -EBUSY := by rw [hv]
  have hv2 : (eng_check_at K O id engine_id acc tr).2 = acc := by rw [hv]
  unfold eng_check_at at hb hv1 hv2
  unfold eng_expired_at poll_sleep at he
  have hne : ¬ ((-EBUSY : Int) = 0) := by decide
  simp only [gv11b_fifo_preempt_poll_eng_loop, if_neg hc, gk20a.emit,
    List.append_assoc, List.singleton_append, List.cons_append, List.nil_append, hv1, hv2,
    poll_sleep, poll_delay, if_neg hne, if_pos he]

theorem eng_loop_busy_run (K : Config) (O : Oracle) (id engine_id acc : Nat) :
    ∀ (n j loop_count fuel : Nat) (ret : Int) (tr : List Event) (f : nvgpu_fifo),
      (∀ i, i < n →
        (eng_check_at K O id engine_id acc
          (tr ++ eng_busy_iterations K engine_id j i)).1 ≠ 0) →
      (∀ i, i < n →
        eng_expired_at K O engine_id (j + i)
          (tr ++ eng_busy_iterations K engine_id j i) = 0) →
      (O.nvgpu_platform_is_silicon = false →
        loop_count + n ≤ K.PREEMPT_PENDING_POLL_PRE_SI_RETRIES) →
      gv11b_fifo_preempt_poll_eng_loop K O id engine_id (fuel + n) (poll_delay K j)
          loop_count ret acc ⟨tr, f⟩ =
        gv11b_fifo_preempt_poll_eng_loop K O id engine_id fuel (poll_delay K (j + n))
          (if O.nvgpu_platform_is_silicon = false then loop_count + n else loop_count)
          (if n = 0 then ret else -EBUSY) acc
          ⟨tr ++ eng_busy_iterations K engine_id j n, f⟩ := by
  intro n
  induction n with
  | zero =>
    intro j lc fuel ret tr f _ _ _
    simp [eng_busy_iterations]
  | succ n ih =>
    intro j lc fuel ret tr f hb he hc
    have hnc : ¬ (O.nvgpu_platform_is_silicon = false ∧
        K.PREEMPT_PENDING_POLL_PRE_SI_RETRIES ≤ lc) := by
      rintro ⟨hs, hle⟩
      have := hc hs
      omega
    have hb0 : (eng_check_at K O id engine_id acc tr).1 ≠ 0 := by
      have := hb 0 (Nat.succ_pos n)
      simpa [eng_busy_iterations] using this
    have he0 : eng_expired_at K O engine_id j tr = 0 := by
      have := he 0 (Nat.succ_pos n)
      simpa [eng_busy_iterations] using this
    have hstep := eng_loop_step_busy K O id engine_id (fuel + n) j lc ret acc tr f hnc hb0 he0
    rw [show fuel + (n + 1) = fuel + n + 1 by omega, hstep]
    have hih := ih (j + 1)
      (if O.nvgpu_platform_is_silicon = false then lc + 1 else lc) fuel (-EBUSY)
      (tr ++ [Event.nvgpu_readl (K.fifo_engine_status_r engine_id),
        Event.is_stall_and_eng_intr_pending engine_id, poll_sleep K j,
        Event.nvgpu_timeout_expired]) f
      (by
        intro i hi
        have := hb (i + 1) (by omega)
        simpa [eng_busy_iterations, List.append_assoc] using this)
      (by
        intro i hi
        have := he (i + 1) (by omega)
        rw [show j + (i + 1) = j + 1 + i by omega] at this
        simpa [eng_busy_iterations, List.append_assoc] using this)
      (by
        intro hs
        have := hc hs
        simp only [hs, if_true]
        omega)
    rw [hih]
    have e1 : j + 1 + n = j + (n + 1) := by omega
    have e2 : (if O.nvgpu_platform_is_silicon = false then
        (if O.nvgpu_platform_is_silicon = false then lc + 1 else lc) + n
        else (if O.nvgpu_platform_is_silicon = false then lc + 1 else lc)) =
        (if O.nvgpu_platform_is_silicon = false then lc + (n + 1) else lc) := by
      rcases Bool.eq_false_or_eq_true O.nvgpu_platform_is_silicon with hs | hs
      · simp [hs]
      · simp only [hs, if_true]; omega
    have e3 : (if n = 0 then (-EBUSY : Int) else -EBUSY) =
        (if n + 1 = 0 then ret else -EBUSY) := by
      simp
    rw [e1, e2, e3]
    simp [eng_busy_iterations, List.append_assoc]

theorem eng_loop_shape (K : Config) (O : Oracle) (id engine_id : Nat) :
    ∀ (fuel j loop_count : Nat) (ret : Int) (acc : Nat) (g : gk20a) (r : Int) (acc' : Nat)
      (g' : gk20a),
      gv11b_fifo_preempt_poll_eng_loop K O id engine_id fuel (poll_delay K j)
          loop_count ret acc g = some (r, acc', g') →
      ∃ n,
        (g'.trace = g.trace ++ eng_busy_iterations K engine_id j n ∧
          (r = ret ∨ r = -EBUSY) ∧ acc' = acc ∧
          (O.nvgpu_platform_is_silicon = false →
            loop_count ≤ K.PREEMPT_PENDING_POLL_PRE_SI_RETRIES →
            loop_count + n ≤ K.PREEMPT_PENDING_POLL_PRE_SI_RETRIES)) ∨
        (g'.trace = g.trace ++ eng_busy_iterations K engine_id j n ++
            [Event.nvgpu_readl (K.fifo_engine_status_r engine_id),
              Event.is_stall_and_eng_intr_pending engine_id] ∧ r = 0 ∧
          (acc' = acc ∨ acc' = acc ||| BIT32 engine_id) ∧
          (O.nvgpu_platform_is_silicon = false →
            loop_count + n + 1 ≤ K.PREEMPT_PENDING_POLL_PRE_SI_RETRIES)) := by
  intro fuel
  induction fuel with
  | zero =>
    intro j lc ret acc g r acc' g' h
    simp [gv11b_fifo_preempt_poll_eng_loop] at h
  | succ fuel ih =>
    intro j lc ret acc g r acc' g' h
    obtain ⟨tr, f⟩ := g
    by_cases hc : O.nvgpu_platform_is_silicon = false ∧
        K.PREEMPT_PENDING_POLL_PRE_SI_RETRIES ≤ lc
    · rw [eng_loop_step_ceiling K O id engine_id fuel _ lc ret acc _ hc] at h
      cases h
      exact ⟨0, Or.inl ⟨by simp [eng_busy_iterations], Or.inl rfl, rfl, fun _ hle => hle⟩⟩
    · have hlt : O.nvgpu_platform_is_silicon = false →
          lc + 1 ≤ K.PREEMPT_PENDING_POLL_PRE_SI_RETRIES := by
        intro hs
        by_contra hcon
        exact hc ⟨hs, by omega⟩
      by_cases hb : (eng_check_at K O id engine_id acc tr).1 = 0
      · rw [eng_loop_step_confirm K O id engine_id fuel _ lc ret acc tr f hc hb] at h
        cases h
        refine ⟨0, Or.inr ⟨by simp [eng_busy_iterations], rfl, ?_, hlt⟩⟩
        unfold eng_check_at
        rcases fifo_check_eng_intr_pending_acc K id
          (O.nvgpu_readl tr (K.fifo_engine_status_r engine_id))
          (K.fifo_engine_status_ctx_status_v
            (O.nvgpu_readl tr (K.fifo_engine_status_r engine_id)))
          (O.is_stall_and_eng_intr_pending
            (tr ++ [Event.nvgpu_readl (K.fifo_engine_status_r engine_id)]) engine_id).2
          engine_id acc with h1 | ⟨-, -, h1⟩
        · exact Or.inl h1
        · exact Or.inr h1
      · by_cases he : eng_expired_at K O engine_id j tr = 0
        · rw [eng_loop_step_busy K O id engine_id fuel j lc ret acc tr f hc hb he] at h
          obtain ⟨n, hn⟩ := ih _ _ _ _ _ _ _ _ h
          refine ⟨n + 1, ?_⟩
          rcases hn with ⟨ht, hr, ha, hbound⟩ | ⟨ht, hr, ha, hbound⟩
          · refine Or.inl ⟨?_, ?_, ha, ?_⟩
            · rw [ht]; simp [eng_busy_iterations, List.append_assoc]
            · rcases hr with hr | hr <;> exact Or.inr hr
            · intro hs hle
              have := hbound hs (by simp only [hs, if_true]; exact hlt hs)
              simp only [hs, if_true] at this
              omega
          · refine Or.inr ⟨?_, hr, ha, ?_⟩
            · rw [ht]; simp [eng_busy_iterations, List.append_assoc]
            · intro hs
              have := hbound hs
              simp only [hs, if_true] at this
              omega
        · rw [eng_loop_step_expire K O id engine_id fuel j lc ret acc tr f hc hb he] at h
          cases h
          exact ⟨1, Or.inl ⟨by simp [eng_busy_iterations], Or.inr rfl, rfl,
            fun hs _ => hlt hs⟩⟩

/-! Backoff -/

theorem poll_delay_closed (K : Config)
    (hle : K.POLL_DELAY_MIN_US ≤ K.POLL_DELAY_MAX_US)
    (hfit : 2 * K.POLL_DELAY_MAX_US < 2 ^ 32) :
    ∀ k, poll_delay K k = min (K.POLL_DELAY_MIN_US * 2 ^ k) K.POLL_DELAY_MAX_US := by
  intro k
  induction k with
  | zero => simp [poll_delay, Nat.min_eq_left hle]
  | succ k ih =>
    have key : ∀ x, min ((min x K.POLL_DELAY_MAX_US <<< 1) % 2 ^ 32) K.POLL_DELAY_MAX_US =
        min (2 * x) K.POLL_DELAY_MAX_US := by
      intro x
      rw [Nat.shiftLeft_eq, pow_one]
      have h1 : min x K.POLL_DELAY_MAX_US * 2 < 2 ^ 32 := by
        have := Nat.min_le_right x K.POLL_DELAY_MAX_US
        omega
      rw [Nat.mod_eq_of_lt h1]
      omega
    have hstep : poll_delay K (k + 1) =
        min ((poll_delay K k <<< 1) % 2 ^ 32) K.POLL_DELAY_MAX_US := rfl
    rw [hstep, ih, key]
    have e : 2 * (K.POLL_DELAY_MIN_US * 2 ^ k) = K.POLL_DELAY_MIN_US * 2 ^ (k + 1) := by
      rw [pow_succ]
      ring
    rw [e]

theorem poll_sleep_closed (K : Config)
    (hle : K.POLL_DELAY_MIN_US ≤ K.POLL_DELAY_MAX_US)
    (hfit : 2 * K.POLL_DELAY_MAX_US < 2 ^ 32) (k : Nat) :
    poll_sleep K k =
      Event.nvgpu_usleep_range (min (K.POLL_DELAY_MIN_US * 2 ^ k) K.POLL_DELAY_MAX_US)
        (2 * min (K.POLL_DELAY_MIN_US * 2 ^ k) K.POLL_DELAY_MAX_US) := by
  unfold poll_sleep
  rw [poll_delay_closed K hle hfit k]
  have h1 : min (K.POLL_DELAY_MIN_US * 2 ^ k) K.POLL_DELAY_MAX_US * 2 < 2 ^ 32 := by
    have := Nat.min_le_right (K.POLL_DELAY_MIN_US * 2 ^ k) K.POLL_DELAY_MAX_US
    omega
  rw [Nat.mod_eq_of_lt h1]
  congr 1
  exact Nat.mul_comm _ _

theorem pbdma_busy_iterations_sleeps (K : Config) (pbdma_id : Nat) :
    ∀ (n j : Nat), (pbdma_busy_iterations K pbdma_id j n).filter Event.is_sleep =
      (List.range' j n).map (poll_sleep K) := by
  intro n
  induction n with
  | zero => intro j; rfl
  | succ n ih =>
    intro j
    rw [List.range'_succ, List.map_cons, ← ih (j + 1)]
    simp [pbdma_busy_iterations, List.filter_cons, Event.is_sleep, poll_sleep]

theorem eng_busy_iterations_sleeps (K : Config) (engine_id : Nat) :
    ∀ (n j : Nat), (eng_busy_iterations K engine_id j n).filter Event.is_sleep =
      (List.range' j n).map (poll_sleep K) := by
  intro n
  induction n with
  | zero => intro j; rfl
  | succ n ih =>
    intro j
    rw [List.range'_succ, List.map_cons, ← ih (j + 1)]
    simp [eng_busy_iterations, List.filter_cons, Event.is_sleep, poll_sleep]

theorem poll_pbdma_sleeps (K : Config) (O : Oracle) (fuel tsgid pbdma_id : Nat) (g : gk20a)
    (r : Int) (g' : gk20a)
    (h : gv11b_fifo_preempt_poll_pbdma K O fuel tsgid pbdma_id g = some (r, g')) :
    ∃ evs n, g'.trace = g.trace ++ evs ∧
      evs.filter Event.is_sleep = (List.range n).map (poll_sleep K) := by
  simp only [gv11b_fifo_preempt_poll_pbdma] at h
  by_cases h1 : O.nvgpu_timeout_init (g.emit (Event.poll_pbdma tsgid pbdma_id)).trace ≠ 0
  · rw [if_pos h1] at h
    cases h
    exact ⟨[Event.poll_pbdma tsgid pbdma_id, Event.nvgpu_timeout_init,
      Event.poll_pbdma_ret pbdma_id
        (O.nvgpu_timeout_init (g.emit (Event.poll_pbdma tsgid pbdma_id)).trace)], 0,
      by simp [gk20a.emit], rfl⟩
  · rw [if_neg h1] at h
    cases hl : gv11b_fifo_preempt_poll_pbdma_loop K O tsgid pbdma_id fuel
        K.POLL_DELAY_MIN_US 0 (-EBUSY)
        ((g.emit (Event.poll_pbdma tsgid pbdma_id)).emit Event.nvgpu_timeout_init) with
    | none => rw [hl] at h; cases h
    | some x =>
      obtain ⟨r1, g1⟩ := x
      rw [hl] at h
      cases h
      have hl0 : gv11b_fifo_preempt_poll_pbdma_loop K O tsgid pbdma_id fuel
          (poll_delay K 0) 0 (-EBUSY)
          ((g.emit (Event.poll_pbdma tsgid pbdma_id)).emit Event.nvgpu_timeout_init) =
          some (r, g1) := hl
      obtain ⟨n, hn⟩ := pbdma_loop_shape K O tsgid pbdma_id _ _ _ _ _ _ _ hl0
      have hs := pbdma_busy_iterations_sleeps K pbdma_id n 0
      rw [← List.range_eq_range'] at hs
      rcases hn with ⟨ht, -, -⟩ | ⟨ht, -, -⟩
      · refine ⟨[Event.poll_pbdma tsgid pbdma_id, Event.nvgpu_timeout_init] ++
          pbdma_busy_iterations K pbdma_id 0 n ++ [Event.poll_pbdma_ret pbdma_id r], n,
          by simp [gk20a.emit, ht], ?_⟩
        simp [List.filter_append, List.filter_cons, Event.is_sleep, hs]
      · refine ⟨[Event.poll_pbdma tsgid pbdma_id, Event.nvgpu_timeout_init] ++
          pbdma_busy_iterations K pbdma_id 0 n ++ [Event.pbdma_handle_intr pbdma_id] ++
          [Event.poll_pbdma_ret pbdma_id r], n, by simp [gk20a.emit, ht], ?_⟩
        simp [List.filter_append, List.filter_cons, Event.is_sleep, hs]

theorem poll_eng_sleeps (K : Config) (O : Oracle) (fuel id engine_id acc : Nat) (g : gk20a)
    (r : Int) (acc' : Nat) (g' : gk20a)
    (h : gv11b_fifo_preempt_poll_eng K O fuel id engine_id acc g = some (r, acc', g')) :
    ∃ evs n, g'.trace = g.trace ++ evs ∧
      evs.filter Event.is_sleep = (List.range n).map (poll_sleep K) := by
  simp only [gv11b_fifo_preempt_poll_eng] at h
  by_cases h1 : O.nvgpu_timeout_init (g.emit (Event.poll_eng id engine_id)).trace ≠ 0
  · rw [if_pos h1] at h
    cases h
    exact ⟨[Event.poll_eng id engine_id, Event.nvgpu_timeout_init,
      Event.poll_eng_ret engine_id
        (O.nvgpu_timeout_init (g.emit (Event.poll_eng id engine_id)).trace)], 0,
      by simp [gk20a.emit], rfl⟩
  · rw [if_neg h1] at h
    cases hl : gv11b_fifo_preempt_poll_eng_loop K O id engine_id fuel
        K.POLL_DELAY_MIN_US 0 (-EBUSY) acc
        ((g.emit (Event.poll_eng id engine_id)).emit Event.nvgpu_timeout_init) with
    | none => rw [hl] at h; cases h
    | some x =>
      obtain ⟨r1, acc1, g1⟩ := x
      rw [hl] at h
      have hl0 : gv11b_fifo_preempt_poll_eng_loop K O id engine_id fuel
          (poll_delay K 0) 0 (-EBUSY) acc
          ((g.emit (Event.poll_eng id engine_id)).emit Event.nvgpu_timeout_init) =
          some (r1, acc1, g1) := hl
      obtain ⟨n, hn⟩ := eng_loop_shape K O id engine_id _ _ _ _ _ _ _ _ _ hl0
      have hs := eng_busy_iterations_sleeps K engine_id n 0
      rw [← List.range_eq_range'] at hs
      have hg' : g'.trace = g1.trace ++ [Event.poll_eng_ret engine_id r1] := by
        by_cases h2 : r1 ≠ 0
        · simp only [if_pos h2] at h
          cases h
          rfl
        · simp only [if_neg h2] at h
          cases h
          rfl
      rcases hn with ⟨ht, -, -, -⟩ | ⟨ht, -, -, -⟩
      · refine ⟨[Event.poll_eng id engine_id, Event.nvgpu_timeout_init] ++
          eng_busy_iterations K engine_id 0 n ++ [Event.poll_eng_ret engine_id r1], n,
          by rw [hg', ht]; simp [gk20a.emit], ?_⟩
        simp [List.filter_append, List.filter_cons, Event.is_sleep, hs]
      · refine ⟨[Event.poll_eng id engine_id, Event.nvgpu_timeout_init] ++
          eng_busy_iterations K engine_id 0 n ++
          [Event.nvgpu_readl (K.fifo_engine_status_r engine_id),
            Event.is_stall_and_eng_intr_pending engine_id] ++
          [Event.poll_eng_ret engine_id r1], n, by rw [hg', ht]; simp [gk20a.emit], ?_⟩
        simp [List.filter_append, List.filter_cons, Event.is_sleep, hs]

/-- C11: with `D = POLL_DELAY_MIN_US ≤ C = POLL_DELAY_MAX_US` and `2 * C`
representable in a `u32`, the sleeps requested by one run of
`gv11b_fifo_preempt_poll_pbdma`, and of `gv11b_fifo_preempt_poll_eng`, are, in
order, `nvgpu_usleep_range(d k, 2 * d k)` for `k = 0, 1, ..., n - 1` with
`d k = min (D * 2 ^ k) C`, where `n` is the number of sleeps of the run; `d k`
is the value of the local `delay` in iteration `k`, it never exceeds `C` and
never decreases.  Off silicon every poll with more fuel than the retry
ceiling returns. -/
theorem poll_backoff_sequence (K : Config) (O : Oracle) (fuel : Nat)
    (hle : K.POLL_DELAY_MIN_US ≤ K.POLL_DELAY_MAX_US)
    (hfit : 2 * K.POLL_DELAY_MAX_US < 2 ^ 32) :
    (∀ tsgid pbdma_id g r g',
      gv11b_fifo_preempt_poll_pbdma K O fuel tsgid pbdma_id g = some (r, g') →
      ∃ evs n, g'.trace = g.trace ++ evs ∧
        evs.filter Event.is_sleep = (List.range n).map (fun k =>
          Event.nvgpu_usleep_range
            (min (K.POLL_DELAY_MIN_US * 2 ^ k) K.POLL_DELAY_MAX_US)
            (2 * min (K.POLL_DELAY_MIN_US * 2 ^ k) K.POLL_DELAY_MAX_US))) ∧
    (∀ id engine_id acc g r acc' g',
      gv11b_fifo_preempt_poll_eng K O fuel id engine_id acc g = some (r, acc', g') →
      ∃ evs n, g'.trace = g.trace ++ evs ∧
        evs.filter Event.is_sleep = (List.range n).map (fun k =>
          Event.nvgpu_usleep_range
            (min (K.POLL_DELAY_MIN_US * 2 ^ k) K.POLL_DELAY_MAX_US)
            (2 * min (K.POLL_DELAY_MIN_US * 2 ^ k) K.POLL_DELAY_MAX_US))) ∧
    (∀ k, poll_delay K k = min (K.POLL_DELAY_MIN_US * 2 ^ k) K.POLL_DELAY_MAX_US ∧
      poll_delay K k ≤ K.POLL_DELAY_MAX_US ∧ poll_delay K k ≤ poll_delay K (k + 1)) ∧
    (O.nvgpu_platform_is_silicon = false →
      K.PREEMPT_PENDING_POLL_PRE_SI_RETRIES < fuel →
      (∀ tsgid pbdma_id g,
        (gv11b_fifo_preempt_poll_pbdma K O fuel tsgid pbdma_id g).isSome = true) ∧
      (∀ id engine_id acc g,
        (gv11b_fifo_preempt_poll_eng K O fuel id engine_id acc g).isSome = true)) := by
  have hfun : poll_sleep K = (fun k =>
      Event.nvgpu_usleep_range
        (min (K.POLL_DELAY_MIN_US * 2 ^ k) K.POLL_DELAY_MAX_US)
        (2 * min (K.POLL_DELAY_MIN_US * 2 ^ k) K.POLL_DELAY_MAX_US)) :=
    funext (poll_sleep_closed K hle hfit)
  refine ⟨?_, ?_, ?_, ?_⟩
  · intro tsgid pbdma_id g r g' h
    obtain ⟨evs, n, ht, hs⟩ := poll_pbdma_sleeps K O fuel tsgid pbdma_id g r g' h
    exact ⟨evs, n, ht, by rw [hs, hfun]⟩
  · intro id engine_id acc g r acc' g' h
    obtain ⟨evs, n, ht, hs⟩ := poll_eng_sleeps K O fuel id engine_id acc g r acc' g' h
    exact ⟨evs, n, ht, by rw [hs, hfun]⟩
  · intro k
    have h0 := poll_delay_closed K hle hfit k
    have h1 := poll_delay_closed K hle hfit (k + 1)
    refine ⟨h0, ?_, ?_⟩
    · rw [h0]
      exact Nat.min_le_right _ _
    · rw [h0, h1, pow_succ, ← Nat.mul_assoc]
      omega
  · intro hs hfuel
    exact ⟨fun tsgid pbdma_id g => poll_pbdma_returns K O fuel tsgid pbdma_id g hs hfuel,
      fun id engine_id acc g => poll_eng_returns K O fuel id engine_id acc g hs hfuel⟩

/-- Witness of C11: delays of 20 us to 2 ms; engine 1 stays busy on silicon
until the ninth timeout check: the nine sleeps double from 20 up to 1280 and
then stay at the cap 2000. -/
theorem poll_backoff_sequence_witness :
    sample_config.POLL_DELAY_MIN_US ≤ sample_config.POLL_DELAY_MAX_US ∧
    2 * sample_config.POLL_DELAY_MAX_US < 2 ^ 32 ∧
    ∃ r acc' g', gv11b_fifo_preempt_poll_eng sample_config
        (scenario_oracle true true true 9) 10 7 1 0 ⟨[], sample_fifo 8 2 5⟩ =
          some (r, acc', g') ∧
      g'.trace.filter Event.is_sleep =
        [Event.nvgpu_usleep_range 20 40, Event.nvgpu_usleep_range 40 80,
          Event.nvgpu_usleep_range 80 160, Event.nvgpu_usleep_range 160 320,
          Event.nvgpu_usleep_range 320 640, Event.nvgpu_usleep_range 640 1280,
          Event.nvgpu_usleep_range 1280 2560, Event.nvgpu_usleep_range 2000 4000,
          Event.nvgpu_usleep_range 2000 4000] := by
  have hev : (gv11b_fifo_preempt_poll_eng sample_config
        (scenario_oracle true true true 9) 10 7 1 0 ⟨[], sample_fifo 8 2 5⟩).map
      (fun x => (x.2.2.trace.filter Event.is_sleep).length) = some 9 := by decide
  obtain ⟨⟨r, acc', g'⟩, hx, hy⟩ := Option.map_eq_some'.1 hev
  obtain ⟨evs, n, ht, hs⟩ := (poll_backoff_sequence sample_config
    (scenario_oracle true true true 9) 10 (by decide) (by decide)).2.1 7 1 0
    ⟨[], sample_fifo 8 2 5⟩ r acc' g' hx
  refine ⟨by decide, by decide, r, acc', g', hx, ?_⟩
  simp only [ht, List.nil_append, hs, List.length_map, List.length_range] at hy ⊢
  subst hy
  decide

/-! Complete runs of the pollers -/

theorem pbdma_busy_iterations_snoc (K : Config) (pbdma_id : Nat) :
    ∀ (n j : Nat), pbdma_busy_iterations K pbdma_id j (n + 1) =
      pbdma_busy_iterations K pbdma_id j n ++
        [Event.pbdma_handle_intr pbdma_id, poll_sleep K (j + n),
          Event.nvgpu_timeout_expired] := by
  intro n
  induction n with
  | zero => intro j; simp [pbdma_busy_iterations]
  | succ n ih =>
    intro j
    have h := ih (j + 1)
    rw [show j + 1 + n = j + (n + 1) by omega] at h
    conv_lhs => rw [pbdma_busy_iterations]
    rw [h]
    simp [pbdma_busy_iterations]

theorem eng_busy_iterations_snoc (K : Config) (engine_id : Nat) :
    ∀ (n j : Nat), eng_busy_iterations K engine_id j (n + 1) =
      eng_busy_iterations K engine_id j n ++
        [Event.nvgpu_readl (K.fifo_engine_status_r engine_id),
          Event.is_stall_and_eng_intr_pending engine_id, poll_sleep K (j + n),
          Event.nvgpu_timeout_expired] := by
  intro n
  induction n with
  | zero => intro j; simp [eng_busy_iterations]
  | succ n ih =>
    intro j
    have h := ih (j + 1)
    rw [show j + 1 + n = j + (n + 1) by omega] at h
    conv_lhs => rw [eng_busy_iterations]
    rw [h]
    simp [eng_busy_iterations]

theorem pbdma_busy_iterations_samples (K : Config) (pbdma_id : Nat) :
    ∀ (n j : Nat),
      ((pbdma_busy_iterations K pbdma_id j n).filter Event.is_sample).length = n := by
  intro n
  induction n with
  | zero => intro j; rfl
  | succ n ih =>
    intro j
    simp [pbdma_busy_iterations, List.filter_cons, Event.is_sample, poll_sleep, ih (j + 1)]

theorem eng_busy_iterations_samples (K : Config) (engine_id : Nat) :
    ∀ (n j : Nat),
      ((eng_busy_iterations K engine_id j n).filter Event.is_sample).length = n := by
  intro n
  induction n with
  | zero => intro j; rfl
  | succ n ih =>
    intro j
    simp [eng_busy_iterations, List.filter_cons, Event.is_sample, poll_sleep, ih (j + 1)]

theorem pbdma_poll_events_counts (K : Config) (tsgid pbdma_id k : Nat) :
    ((pbdma_poll_events K tsgid pbdma_id k).filter Event.is_sample).length = k ∧
      ((pbdma_poll_events K tsgid pbdma_id k).filter Event.is_sleep).length = k := by
  unfold pbdma_poll_events
  constructor
  · simp [List.filter_append, List.filter_cons, Event.is_sample,
      pbdma_busy_iterations_samples]
  · simp [List.filter_append, List.filter_cons, Event.is_sleep,
      pbdma_busy_iterations_sleeps]

theorem eng_poll_events_counts (K : Config) (id engine_id k : Nat) :
    ((eng_poll_events K id engine_id k).filter Event.is_sample).length = k ∧
      ((eng_poll_events K id engine_id k).filter Event.is_sleep).length = k := by
  unfold eng_poll_events
  constructor
  · simp [List.filter_append, List.filter_cons, Event.is_sample,
      eng_busy_iterations_samples]
  · simp [List.filter_append, List.filter_cons, Event.is_sleep,
      eng_busy_iterations_sleeps]

theorem poll_pbdma_run (K : Config) (O : Oracle) (tsgid pbdma_id m fuel : Nat) (g : gk20a)
    (hinit : O.nvgpu_timeout_init (g.trace ++ [Event.poll_pbdma tsgid pbdma_id]) = 0)
    (hb : ∀ i, i < m →
      pbdma_check_at O tsgid pbdma_id (g.trace ++ pbdma_poll_events K tsgid pbdma_id i) ≠ 0)
    (he : ∀ i, i < m →
      pbdma_expired_at K O pbdma_id i
        (g.trace ++ pbdma_poll_events K tsgid pbdma_id i) = 0)
    (hr : O.nvgpu_platform_is_silicon = false →
      m ≤ K.PREEMPT_PENDING_POLL_PRE_SI_RETRIES) :
    gv11b_fifo_preempt_poll_pbdma K O (fuel + m) tsgid pbdma_id g =
      match gv11b_fifo_preempt_poll_pbdma_loop K O tsgid pbdma_id fuel (poll_delay K m)
          (if O.nvgpu_platform_is_silicon = false then m else 0) (-EBUSY)
          ⟨g.trace ++ pbdma_poll_events K tsgid pbdma_id m, g.fifo⟩ with
      | none => none
      | some (ret, g) => some (ret, g.emit (Event.poll_pbdma_ret pbdma_id ret)) := by
  have h0 : ¬ (O.nvgpu_timeout_init (g.emit (Event.poll_pbdma tsgid pbdma_id)).trace ≠ 0) := by
    simp [gk20a.emit, hinit]
  have hrun := pbdma_loop_busy_run K O tsgid pbdma_id m 0 0 fuel (-EBUSY)
    (g.trace ++ [Event.poll_pbdma tsgid pbdma_id, Event.nvgpu_timeout_init]) g.fifo
    (by
      intro i hi
      have := hb i hi
      simpa [pbdma_poll_events, List.append_assoc] using this)
    (by
      intro i hi
      have := he i hi
      simpa [pbdma_poll_events, List.append_assoc] using this)
    (by
      intro hs
      have := hr hs
      omega)
  have hst : (g.emit (Event.poll_pbdma tsgid pbdma_id)).emit Event.nvgpu_timeout_init =
      ⟨g.trace ++ [Event.poll_pbdma tsgid pbdma_id, Event.nvgpu_timeout_init], g.fifo⟩ := by
    simp [gk20a.emit]
  have hd : K.POLL_DELAY_MIN_US = poll_delay K 0 := rfl
  simp only [gv11b_fifo_preempt_poll_pbdma, if_neg h0, hst]
  rw [hd, hrun]
  simp only [Nat.zero_add, pbdma_poll_events, List.append_assoc, ite_self]

theorem poll_eng_run (K : Config) (O : Oracle) (id engine_id acc m fuel : Nat) (g : gk20a)
    (hinit : O.nvgpu_timeout_init (g.trace ++ [Event.poll_eng id engine_id]) = 0)
    (hb : ∀ i, i < m →
      (eng_check_at K O id engine_id acc
        (g.trace ++ eng_poll_events K id engine_id i)).1 ≠ 0)
    (he : ∀ i, i < m →
      eng_expired_at K O engine_id i (g.trace ++ eng_poll_events K id engine_id i) = 0)
    (hr : O.nvgpu_platform_is_silicon = false →
      m ≤ K.PREEMPT_PENDING_POLL_PRE_SI_RETRIES) :
    gv11b_fifo_preempt_poll_eng K O (fuel + m) id engine_id acc g =
      match gv11b_fifo_preempt_poll_eng_loop K O id engine_id fuel (poll_delay K m)
          (if O.nvgpu_platform_is_silicon = false then m else 0) (-EBUSY) acc
          ⟨g.trace ++ eng_poll_events K id engine_id m, g.fifo⟩ with
      | none => none
      | some (ret, reset_eng_bitmask, g) =>
        if ret ≠ 0 then
          some (ret, reset_eng_bitmask ||| BIT32 engine_id,
            g.emit (Event.poll_eng_ret engine_id ret))
        else
          some (ret, reset_eng_bitmask, g.emit (Event.poll_eng_ret engine_id ret)) := by
  have h0 : ¬ (O.nvgpu_timeout_init (g.emit (Event.poll_eng id engine_id)).trace ≠ 0) := by
    simp [gk20a.emit, hinit]
  have hrun := eng_loop_busy_run K O id engine_id acc m 0 0 fuel (-EBUSY)
    (g.trace ++ [Event.poll_eng id engine_id, Event.nvgpu_timeout_init]) g.fifo
    (by
      intro i hi
      have := hb i hi
      simpa [eng_poll_events, List.append_assoc] using this)
    (by
      intro i hi
      have := he i hi
      simpa [eng_poll_events, List.append_assoc] using this)
    (by
      intro hs
      have := hr hs
      omega)
  have hst : (g.emit (Event.poll_eng id engine_id)).emit Event.nvgpu_timeout_init =
      ⟨g.trace ++ [Event.poll_eng id engine_id, Event.nvgpu_timeout_init], g.fifo⟩ := by
    simp [gk20a.emit]
  have hd : K.POLL_DELAY_MIN_US = poll_delay K 0 := rfl
  simp only [gv11b_fifo_preempt_poll_eng, if_neg h0, hst]
  rw [hd, hrun]
  simp only [Nat.zero_add, eng_poll_events, List.append_assoc, ite_self]

theorem poll_pbdma_confirm (K : Config) (O : Oracle) (tsgid pbdma_id m fuel : Nat)
    (g : gk20a)
    (hinit : O.nvgpu_timeout_init (g.trace ++ [Event.poll_pbdma tsgid pbdma_id]) = 0)
    (hb : ∀ i, i < m →
      pbdma_check_at O tsgid pbdma_id (g.trace ++ pbdma_poll_events K tsgid pbdma_id i) ≠ 0)
    (he : ∀ i, i < m →
      pbdma_expired_at K O pbdma_id i
        (g.trace ++ pbdma_poll_events K tsgid pbdma_id i) = 0)
    (hc : pbdma_check_at O tsgid pbdma_id
      (g.trace ++ pbdma_poll_events K tsgid pbdma_id m) = 0)
    (hr : O.nvgpu_platform_is_silicon = false →
      m + 1 ≤ K.PREEMPT_PENDING_POLL_PRE_SI_RETRIES)
    (hfuel : m + 1 ≤ fuel) :
    gv11b_fifo_preempt_poll_pbdma K O fuel tsgid pbdma_id g =
      some (0, ⟨g.trace ++ (pbdma_poll_events K tsgid pbdma_id m ++
        [Event.pbdma_handle_intr pbdma_id, Event.poll_pbdma_ret pbdma_id 0]), g.fifo⟩) := by
  have hnc : ¬ (O.nvgpu_platform_is_silicon = false ∧
      K.PREEMPT_PENDING_POLL_PRE_SI_RETRIES ≤
        (if O.nvgpu_platform_is_silicon = false then m else 0)) := by
    rintro ⟨hs, hle⟩
    have := hr hs
    simp only [hs, if_true] at hle
    omega
  rw [show fuel = (fuel - (m + 1)) + 1 + m by omega,
    poll_pbdma_run K O tsgid pbdma_id m _ g hinit hb he (fun hs => by have := hr hs; omega),
    pbdma_loop_step_confirm K O tsgid pbdma_id _ _ _ _ _ _ hnc hc]
  simp [gk20a.emit, List.append_assoc]

theorem poll_pbdma_expire (K : Config) (O : Oracle) (tsgid pbdma_id m fuel : Nat)
    (g : gk20a)
    (hinit : O.nvgpu_timeout_init (g.trace ++ [Event.poll_pbdma tsgid pbdma_id]) = 0)
    (hb : ∀ i, i < m + 1 →
      pbdma_check_at O tsgid pbdma_id (g.trace ++ pbdma_poll_events K tsgid pbdma_id i) ≠ 0)
    (he : ∀ i, i < m →
      pbdma_expired_at K O pbdma_id i
        (g.trace ++ pbdma_poll_events K tsgid pbdma_id i) = 0)
    (hx : pbdma_expired_at K O pbdma_id m
      (g.trace ++ pbdma_poll_events K tsgid pbdma_id m) ≠ 0)
    (hr : O.nvgpu_platform_is_silicon = false →
      m + 1 ≤ K.PREEMPT_PENDING_POLL_PRE_SI_RETRIES)
    (hfuel : m + 1 ≤ fuel) :
    gv11b_fifo_preempt_poll_pbdma K O fuel tsgid pbdma_id g =
      some (-EBUSY, ⟨g.trace ++ (pbdma_poll_events K tsgid pbdma_id (m + 1) ++
        [Event.poll_pbdma_ret pbdma_id (-EBUSY)]), g.fifo⟩) := by
  have hnc : ¬ (O.nvgpu_platform_is_silicon = false ∧
      K.PREEMPT_PENDING_POLL_PRE_SI_RETRIES ≤
        (if O.nvgpu_platform_is_silicon = false then m else 0)) := by
    rintro ⟨hs, hle⟩
    have := hr hs
    simp only [hs, if_true] at hle
    omega
  rw [show fuel = (fuel - (m + 1)) + 1 + m by omega,
    poll_pbdma_run K O tsgid pbdma_id m _ g hinit (fun i hi => hb i (by omega)) he
      (fun hs => by have := hr hs; omega),
    pbdma_loop_step_expire K O tsgid pbdma_id _ _ _ _ _ _ hnc (hb m (by omega)) hx]
  have hsn := pbdma_busy_iterations_snoc K pbdma_id m 0
  rw [Nat.zero_add] at hsn
  simp [gk20a.emit, List.append_assoc, pbdma_poll_events, hsn]

theorem poll_pbdma_ceiling (K : Config) (O : Oracle) (tsgid pbdma_id fuel : Nat)
    (g : gk20a) (hs : O.nvgpu_platform_is_silicon = false)
    (hinit : O.nvgpu_timeout_init (g.trace ++ [Event.poll_pbdma tsgid pbdma_id]) = 0)
    (hb : ∀ i, i < K.PREEMPT_PENDING_POLL_PRE_SI_RETRIES →
      pbdma_check_at O tsgid pbdma_id (g.trace ++ pbdma_poll_events K tsgid pbdma_id i) ≠ 0)
    (he : ∀ i, i < K.PREEMPT_PENDING_POLL_PRE_SI_RETRIES →
      pbdma_expired_at K O pbdma_id i
        (g.trace ++ pbdma_poll_events K tsgid pbdma_id i) = 0)
    (hfuel : K.PREEMPT_PENDING_POLL_PRE_SI_RETRIES + 1 ≤ fuel) :
    gv11b_fifo_preempt_poll_pbdma K O fuel tsgid pbdma_id g =
      some (-EBUSY, ⟨g.trace ++ (pbdma_poll_events K tsgid pbdma_id
          K.PREEMPT_PENDING_POLL_PRE_SI_RETRIES ++
        [Event.poll_pbdma_ret pbdma_id (-EBUSY)]), g.fifo⟩) := by
  have hc : O.nvgpu_platform_is_silicon = false ∧
      K.PREEMPT_PENDING_POLL_PRE_SI_RETRIES ≤
        (if O.nvgpu_platform_is_silicon = false then K.PREEMPT_PENDING_POLL_PRE_SI_RETRIES
          else 0) := by
    simp [hs]
  rw [show fuel = (fuel - (K.PREEMPT_PENDING_POLL_PRE_SI_RETRIES + 1)) + 1 +
      K.PREEMPT_PENDING_POLL_PRE_SI_RETRIES by omega,
    poll_pbdma_run K O tsgid pbdma_id _ _ g hinit hb he (fun _ => le_refl _),
    pbdma_loop_step_ceiling K O tsgid pbdma_id _ _ _ _ _ hc]
  simp [gk20a.emit, List.append_assoc]

theorem poll_eng_confirm (K : Config) (O : Oracle) (id engine_id acc m fuel : Nat)
    (g : gk20a)
    (hinit : O.nvgpu_timeout_init (g.trace ++ [Event.poll_eng id engine_id]) = 0)
    (hb : ∀ i, i < m →
      (eng_check_at K O id engine_id acc
        (g.trace ++ eng_poll_events K id engine_id i)).1 ≠ 0)
    (he : ∀ i, i < m →
      eng_expired_at K O engine_id i (g.trace ++ eng_poll_events K id engine_id i) = 0)
    (hc : (eng_check_at K O id engine_id acc
      (g.trace ++ eng_poll_events K id engine_id m)).1 = 0)
    (hr : O.nvgpu_platform_is_silicon = false →
      m + 1 ≤ K.PREEMPT_PENDING_POLL_PRE_SI_RETRIES)
    (hfuel : m + 1 ≤ fuel) :
    gv11b_fifo_preempt_poll_eng K O fuel id engine_id acc g =
      some (0,
        (eng_check_at K O id engine_id acc
          (g.trace ++ eng_poll_events K id engine_id m)).2,
        ⟨g.trace ++ (eng_poll_events K id engine_id m ++
          [Event.nvgpu_readl (K.fifo_engine_status_r engine_id),
            Event.is_stall_and_eng_intr_pending engine_id,
            Event.poll_eng_ret engine_id 0]), g.fifo⟩) := by
  have hnc : ¬ (O.nvgpu_platform_is_silicon = false ∧
      K.PREEMPT_PENDING_POLL_PRE_SI_RETRIES ≤
        (if O.nvgpu_platform_is_silicon = false then m else 0)) := by
    rintro ⟨hs, hle⟩
    have := hr hs
    simp only [hs, if_true] at hle
    omega
  rw [show fuel = (fuel - (m + 1)) + 1 + m by omega,
    poll_eng_run K O id engine_id acc m _ g hinit hb he (fun hs => by have := hr hs; omega),
    eng_loop_step_confirm K O id engine_id _ _ _ _ _ _ _ hnc hc]
  simp [gk20a.emit, List.append_assoc]

theorem poll_eng_expire (K : Config) (O : Oracle) (id engine_id acc m fuel : Nat)
    (g : gk20a)
    (hinit : O.nvgpu_timeout_init (g.trace ++ [Event.poll_eng id engine_id]) = 0)
    (hb : ∀ i, i < m + 1 →
      (eng_check_at K O id engine_id acc
        (g.trace ++ eng_poll_events K id engine_id i)).1 ≠ 0)
    (he : ∀ i, i < m →
      eng_expired_at K O engine_id i (g.trace ++ eng_poll_events K id engine_id i) = 0)
    (hx : eng_expired_at K O engine_id m
      (g.trace ++ eng_poll_events K id engine_id m) ≠ 0)
    (hr : O.nvgpu_platform_is_silicon = false →
      m + 1 ≤ K.PREEMPT_PENDING_POLL_PRE_SI_RETRIES)
    (hfuel : m + 1 ≤ fuel) :
    gv11b_fifo_preempt_poll_eng K O fuel id engine_id acc g =
      some (-EBUSY, acc ||| BIT32 engine_id,
        ⟨g.trace ++ (eng_poll_events K id engine_id (m + 1) ++
          [Event.poll_eng_ret engine_id (-EBUSY)]), g.fifo⟩) := by
  have hnc : ¬ (O.nvgpu_platform_is_silicon = false ∧
      K.PREEMPT_PENDING_POLL_PRE_SI_RETRIES ≤
        (if O.nvgpu_platform_is_silicon = false then m else 0)) := by
    rintro ⟨hs, hle⟩
    have := hr hs
    simp only [hs, if_true] at hle
    omega
  have hne : (-EBUSY : Int) ≠ 0 := by decide
  rw [show fuel = (fuel - (m + 1)) + 1 + m by omega,
    poll_eng_run K O id engine_id acc m _ g hinit (fun i hi => hb i (by omega)) he
      (fun hs => by have := hr hs; omega),
    eng_loop_step_expire K O id engine_id _ _ _ _ _ _ _ hnc (hb m (by omega)) hx]
  have hsn := eng_busy_iterations_snoc K engine_id m 0
  rw [Nat.zero_add] at hsn
  simp [gk20a.emit, List.append_assoc, eng_poll_events, hsn, hne]

theorem poll_eng_ceiling (K : Config) (O : Oracle) (id engine_id acc fuel : Nat)
    (g : gk20a) (hs : O.nvgpu_platform_is_silicon = false)
    (hinit : O.nvgpu_timeout_init (g.trace ++ [Event.poll_eng id engine_id]) = 0)
    (hb : ∀ i, i < K.PREEMPT_PENDING_POLL_PRE_SI_RETRIES →
      (eng_check_at K O id engine_id acc
        (g.trace ++ eng_poll_events K id engine_id i)).1 ≠ 0)
    (he : ∀ i, i < K.PREEMPT_PENDING_POLL_PRE_SI_RETRIES →
      eng_expired_at K O engine_id i (g.trace ++ eng_poll_events K id engine_id i) = 0)
    (hfuel : K.PREEMPT_PENDING_POLL_PRE_SI_RETRIES + 1 ≤ fuel) :
    gv11b_fifo_preempt_poll_eng K O fuel id engine_id acc g =
      some (-EBUSY, acc ||| BIT32 engine_id,
        ⟨g.trace ++ (eng_poll_events K id engine_id
            K.PREEMPT_PENDING_POLL_PRE_SI_RETRIES ++
          [Event.poll_eng_ret engine_id (-EBUSY)]), g.fifo⟩) := by
  have hc : O.nvgpu_platform_is_silicon = false ∧
      K.PREEMPT_PENDING_POLL_PRE_SI_RETRIES ≤
        (if O.nvgpu_platform_is_silicon = false then K.PREEMPT_PENDING_POLL_PRE_SI_RETRIES
          else 0) := by
    simp [hs]
  have hne : (-EBUSY : Int) ≠ 0 := by decide
  rw [show fuel = (fuel - (K.PREEMPT_PENDING_POLL_PRE_SI_RETRIES + 1)) + 1 +
      K.PREEMPT_PENDING_POLL_PRE_SI_RETRIES by omega,
    poll_eng_run K O id engine_id acc _ _ g hinit hb he (fun _ => le_refl _),
    eng_loop_step_ceiling K O id engine_id _ _ _ _ _ _ hc]
  simp [gk20a.emit, List.append_assoc, hne]

/-- C13: if `nvgpu_timeout_init` succeeds, the first `m` status samples of a
poll are classified busy, the timeout is not expired after each of the first
`m` sleeps, sample number `m + 1` is classified confirmed and, off silicon,
`m + 1` does not exceed the retry ceiling, then with fuel for `m + 1`
iterations `gv11b_fifo_preempt_poll_pbdma` returns 0 having taken exactly
`m + 1` status samples and requested exactly `m` sleeps, and so does
`gv11b_fifo_preempt_poll_eng`; the fifo is unchanged.  End to end, on or off
silicon and with the PMU mutex granted or refused: TSG 7 on runlist 2 with
PBDMA mask {3} and engine mask {1}, PBDMA 3 reporting valid with id 7 and
then id 9, engine 1 reporting invalid: `gv11b_fifo_preempt_tsg` returns 0
after 2 samples of PBDMA 3 and 1 sample of engine 1, and leaves
`reset_eng_bitmask` at 0. -/
theorem poll_returns_after_confirming_sample (K : Config) (O : Oracle) :
    (∀ (tsgid pbdma_id m fuel : Nat) (g : gk20a),
      O.nvgpu_timeout_init (g.trace ++ [Event.poll_pbdma tsgid pbdma_id]) = 0 →
      (∀ i, i < m → pbdma_check_at O tsgid pbdma_id
        (g.trace ++ pbdma_poll_events K tsgid pbdma_id i) ≠ 0) →
      (∀ i, i < m → pbdma_expired_at K O pbdma_id i
        (g.trace ++ pbdma_poll_events K tsgid pbdma_id i) = 0) →
      pbdma_check_at O tsgid pbdma_id
        (g.trace ++ pbdma_poll_events K tsgid pbdma_id m) = 0 →
      (O.nvgpu_platform_is_silicon = false →
        m + 1 ≤ K.PREEMPT_PENDING_POLL_PRE_SI_RETRIES) →
      m + 1 ≤ fuel →
      ∃ evs, gv11b_fifo_preempt_poll_pbdma K O fuel tsgid pbdma_id g =
          some (0, ⟨g.trace ++ evs, g.fifo⟩) ∧
        (evs.filter Event.is_sample).length = m + 1 ∧
        (evs.filter Event.is_sleep).length = m) ∧
    (∀ (id engine_id acc m fuel : Nat) (g : gk20a),
      O.nvgpu_timeout_init (g.trace ++ [Event.poll_eng id engine_id]) = 0 →
      (∀ i, i < m → (eng_check_at K O id engine_id acc
        (g.trace ++ eng_poll_events K id engine_id i)).1 ≠ 0) →
      (∀ i, i < m → eng_expired_at K O engine_id i
        (g.trace ++ eng_poll_events K id engine_id i) = 0) →
      (eng_check_at K O id engine_id acc
        (g.trace ++ eng_poll_events K id engine_id m)).1 = 0 →
      (O.nvgpu_platform_is_silicon = false →
        m + 1 ≤ K.PREEMPT_PENDING_POLL_PRE_SI_RETRIES) →
      m + 1 ≤ fuel →
      ∃ evs acc', gv11b_fifo_preempt_poll_eng K O fuel id engine_id acc g =
          some (0, acc', ⟨g.trace ++ evs, g.fifo⟩) ∧
        (evs.filter Event.is_sample).length = m + 1 ∧
        (evs.filter Event.is_sleep).length = m) ∧
    (∀ silicon pmu_ok : Bool,
      (gv11b_fifo_preempt_tsg sample_config (scenario_oracle silicon pmu_ok false 2)
          (gv11b_ops sample_config (scenario_oracle silicon pmu_ok false 2) 4) ⟨7, 2⟩
          ⟨[], sample_fifo 8 2 5⟩).map
        (fun x => (x.1, x.2.trace.count (Event.pbdma_handle_intr 3),
          x.2.trace.count (Event.nvgpu_readl (sample_config.fifo_engine_status_r 1)),
          (x.2.fifo.runlist 2).reset_eng_bitmask)) = some (0, 2, 1, 0)) := by
  refine ⟨?_, ?_, by decide⟩
  · intro tsgid pbdma_id m fuel g hinit hb he hc hr hfuel
    refine ⟨_, poll_pbdma_confirm K O tsgid pbdma_id m fuel g hinit hb he hc hr hfuel, ?_, ?_⟩
    · have := (pbdma_poll_events_counts K tsgid pbdma_id m).1
      simp [List.filter_append, List.filter_cons, Event.is_sample, this]
    · have := (pbdma_poll_events_counts K tsgid pbdma_id m).2
      simp [List.filter_append, List.filter_cons, Event.is_sleep, this]
  · intro id engine_id acc m fuel g hinit hb he hc hr hfuel
    refine ⟨_, _, poll_eng_confirm K O id engine_id acc m fuel g hinit hb he hc hr hfuel,
      ?_, ?_⟩
    · have := (eng_poll_events_counts K id engine_id m).1
      simp [List.filter_append, List.filter_cons, Event.is_sample, this]
    · have := (eng_poll_events_counts K id engine_id m).2
      simp [List.filter_append, List.filter_cons, Event.is_sleep, this]

/-- Witness of C13: PBDMA 3 reports id 7 on the first sample and id 9 on the
second; the poll returns 0 after two samples and one sleep. -/
theorem poll_returns_after_confirming_sample_witness :
    ∃ evs, gv11b_fifo_preempt_poll_pbdma sample_config sample_oracle 5 7 3
        ⟨[], sample_fifo 8 2 5⟩ = some (0, ⟨[] ++ evs, sample_fifo 8 2 5⟩) ∧
      (evs.filter Event.is_sample).length = 1 + 1 ∧
      (evs.filter Event.is_sleep).length = 1 :=
  (poll_returns_after_confirming_sample sample_config sample_oracle).1 7 3 1 5
    ⟨[], sample_fifo 8 2 5⟩ rfl
    (by
      intro i hi
      have hi0 : i = 0 := by omega
      subst hi0
      decide)
    (by
      intro i hi
      rfl)
    (by decide) (by intro h; cases h) (by decide)

/-! Engine poll that never sees the context leave -/

theorem BIT32_of_lt (i : Nat) (h : i < 32) : BIT32 i = 2 ^ i := by
  unfold BIT32
  rw [Nat.shiftLeft_eq, Nat.one_mul]
  exact Nat.mod_eq_of_lt (Nat.pow_lt_pow_right (by decide) h)

/-- C12: for every target id, every `engine_id < 32` and every entry value
`acc` of `*reset_eng_bitmask`, if `nvgpu_timeout_init` succeeds and every
engine status sample of `gv11b_fifo_preempt_poll_eng` is classified busy
until the loop ends, the poll returns `-EBUSY` with the accumulator
`acc ||| 2 ^ engine_id`: both when the timeout is found expired after sleep
number `m + 1` (on any platform; off silicon `m + 1` within the retry
ceiling), and when off silicon the timeout never expires and the retry
ceiling ends the loop.  End to end, on or off silicon and with the PMU mutex
granted or refused: TSG 7 on runlist 2 with engine mask {1}, engine 1
staying valid with id 7 and no interrupt pending: `gv11b_fifo_preempt_tsg`
returns `-EBUSY` and leaves `reset_eng_bitmask` of the runlist at
`2 ^ 1`, whether the engine poll is ended by the timeout (second check) or,
off silicon, by the retry ceiling (3 samples). -/
theorem poll_eng_busy_until_end (K : Config) (O : Oracle) :
    (∀ (id engine_id acc m fuel : Nat) (g : gk20a),
      engine_id < 32 →
      O.nvgpu_timeout_init (g.trace ++ [Event.poll_eng id engine_id]) = 0 →
      (∀ i, i < m + 1 → (eng_check_at K O id engine_id acc
        (g.trace ++ eng_poll_events K id engine_id i)).1 ≠ 0) →
      (∀ i, i < m → eng_expired_at K O engine_id i
        (g.trace ++ eng_poll_events K id engine_id i) = 0) →
      eng_expired_at K O engine_id m
        (g.trace ++ eng_poll_events K id engine_id m) ≠ 0 →
      (O.nvgpu_platform_is_silicon = false →
        m + 1 ≤ K.PREEMPT_PENDING_POLL_PRE_SI_RETRIES) →
      m + 1 ≤ fuel →
      gv11b_fifo_preempt_poll_eng K O fuel id engine_id acc g =
        some (-EBUSY, acc ||| 2 ^ engine_id,
          ⟨g.trace ++ (eng_poll_events K id engine_id (m + 1) ++
            [Event.poll_eng_ret engine_id (-EBUSY)]), g.fifo⟩)) ∧
    (∀ (id engine_id acc fuel : Nat) (g : gk20a),
      engine_id < 32 →
      O.nvgpu_platform_is_silicon = false →
      O.nvgpu_timeout_init (g.trace ++ [Event.poll_eng id engine_id]) = 0 →
      (∀ i, i < K.PREEMPT_PENDING_POLL_PRE_SI_RETRIES → (eng_check_at K O id engine_id acc
        (g.trace ++ eng_poll_events K id engine_id i)).1 ≠ 0) →
      (∀ i, i < K.PREEMPT_PENDING_POLL_PRE_SI_RETRIES → eng_expired_at K O engine_id i
        (g.trace ++ eng_poll_events K id engine_id i) = 0) →
      K.PREEMPT_PENDING_POLL_PRE_SI_RETRIES + 1 ≤ fuel →
      gv11b_fifo_preempt_poll_eng K O fuel id engine_id acc g =
        some (-EBUSY, acc ||| 2 ^ engine_id,
          ⟨g.trace ++ (eng_poll_events K id engine_id
              K.PREEMPT_PENDING_POLL_PRE_SI_RETRIES ++
            [Event.poll_eng_ret engine_id (-EBUSY)]), g.fifo⟩)) ∧
    (∀ silicon pmu_ok : Bool,
      (gv11b_fifo_preempt_tsg sample_config (scenario_oracle silicon pmu_ok true 2)
          (gv11b_ops sample_config (scenario_oracle silicon pmu_ok true 2) 4) ⟨7, 2⟩
          ⟨[], sample_fifo 8 2 5⟩).map
        (fun x => (x.1,
          x.2.trace.count (Event.nvgpu_readl (sample_config.fifo_engine_status_r 1)),
          (x.2.fifo.runlist 2).reset_eng_bitmask)) = some (-EBUSY, 2, 2 ^ 1)) ∧
    (∀ pmu_ok : Bool,
      (gv11b_fifo_preempt_tsg sample_config (scenario_oracle false pmu_ok true 100)
          (gv11b_ops sample_config (scenario_oracle false pmu_ok true 100) 4) ⟨7, 2⟩
          ⟨[], sample_fifo 8 2 5⟩).map
        (fun x => (x.1,
          x.2.trace.count (Event.nvgpu_readl (sample_config.fifo_engine_status_r 1)),
          (x.2.fifo.runlist 2).reset_eng_bitmask)) = some (-EBUSY, 3, 2 ^ 1)) := by
  refine ⟨?_, ?_, by decide, by decide⟩
  · intro id engine_id acc m fuel g hid hinit hb he hx hr hfuel
    rw [← BIT32_of_lt engine_id hid]
    exact poll_eng_expire K O id engine_id acc m fuel g hinit hb he hx hr hfuel
  · intro id engine_id acc fuel g hid hs hinit hb he hfuel
    rw [← BIT32_of_lt engine_id hid]
    exact poll_eng_ceiling K O id engine_id acc fuel g hs hinit hb he hfuel

/-- Witness of C12: off silicon, engine 1 stays valid with id 7 and the
timeout never expires; after 3 samples the poll returns `-EBUSY` and bit 1
is added to the accumulator 4. -/
theorem poll_eng_busy_until_end_witness :
    gv11b_fifo_preempt_poll_eng sample_config stuck_oracle 4 7 1 4 ⟨[], sample_fifo 8 2 5⟩ =
      some (-EBUSY, 4 ||| 2 ^ 1,
        ⟨[] ++ (eng_poll_events sample_config 7 1
            sample_config.PREEMPT_PENDING_POLL_PRE_SI_RETRIES ++
          [Event.poll_eng_ret 1 (-EBUSY)]), sample_fifo 8 2 5⟩) :=
  (poll_eng_busy_until_end sample_config stuck_oracle).2.1 7 1 4 4 ⟨[], sample_fifo 8 2 5⟩
    (by decide) rfl rfl
    (by
      intro i hi
      have hi3 : i < 3 := hi
      interval_cases i <;> decide)
    (by
      intro i _
      rfl)
    (by decide)

/-! The retry ceiling off silicon -/

theorem poll_pbdma_off_silicon_from (K : Config) (O : Oracle) (tsgid pbdma_id fuel : Nat)
    (g : gk20a) (hs : O.nvgpu_platform_is_silicon = false)
    (hinit : O.nvgpu_timeout_init (g.trace ++ [Event.poll_pbdma tsgid pbdma_id]) = 0)
    (hfuel : K.PREEMPT_PENDING_POLL_PRE_SI_RETRIES + 1 ≤ fuel) :
    ∀ (d k : Nat), k + d = K.PREEMPT_PENDING_POLL_PRE_SI_RETRIES →
      (∀ i, i < k → pbdma_check_at O tsgid pbdma_id
        (g.trace ++ pbdma_poll_events K tsgid pbdma_id i) ≠ 0) →
      (∀ i, i < k → pbdma_expired_at K O pbdma_id i
        (g.trace ++ pbdma_poll_events K tsgid pbdma_id i) = 0) →
      ∃ (n : Nat) (r : Int) (evs : List Event),
        gv11b_fifo_preempt_poll_pbdma K O fuel tsgid pbdma_id g =
          some (r, ⟨g.trace ++ evs, g.fifo⟩) ∧
        (evs.filter Event.is_sample).length = n ∧
        n ≤ K.PREEMPT_PENDING_POLL_PRE_SI_RETRIES ∧
        ((r = 0 ∧ ∃ j, n = j + 1 ∧ pbdma_check_at O tsgid pbdma_id
            (g.trace ++ pbdma_poll_events K tsgid pbdma_id j) = 0) ∨
          (r = -EBUSY ∧ ∀ i, i < n → pbdma_check_at O tsgid pbdma_id
            (g.trace ++ pbdma_poll_events K tsgid pbdma_id i) ≠ 0)) := by
  intro d
  induction d with
  | zero =>
    intro k hk hb he
    have hkR : k = K.PREEMPT_PENDING_POLL_PRE_SI_RETRIES := by omega
    subst hkR
    refine ⟨_, _, _, poll_pbdma_ceiling K O tsgid pbdma_id fuel g hs hinit hb he hfuel,
      ?_, le_refl _, Or.inr ⟨rfl, hb⟩⟩
    have := (pbdma_poll_events_counts K tsgid pbdma_id
      K.PREEMPT_PENDING_POLL_PRE_SI_RETRIES).1
    simp [List.filter_append, List.filter_cons, Event.is_sample, this]
  | succ d ih =>
    intro k hk hb he
    by_cases hc : pbdma_check_at O tsgid pbdma_id
        (g.trace ++ pbdma_poll_events K tsgid pbdma_id k) = 0
    · refine ⟨k + 1, _, _, poll_pbdma_confirm K O tsgid pbdma_id k fuel g hinit hb he hc
        (fun _ => by omega) (by omega), ?_, by omega, Or.inl ⟨rfl, k, rfl, hc⟩⟩
      have := (pbdma_poll_events_counts K tsgid pbdma_id k).1
      simp [List.filter_append, List.filter_cons, Event.is_sample, this]
    · have hb1 : ∀ i, i < k + 1 → pbdma_check_at O tsgid pbdma_id
          (g.trace ++ pbdma_poll_events K tsgid pbdma_id i) ≠ 0 := by
        intro i hi
        rcases Nat.lt_succ_iff_lt_or_eq.mp hi with h | h
        · exact hb i h
        · rw [h]; exact hc
      by_cases hx : pbdma_expired_at K O pbdma_id k
          (g.trace ++ pbdma_poll_events K tsgid pbdma_id k) = 0
      · have he1 : ∀ i, i < k + 1 → pbdma_expired_at K O pbdma_id i
            (g.trace ++ pbdma_poll_events K tsgid pbdma_id i) = 0 := by
          intro i hi
          rcases Nat.lt_succ_iff_lt_or_eq.mp hi with h | h
          · exact he i h
          · rw [h]; exact hx
        exact ih (k + 1) (by omega) hb1 he1
      · refine ⟨k + 1, _, _, poll_pbdma_expire K O tsgid pbdma_id k fuel g hinit hb1 he hx
          (fun _ => by omega) (by omega), ?_, by omega, Or.inr ⟨rfl, hb1⟩⟩
        have := (pbdma_poll_events_counts K tsgid pbdma_id (k + 1)).1
        simp [List.filter_append, List.filter_cons, Event.is_sample, this]

theorem poll_eng_off_silicon_from (K : Config) (O : Oracle) (id engine_id acc fuel : Nat)
    (g : gk20a) (hs : O.nvgpu_platform_is_silicon = false)
    (hinit : O.nvgpu_timeout_init (g.trace ++ [Event.poll_eng id engine_id]) = 0)
    (hfuel : K.PREEMPT_PENDING_POLL_PRE_SI_RETRIES + 1 ≤ fuel) :
    ∀ (d k : Nat), k + d = K.PREEMPT_PENDING_POLL_PRE_SI_RETRIES →
      (∀ i, i < k → (eng_check_at K O id engine_id acc
        (g.trace ++ eng_poll_events K id engine_id i)).1 ≠ 0) →
      (∀ i, i < k → eng_expired_at K O engine_id i
        (g.trace ++ eng_poll_events K id engine_id i) = 0) →
      ∃ (n : Nat) (r : Int) (acc' : Nat) (evs : List Event),
        gv11b_fifo_preempt_poll_eng K O fuel id engine_id acc g =
          some (r, acc', ⟨g.trace ++ evs, g.fifo⟩) ∧
        (evs.filter Event.is_sample).length = n ∧
        n ≤ K.PREEMPT_PENDING_POLL_PRE_SI_RETRIES ∧
        ((r = 0 ∧ ∃ j, n = j + 1 ∧ (eng_check_at K O id engine_id acc
            (g.trace ++ eng_poll_events K id engine_id j)).1 = 0) ∨
          (r = -EBUSY ∧ acc' = acc ||| BIT32 engine_id ∧
            ∀ i, i < n → (eng_check_at K O id engine_id acc
              (g.trace ++ eng_poll_events K id engine_id i)).1 ≠ 0)) := by
  intro d
  induction d with
  | zero =>
    intro k hk hb he
    have hkR : k = K.PREEMPT_PENDING_POLL_PRE_SI_RETRIES := by omega
    subst hkR
    refine ⟨_, _, _, _, poll_eng_ceiling K O id engine_id acc fuel g hs hinit hb he hfuel,
      ?_, le_refl _, Or.inr ⟨rfl, rfl, hb⟩⟩
    have := (eng_poll_events_counts K id engine_id
      K.PREEMPT_PENDING_POLL_PRE_SI_RETRIES).1
    simp [List.filter_append, List.filter_cons, Event.is_sample, this]
  | succ d ih =>
    intro k hk hb he
    by_cases hc : (eng_check_at K O id engine_id acc
        (g.trace ++ eng_poll_events K id engine_id k)).1 = 0
    · refine ⟨k + 1, _, _, _, poll_eng_confirm K O id engine_id acc k fuel g hinit hb he hc
        (fun _ => by omega) (by omega), ?_, by omega, Or.inl ⟨rfl, k, rfl, hc⟩⟩
      have := (eng_poll_events_counts K id engine_id k).1
      simp [List.filter_append, List.filter_cons, Event.is_sample, this]
    · have hb1 : ∀ i, i < k + 1 → (eng_check_at K O id engine_id acc
          (g.trace ++ eng_poll_events K id engine_id i)).1 ≠ 0 := by
        intro i hi
        rcases Nat.lt_succ_iff_lt_or_eq.mp hi with h | h
        · exact hb i h
        · rw [h]; exact hc
      by_cases hx : eng_expired_at K O engine_id k
          (g.trace ++ eng_poll_events K id engine_id k) = 0
      · have he1 : ∀ i, i < k + 1 → eng_expired_at K O engine_id i
            (g.trace ++ eng_poll_events K id engine_id i) = 0 := by
          intro i hi
          rcases Nat.lt_succ_iff_lt_or_eq.mp hi with h | h
          · exact he i h
          · rw [h]; exact hx
        exact ih (k + 1) (by omega) hb1 he1
      · refine ⟨k + 1, _, _, _, poll_eng_expire K O id engine_id acc k fuel g hinit hb1 he hx
          (fun _ => by omega) (by omega), ?_, by omega, Or.inr ⟨rfl, rfl, hb1⟩⟩
        have := (eng_poll_events_counts K id engine_id (k + 1)).1
        simp [List.filter_append, List.filter_cons, Event.is_sample, this]

theorem poll_pbdma_off_silicon (K : Config) (O : Oracle) (tsgid pbdma_id fuel : Nat)
    (g : gk20a) (hs : O.nvgpu_platform_is_silicon = false)
    (hfuel : K.PREEMPT_PENDING_POLL_PRE_SI_RETRIES + 1 ≤ fuel) :
    ∃ (n : Nat) (r : Int) (evs : List Event),
      gv11b_fifo_preempt_poll_pbdma K O fuel tsgid pbdma_id g =
        some (r, ⟨g.trace ++ evs, g.fifo⟩) ∧
      (evs.filter Event.is_sample).length = n ∧
      n ≤ K.PREEMPT_PENDING_POLL_PRE_SI_RETRIES ∧
      (O.nvgpu_timeout_init (g.trace ++ [Event.poll_pbdma tsgid pbdma_id]) = 0 →
        ((∀ i, i < n → pbdma_check_at O tsgid pbdma_id
            (g.trace ++ pbdma_poll_events K tsgid pbdma_id i) ≠ 0) → r = -EBUSY) ∧
        (r = 0 → ∃ j, n = j + 1 ∧ pbdma_check_at O tsgid pbdma_id
            (g.trace ++ pbdma_poll_events K tsgid pbdma_id j) = 0) ∧
        (r = 0 ∨ r = -EBUSY)) := by
  by_cases hinit : O.nvgpu_timeout_init (g.trace ++ [Event.poll_pbdma tsgid pbdma_id]) = 0
  · obtain ⟨n, r, evs, hp, hn, hle, hres⟩ :=
      poll_pbdma_off_silicon_from K O tsgid pbdma_id fuel g hs hinit hfuel
        K.PREEMPT_PENDING_POLL_PRE_SI_RETRIES 0 (by omega)
        (fun i hi => absurd hi (Nat.not_lt_zero i)) (fun i hi => absurd hi (Nat.not_lt_zero i))
    refine ⟨n, r, evs, hp, hn, hle, fun _ => ?_⟩
    have hne : (-EBUSY : Int) ≠ 0 := by decide
    rcases hres with ⟨hr, j, hj, hc⟩ | ⟨hr, hb⟩
    · refine ⟨fun hb => absurd hc (hb j (by omega)), fun _ => ⟨j, hj, hc⟩, Or.inl hr⟩
    · refine ⟨fun _ => hr, fun h0 => absurd (hr ▸ h0) hne, Or.inr hr⟩
  · refine ⟨0, O.nvgpu_timeout_init (g.trace ++ [Event.poll_pbdma tsgid pbdma_id]),
      [Event.poll_pbdma tsgid pbdma_id, Event.nvgpu_timeout_init,
        Event.poll_pbdma_ret pbdma_id
          (O.nvgpu_timeout_init (g.trace ++ [Event.poll_pbdma tsgid pbdma_id]))],
      ?_, rfl, Nat.zero_le _, fun h => absurd h hinit⟩
    simp only [gv11b_fifo_preempt_poll_pbdma, gk20a.emit, if_pos hinit, List.append_assoc,
      List.singleton_append]
    rfl

theorem poll_eng_off_silicon (K : Config) (O : Oracle) (id engine_id acc fuel : Nat)
    (g : gk20a) (hs : O.nvgpu_platform_is_silicon = false)
    (hfuel : K.PREEMPT_PENDING_POLL_PRE_SI_RETRIES + 1 ≤ fuel) :
    ∃ (n : Nat) (r : Int) (acc' : Nat) (evs : List Event),
      gv11b_fifo_preempt_poll_eng K O fuel id engine_id acc g =
        some (r, acc', ⟨g.trace ++ evs, g.fifo⟩) ∧
      (evs.filter Event.is_sample).length = n ∧
      n ≤ K.PREEMPT_PENDING_POLL_PRE_SI_RETRIES ∧
      (O.nvgpu_timeout_init (g.trace ++ [Event.poll_eng id engine_id]) = 0 →
        ((∀ i, i < n → (eng_check_at K O id engine_id acc
            (g.trace ++ eng_poll_events K id engine_id i)).1 ≠ 0) →
          r = -EBUSY ∧ acc' = acc ||| BIT32 engine_id) ∧
        (r = 0 → ∃ j, n = j + 1 ∧ (eng_check_at K O id engine_id acc
            (g.trace ++ eng_poll_events K id engine_id j)).1 = 0) ∧
        (r = 0 ∨ r = -EBUSY)) := by
  by_cases hinit : O.nvgpu_timeout_init (g.trace ++ [Event.poll_eng id engine_id]) = 0
  · obtain ⟨n, r, acc', evs, hp, hn, hle, hres⟩ :=
      poll_eng_off_silicon_from K O id engine_id acc fuel g hs hinit hfuel
        K.PREEMPT_PENDING_POLL_PRE_SI_RETRIES 0 (by omega)
        (fun i hi => absurd hi (Nat.not_lt_zero i)) (fun i hi => absurd hi (Nat.not_lt_zero i))
    refine ⟨n, r, acc', evs, hp, hn, hle, fun _ => ?_⟩
    have hne : (-EBUSY : Int) ≠ 0 := by decide
    rcases hres with ⟨hr, j, hj, hc⟩ | ⟨hr, ha, hb⟩
    · refine ⟨fun hb => absurd hc (hb j (by omega)), fun _ => ⟨j, hj, hc⟩, Or.inl hr⟩
    · refine ⟨fun _ => ⟨hr, ha⟩, fun h0 => absurd (hr ▸ h0) hne, Or.inr hr⟩
  · refine ⟨0, O.nvgpu_timeout_init (g.trace ++ [Event.poll_eng id engine_id]), acc,
      [Event.poll_eng id engine_id, Event.nvgpu_timeout_init,
        Event.poll_eng_ret engine_id
          (O.nvgpu_timeout_init (g.trace ++ [Event.poll_eng id engine_id]))],
      ?_, rfl, Nat.zero_le _, fun h => absurd h hinit⟩
    simp only [gv11b_fifo_preempt_poll_eng, gk20a.emit, if_pos hinit, List.append_assoc,
      List.singleton_append]
    rfl

theorem poll_pbdma_never_returns (K : Config) (O : Oracle) (tsgid pbdma_id : Nat)
    (g : gk20a) (hs : O.nvgpu_platform_is_silicon = true)
    (hinit : O.nvgpu_timeout_init (g.trace ++ [Event.poll_pbdma tsgid pbdma_id]) = 0)
    (hb : ∀ i, pbdma_check_at O tsgid pbdma_id
      (g.trace ++ pbdma_poll_events K tsgid pbdma_id i) ≠ 0)
    (he : ∀ i, pbdma_expired_at K O pbdma_id i
      (g.trace ++ pbdma_poll_events K tsgid pbdma_id i) = 0) (fuel : Nat) :
    gv11b_fifo_preempt_poll_pbdma K O fuel tsgid pbdma_id g = none := by
  have h := poll_pbdma_run K O tsgid pbdma_id fuel 0 g hinit (fun i _ => hb i)
    (fun i _ => he i) (fun h => by rw [hs] at h; cases h)
  rw [Nat.zero_add] at h
  rw [h]
  rfl

theorem poll_eng_never_returns (K : Config) (O : Oracle) (id engine_id acc : Nat)
    (g : gk20a) (hs : O.nvgpu_platform_is_silicon = true)
    (hinit : O.nvgpu_timeout_init (g.trace ++ [Event.poll_eng id engine_id]) = 0)
    (hb : ∀ i, (eng_check_at K O id engine_id acc
      (g.trace ++ eng_poll_events K id engine_id i)).1 ≠ 0)
    (he : ∀ i, eng_expired_at K O engine_id i
      (g.trace ++ eng_poll_events K id engine_id i) = 0) (fuel : Nat) :
    gv11b_fifo_preempt_poll_eng K O fuel id engine_id acc g = none := by
  have h := poll_eng_run K O id engine_id acc fuel 0 g hinit (fun i _ => hb i)
    (fun i _ => he i) (fun h => by rw [hs] at h; cases h)
  rw [Nat.zero_add] at h
  rw [h]
  rfl

/-- C16: off silicon, for every status and timeout behaviour of the platform,
`gv11b_fifo_preempt_poll_pbdma` and `gv11b_fifo_preempt_poll_eng` return when
given more fuel than `PREEMPT_PENDING_POLL_PRE_SI_RETRIES`, having taken at
most that many status samples; if `nvgpu_timeout_init` succeeded and none of
the samples taken was classified confirmed the result is `-EBUSY` (and the
engine poll returns the accumulator with `BIT32 engine_id` added), a result 0
comes with a confirming last sample, and there is no third result.  On
silicon the counter `loop_count` is still 0 after any number `m` of busy
iterations, and a poll whose samples stay busy and whose timeout never
expires does not return for any fuel; on the sample silicon platform whose
timeout expires at the ninth check the engine poll takes 9 samples although
the ceiling of `sample_config` is 3. -/
theorem poll_retry_ceiling (K : Config) (O : Oracle) :
    (O.nvgpu_platform_is_silicon = false →
      ∀ (tsgid pbdma_id fuel : Nat) (g : gk20a),
        K.PREEMPT_PENDING_POLL_PRE_SI_RETRIES + 1 ≤ fuel →
        ∃ (n : Nat) (r : Int) (evs : List Event),
          gv11b_fifo_preempt_poll_pbdma K O fuel tsgid pbdma_id g =
            some (r, ⟨g.trace ++ evs, g.fifo⟩) ∧
          (evs.filter Event.is_sample).length = n ∧
          n ≤ K.PREEMPT_PENDING_POLL_PRE_SI_RETRIES ∧
          (O.nvgpu_timeout_init (g.trace ++ [Event.poll_pbdma tsgid pbdma_id]) = 0 →
            ((∀ i, i < n → pbdma_check_at O tsgid pbdma_id
                (g.trace ++ pbdma_poll_events K tsgid pbdma_id i) ≠ 0) → r = -EBUSY) ∧
            (r = 0 → ∃ j, n = j + 1 ∧ pbdma_check_at O tsgid pbdma_id
                (g.trace ++ pbdma_poll_events K tsgid pbdma_id j) = 0) ∧
            (r = 0 ∨ r = -EBUSY))) ∧
    (O.nvgpu_platform_is_silicon = false →
      ∀ (id engine_id acc fuel : Nat) (g : gk20a),
        K.PREEMPT_PENDING_POLL_PRE_SI_RETRIES + 1 ≤ fuel →
        ∃ (n : Nat) (r : Int) (acc' : Nat) (evs : List Event),
          gv11b_fifo_preempt_poll_eng K O fuel id engine_id acc g =
            some (r, acc', ⟨g.trace ++ evs, g.fifo⟩) ∧
          (evs.filter Event.is_sample).length = n ∧
          n ≤ K.PREEMPT_PENDING_POLL_PRE_SI_RETRIES ∧
          (O.nvgpu_timeout_init (g.trace ++ [Event.poll_eng id engine_id]) = 0 →
            ((∀ i, i < n → (eng_check_at K O id engine_id acc
                (g.trace ++ eng_poll_events K id engine_id i)).1 ≠ 0) →
              r = -EBUSY ∧ acc' = acc ||| BIT32 engine_id) ∧
            (r = 0 → ∃ j, n = j + 1 ∧ (eng_check_at K O id engine_id acc
                (g.trace ++ eng_poll_events K id engine_id j)).1 = 0) ∧
            (r = 0 ∨ r = -EBUSY))) ∧
    (O.nvgpu_platform_is_silicon = true →
      ∀ (tsgid pbdma_id m fuel : Nat) (g : gk20a),
        O.nvgpu_timeout_init (g.trace ++ [Event.poll_pbdma tsgid pbdma_id]) = 0 →
        (∀ i, i < m → pbdma_check_at O tsgid pbdma_id
          (g.trace ++ pbdma_poll_events K tsgid pbdma_id i) ≠ 0) →
        (∀ i, i < m → pbdma_expired_at K O pbdma_id i
          (g.trace ++ pbdma_poll_events K tsgid pbdma_id i) = 0) →
        gv11b_fifo_preempt_poll_pbdma K O (fuel + m) tsgid pbdma_id g =
          match gv11b_fifo_preempt_poll_pbdma_loop K O tsgid pbdma_id fuel (poll_delay K m)
              0 (-EBUSY) ⟨g.trace ++ pbdma_poll_events K tsgid pbdma_id m, g.fifo⟩ with
          | none => none
          | some (ret, g) => some (ret, g.emit (Event.poll_pbdma_ret pbdma_id ret))) ∧
    (O.nvgpu_platform_is_silicon = true →
      ∀ (id engine_id acc m fuel : Nat) (g : gk20a),
        O.nvgpu_timeout_init (g.trace ++ [Event.poll_eng id engine_id]) = 0 →
        (∀ i, i < m → (eng_check_at K O id engine_id acc
          (g.trace ++ eng_poll_events K id engine_id i)).1 ≠ 0) →
        (∀ i, i < m → eng_expired_at K O engine_id i
          (g.trace ++ eng_poll_events K id engine_id i) = 0) →
        gv11b_fifo_preempt_poll_eng K O (fuel + m) id engine_id acc g =
          match gv11b_fifo_preempt_poll_eng_loop K O id engine_id fuel (poll_delay K m)
              0 (-EBUSY) acc ⟨g.trace ++ eng_poll_events K id engine_id m, g.fifo⟩ with
          | none => none
          | some (ret, reset_eng_bitmask, g) =>
            if ret ≠ 0 then
              some (ret, reset_eng_bitmask ||| BIT32 engine_id,
                g.emit (Event.poll_eng_ret engine_id ret))
            else
              some (ret, reset_eng_bitmask, g.emit (Event.poll_eng_ret engine_id ret))) ∧
    (O.nvgpu_platform_is_silicon = true →
      ∀ (tsgid pbdma_id : Nat) (g : gk20a),
        O.nvgpu_timeout_init (g.trace ++ [Event.poll_pbdma tsgid pbdma_id]) = 0 →
        (∀ i, pbdma_check_at O tsgid pbdma_id
          (g.trace ++ pbdma_poll_events K tsgid pbdma_id i) ≠ 0) →
        (∀ i, pbdma_expired_at K O pbdma_id i
          (g.trace ++ pbdma_poll_events K tsgid pbdma_id i) = 0) →
        ∀ fuel, gv11b_fifo_preempt_poll_pbdma K O fuel tsgid pbdma_id g = none) ∧
    (O.nvgpu_platform_is_silicon = true →
      ∀ (id engine_id acc : Nat) (g : gk20a),
        O.nvgpu_timeout_init (g.trace ++ [Event.poll_eng id engine_id]) = 0 →
        (∀ i, (eng_check_at K O id engine_id acc
          (g.trace ++ eng_poll_events K id engine_id i)).1 ≠ 0) →
        (∀ i, eng_expired_at K O engine_id i
          (g.trace ++ eng_poll_events K id engine_id i) = 0) →
        ∀ fuel, gv11b_fifo_preempt_poll_eng K O fuel id engine_id acc g = none) ∧
    (gv11b_fifo_preempt_poll_eng sample_config (scenario_oracle true true true 9) 10 7 1 0
        ⟨[], sample_fifo 8 2 5⟩).map
      (fun x => (x.1, (x.2.2.trace.filter Event.is_sample).length)) = some (-EBUSY, 9) := by
  refine ⟨?_, ?_, ?_, ?_, ?_, ?_, by decide⟩
  · intro hs tsgid pbdma_id fuel g hfuel
    exact poll_pbdma_off_silicon K O tsgid pbdma_id fuel g hs hfuel
  · intro hs id engine_id acc fuel g hfuel
    exact poll_eng_off_silicon K O id engine_id acc fuel g hs hfuel
  · intro hs tsgid pbdma_id m fuel g hinit hb he
    have h := poll_pbdma_run K O tsgid pbdma_id m fuel g hinit hb he
      (fun h => by rw [hs] at h; cases h)
    have hc : (if O.nvgpu_platform_is_silicon = false then m else 0) = 0 := by
      rw [hs]; rfl
    rw [hc] at h
    exact h
  · intro hs id engine_id acc m fuel g hinit hb he
    have h := poll_eng_run K O id engine_id acc m fuel g hinit hb he
      (fun h => by rw [hs] at h; cases h)
    have hc : (if O.nvgpu_platform_is_silicon = false then m else 0) = 0 := by
      rw [hs]; rfl
    rw [hc] at h
    exact h
  · intro hs tsgid pbdma_id g hinit hb he fuel
    exact poll_pbdma_never_returns K O tsgid pbdma_id g hs hinit hb he fuel
  · intro hs id engine_id acc g hinit hb he fuel
    exact poll_eng_never_returns K O id engine_id acc g hs hinit hb he fuel

/-- Witness of C16: off silicon with everything stuck and a timeout that
never expires, the poll of PBDMA 3 with fuel 4 returns after at most 3
samples. -/
theorem poll_retry_ceiling_witness :
    ∃ (n : Nat) (r : Int) (evs : List Event),
      gv11b_fifo_preempt_poll_pbdma sample_config stuck_oracle 4 7 3 ⟨[], sample_fifo 8 2 5⟩ =
        some (r, ⟨[] ++ evs, sample_fifo 8 2 5⟩) ∧
      (evs.filter Event.is_sample).length = n ∧
      n ≤ sample_config.PREEMPT_PENDING_POLL_PRE_SI_RETRIES ∧
      (stuck_oracle.nvgpu_timeout_init ([] ++ [Event.poll_pbdma 7 3]) = 0 →
        ((∀ i, i < n → pbdma_check_at stuck_oracle 7 3
            ([] ++ pbdma_poll_events sample_config 7 3 i) ≠ 0) → r = -EBUSY) ∧
        (r = 0 → ∃ j, n = j + 1 ∧ pbdma_check_at stuck_oracle 7 3
            ([] ++ pbdma_poll_events sample_config 7 3 j) = 0) ∧
        (r = 0 ∨ r = -EBUSY)) :=
  (poll_retry_ceiling sample_config stuck_oracle).1 rfl 7 3 4 ⟨[], sample_fifo 8 2 5⟩
    (by decide)

/-! The PMU mutex -/

theorem poll_pbdma_loop_with_pmu_lock (K : Config) (O : Oracle) (a b : List Event → Int)
    (tsgid pbdma_id : Nat) :
    ∀ (fuel delay loop_count : Nat) (ret : Int) (g : gk20a),
      gv11b_fifo_preempt_poll_pbdma_loop K (O.with_pmu_lock a b) tsgid pbdma_id fuel delay
          loop_count ret g =
        gv11b_fifo_preempt_poll_pbdma_loop K O tsgid pbdma_id fuel delay loop_count ret g := by
  intro fuel
  induction fuel with
  | zero => intro delay lc ret g; rfl
  | succ fuel ih =>
    intro delay lc ret g
    simp only [gv11b_fifo_preempt_poll_pbdma_loop, ih]
    rfl

theorem poll_eng_loop_with_pmu_lock (K : Config) (O : Oracle) (a b : List Event → Int)
    (id engine_id : Nat) :
    ∀ (fuel delay loop_count : Nat) (ret : Int) (acc : Nat) (g : gk20a),
      gv11b_fifo_preempt_poll_eng_loop K (O.with_pmu_lock a b) id engine_id fuel delay
          loop_count ret acc g =
        gv11b_fifo_preempt_poll_eng_loop K O id engine_id fuel delay loop_count ret acc g := by
  intro fuel
  induction fuel with
  | zero => intro delay lc ret acc g; rfl
  | succ fuel ih =>
    intro delay lc ret acc g
    simp only [gv11b_fifo_preempt_poll_eng_loop, ih]
    rfl

theorem poll_pbdma_with_pmu_lock (K : Config) (O : Oracle) (a b : List Event → Int)
    (fuel tsgid pbdma_id : Nat) (g : gk20a) :
    gv11b_fifo_preempt_poll_pbdma K (O.with_pmu_lock a b) fuel tsgid pbdma_id g =
      gv11b_fifo_preempt_poll_pbdma K O fuel tsgid pbdma_id g := by
  simp only [gv11b_fifo_preempt_poll_pbdma, poll_pbdma_loop_with_pmu_lock]
  rfl

theorem poll_eng_with_pmu_lock (K : Config) (O : Oracle) (a b : List Event → Int)
    (fuel id engine_id acc : Nat) (g : gk20a) :
    gv11b_fifo_preempt_poll_eng K (O.with_pmu_lock a b) fuel id engine_id acc g =
      gv11b_fifo_preempt_poll_eng K O fuel id engine_id acc g := by
  simp only [gv11b_fifo_preempt_poll_eng, poll_eng_loop_with_pmu_lock]
  rfl

theorem gv11b_ops_with_pmu_lock (K : Config) (O : Oracle) (a b : List Event → Int)
    (fuel : Nat) :
    gv11b_ops K (O.with_pmu_lock a b) fuel = gv11b_ops K O fuel := by
  have hp : gv11b_fifo_is_preempt_pending_pbdma_body K (O.with_pmu_lock a b) fuel =
      gv11b_fifo_is_preempt_pending_pbdma_body K O fuel := by
    funext tsgid bit st
    simp only [gv11b_fifo_is_preempt_pending_pbdma_body, poll_pbdma_with_pmu_lock]
  have he : gv11b_fifo_is_preempt_pending_eng_body K (O.with_pmu_lock a b) fuel =
      gv11b_fifo_is_preempt_pending_eng_body K O fuel := by
    funext tsgid runlist_id bit st
    simp only [gv11b_fifo_is_preempt_pending_eng_body, poll_eng_with_pmu_lock]
  have hq : gv11b_fifo_is_preempt_pending K (O.with_pmu_lock a b) fuel =
      gv11b_fifo_is_preempt_pending K O fuel := by
    funext id id_type g
    simp only [gv11b_fifo_is_preempt_pending, hp, he]
  simp only [gv11b_ops, hq]

theorem filter_pmu_release_option (c : Prop) [Decidable c] :
    (if c then [Event.nvgpu_pmu_lock_release] else []).filter
      (fun e => !e.is_pmu_release) = [] := by
  split_ifs <;> rfl

theorem gv11b_fifo_preempt_tsg_with_pmu_lock (K : Config) (O : Oracle) (ops : gops_fifo)
    (tsg : nvgpu_tsg) (g : gk20a) (hrl : tsg.runlist_id ≠ K.NVGPU_INVALID_RUNLIST_ID)
    (a b : List Event → Int) :
    (gv11b_fifo_preempt_tsg K (O.with_pmu_lock a b) ops tsg g).map
        outcome_without_pmu_release =
      (gv11b_fifo_preempt_tsg K O ops tsg g).map outcome_without_pmu_release := by
  rw [gv11b_fifo_preempt_tsg_eq K O ops tsg g hrl,
    gv11b_fifo_preempt_tsg_eq K (O.with_pmu_lock a b) ops tsg g hrl,
    Option.map_map, Option.map_map]
  congr 1
  funext x
  simp only [Function.comp, outcome_without_pmu_release, List.filter_append,
    filter_pmu_release_option]
  rfl

theorem count_pmu_release_tail (c d : Prop) [Decidable c] [Decidable d] (tsgid runlist_id : Nat) :
    (((if c then [Event.nvgpu_pmu_lock_release] else []) ++
        [Event.nvgpu_tsg_enable_sched tsgid, Event.nvgpu_mutex_release runlist_id] ++
        (if d then [Event.nvgpu_rc_preempt_timeout tsgid] else [])).filter
      Event.is_pmu_release).length = if c then 1 else 0 := by
  by_cases hc : c <;> by_cases hd : d <;>
    simp [hc, hd, List.filter_cons, Event.is_pmu_release]

/-- C18: for every TSG with a valid runlist id, every platform `O` and every
replacement `a`, `b` of the behaviour of `nvgpu_pmu_lock_acquire` and
`nvgpu_pmu_lock_release` (so: whether the acquisition succeeds or fails and
whether the release succeeds or fails), `gv11b_fifo_preempt_tsg` returns in
the same cases, with the same return value, the same fifo and the same calls
other than `nvgpu_pmu_lock_release`, both for arbitrary HAL entries and for
the gv11b entries.  Whenever it returns, the trigger entry and then the poll
entry have been run and the value returned is the poll's; the calls made
after the poll contain `nvgpu_pmu_lock_release` exactly once if
`CONFIG_NVGPU_LS_PMU` is set and the acquisition returned 0, and not at all
otherwise; with the gv11b entries this is the count over the whole call.
The call is the poll entry run on the trigger entry's result, followed by
the release (under that condition), the scheduling enable, the runlist lock
release and the recovery call (after a non-zero result off silicon): it
returns exactly when the poll entry returns, and with the gv11b entries, off
silicon and with more fuel than the retry ceiling, it returns whatever the
PMU calls answer. -/
theorem gv11b_fifo_preempt_tsg_pmu_lock_not_fatal (K : Config) (O : Oracle)
    (ops : gops_fifo) (tsg : nvgpu_tsg) (g : gk20a)
    (hrl : tsg.runlist_id ≠ K.NVGPU_INVALID_RUNLIST_ID) :
    (∀ a b : List Event → Int,
      (gv11b_fifo_preempt_tsg K (O.with_pmu_lock a b) ops tsg g).map
          outcome_without_pmu_release =
        (gv11b_fifo_preempt_tsg K O ops tsg g).map outcome_without_pmu_release) ∧
    (∀ (a b : List Event → Int) (fuel : Nat),
      (gv11b_fifo_preempt_tsg K (O.with_pmu_lock a b)
          (gv11b_ops K (O.with_pmu_lock a b) fuel) tsg g).map outcome_without_pmu_release =
        (gv11b_fifo_preempt_tsg K O (gv11b_ops K O fuel) tsg g).map
          outcome_without_pmu_release) ∧
    (∀ ret g', gv11b_fifo_preempt_tsg K O ops tsg g = some (ret, g') →
      ∃ gp tail, ops.is_preempt_pending tsg.tsgid K.ID_TYPE_TSG
          (ops.preempt_trigger tsg.tsgid K.ID_TYPE_TSG
            ⟨g.trace ++ [Event.nvgpu_mutex_acquire tsg.runlist_id,
                Event.nvgpu_tsg_disable_sched tsg.tsgid] ++
              (if K.CONFIG_NVGPU_LS_PMU = true then [Event.nvgpu_pmu_lock_acquire] else []),
              g.fifo⟩) = some (ret, gp) ∧
        g'.trace = gp.trace ++ tail ∧
        (tail.filter Event.is_pmu_release).length =
          if K.CONFIG_NVGPU_LS_PMU = true ∧
              O.nvgpu_pmu_lock_acquire (g.trace ++
                [Event.nvgpu_mutex_acquire tsg.runlist_id,
                  Event.nvgpu_tsg_disable_sched tsg.tsgid]) = 0
            then 1 else 0) ∧
    (∀ fuel ret g',
      gv11b_fifo_preempt_tsg K O (gv11b_ops K O fuel) tsg g = some (ret, g') →
      ∃ evs, g'.trace = g.trace ++ evs ∧
        Event.nvgpu_writel K.fifo_preempt_r
          (K.fifo_preempt_id_f tsg.tsgid ||| K.fifo_preempt_type_tsg_f) ∈ evs ∧
        (evs.filter Event.is_pmu_release).length =
          if K.CONFIG_NVGPU_LS_PMU = true ∧
              O.nvgpu_pmu_lock_acquire (g.trace ++
                [Event.nvgpu_mutex_acquire tsg.runlist_id,
                  Event.nvgpu_tsg_disable_sched tsg.tsgid]) = 0
            then 1 else 0) ∧
    (gv11b_fifo_preempt_tsg K O ops tsg g =
      (ops.is_preempt_pending tsg.tsgid K.ID_TYPE_TSG
        (ops.preempt_trigger tsg.tsgid K.ID_TYPE_TSG
          ⟨g.trace ++ [Event.nvgpu_mutex_acquire tsg.runlist_id,
              Event.nvgpu_tsg_disable_sched tsg.tsgid] ++
            (if K.CONFIG_NVGPU_LS_PMU = true then [Event.nvgpu_pmu_lock_acquire] else []),
            g.fifo⟩)).map
        (fun x => (x.1,
          ⟨x.2.trace ++
            (if K.CONFIG_NVGPU_LS_PMU = true ∧
                O.nvgpu_pmu_lock_acquire (g.trace ++
                  [Event.nvgpu_mutex_acquire tsg.runlist_id,
                    Event.nvgpu_tsg_disable_sched tsg.tsgid]) = 0
              then [Event.nvgpu_pmu_lock_release] else []) ++
            [Event.nvgpu_tsg_enable_sched tsg.tsgid,
              Event.nvgpu_mutex_release tsg.runlist_id] ++
            (if x.1 ≠ 0 ∧ O.nvgpu_platform_is_silicon = false
              then [Event.nvgpu_rc_preempt_timeout tsg.tsgid] else []),
            x.2.fifo⟩))) ∧
    ((gv11b_fifo_preempt_tsg K O ops tsg g).isSome =
      (ops.is_preempt_pending tsg.tsgid K.ID_TYPE_TSG
        (ops.preempt_trigger tsg.tsgid K.ID_TYPE_TSG
          ⟨g.trace ++ [Event.nvgpu_mutex_acquire tsg.runlist_id,
              Event.nvgpu_tsg_disable_sched tsg.tsgid] ++
            (if K.CONFIG_NVGPU_LS_PMU = true then [Event.nvgpu_pmu_lock_acquire] else []),
            g.fifo⟩)).isSome) ∧
    (∀ (a b : List Event → Int) (fuel : Nat),
      O.nvgpu_platform_is_silicon = false →
      K.PREEMPT_PENDING_POLL_PRE_SI_RETRIES < fuel →
      (gv11b_fifo_preempt_tsg K (O.with_pmu_lock a b)
        (gv11b_ops K (O.with_pmu_lock a b) fuel) tsg g).isSome = true) := by
  refine ⟨?_, ?_, ?_, ?_, gv11b_fifo_preempt_tsg_eq K O ops tsg g hrl, ?_, ?_⟩
  rotate_left 4
  · rw [gv11b_fifo_preempt_tsg_eq K O ops tsg g hrl, Option.isSome_map']
  · intro a b fuel hs hfuel
    have hs2 : (O.with_pmu_lock a b).nvgpu_platform_is_silicon = false := hs
    rw [gv11b_fifo_preempt_tsg_eq K (O.with_pmu_lock a b) _ tsg g hrl, Option.isSome_map']
    exact gv11b_fifo_is_preempt_pending_returns K (O.with_pmu_lock a b) fuel _ _ _
      (fun t p g1 => poll_pbdma_returns K _ fuel t p g1 hs2 hfuel)
      (fun t e acc g1 => poll_eng_returns K _ fuel t e acc g1 hs2 hfuel)
  · intro a b
    exact gv11b_fifo_preempt_tsg_with_pmu_lock K O ops tsg g hrl a b
  · intro a b fuel
    rw [gv11b_ops_with_pmu_lock]
    exact gv11b_fifo_preempt_tsg_with_pmu_lock K O _ tsg g hrl a b
  · intro ret g' h
    obtain ⟨gp, hx, -, ht⟩ := gv11b_fifo_preempt_tsg_some K O ops tsg g hrl ret g' h
    refine ⟨gp, (if K.CONFIG_NVGPU_LS_PMU = true ∧
            O.nvgpu_pmu_lock_acquire (g.trace ++
              [Event.nvgpu_mutex_acquire tsg.runlist_id,
                Event.nvgpu_tsg_disable_sched tsg.tsgid]) = 0
          then [Event.nvgpu_pmu_lock_release] else []) ++
        [Event.nvgpu_tsg_enable_sched tsg.tsgid,
          Event.nvgpu_mutex_release tsg.runlist_id] ++
        (if ret ≠ 0 ∧ O.nvgpu_platform_is_silicon = false
          then [Event.nvgpu_rc_preempt_timeout tsg.tsgid] else []),
      hx, by rw [ht]; simp only [List.append_assoc], ?_⟩
    exact count_pmu_release_tail _ _ tsg.tsgid tsg.runlist_id
  · intro fuel ret g' h
    obtain ⟨evs, hall, ht⟩ := gv11b_fifo_preempt_tsg_gv11b_trace K O fuel tsg g hrl ret g' h
    have hfl : evs.filter Event.is_pmu_release = [] := by
      rw [List.filter_eq_nil_iff]
      intro e he
      have := hall e he
      cases e <;> simp_all [Event.is_poll_event, Event.is_poll_call, Event.is_poll_ret,
        Event.is_poll_internal, Event.is_pmu_release]
    have htail := count_pmu_release_tail (K.CONFIG_NVGPU_LS_PMU = true ∧
        O.nvgpu_pmu_lock_acquire (g.trace ++
          [Event.nvgpu_mutex_acquire tsg.runlist_id,
            Event.nvgpu_tsg_disable_sched tsg.tsgid]) = 0)
      (ret ≠ 0 ∧ O.nvgpu_platform_is_silicon = false) tsg.tsgid tsg.runlist_id
    refine ⟨[Event.nvgpu_mutex_acquire tsg.runlist_id,
          Event.nvgpu_tsg_disable_sched tsg.tsgid] ++
        (if K.CONFIG_NVGPU_LS_PMU = true then [Event.nvgpu_pmu_lock_acquire] else []) ++
        [Event.nvgpu_writel K.fifo_preempt_r
          (K.fifo_preempt_id_f tsg.tsgid ||| K.fifo_preempt_type_tsg_f)] ++ evs ++
        ((if K.CONFIG_NVGPU_LS_PMU = true ∧
            O.nvgpu_pmu_lock_acquire (g.trace ++
              [Event.nvgpu_mutex_acquire tsg.runlist_id,
                Event.nvgpu_tsg_disable_sched tsg.tsgid]) = 0
          then [Event.nvgpu_pmu_lock_release] else []) ++
        [Event.nvgpu_tsg_enable_sched tsg.tsgid,
          Event.nvgpu_mutex_release tsg.runlist_id] ++
        (if ret ≠ 0 ∧ O.nvgpu_platform_is_silicon = false
          then [Event.nvgpu_rc_preempt_timeout tsg.tsgid] else [])),
      by rw [ht]; simp only [List.append_assoc], by simp, ?_⟩
    rw [List.filter_append, List.length_append, htail]
    have hpre : (([Event.nvgpu_mutex_acquire tsg.runlist_id,
          Event.nvgpu_tsg_disable_sched tsg.tsgid] ++
        (if K.CONFIG_NVGPU_LS_PMU = true then [Event.nvgpu_pmu_lock_acquire] else []) ++
        [Event.nvgpu_writel K.fifo_preempt_r
          (K.fifo_preempt_id_f tsg.tsgid ||| K.fifo_preempt_type_tsg_f)] ++ evs).filter
        Event.is_pmu_release).length = 0 := by
      simp only [List.filter_append, hfl]
      split_ifs <;> simp [List.filter_cons, Event.is_pmu_release]
    rw [hpre, Nat.zero_add]

/-- Witness of C18: TSG 7 on runlist 2 off silicon; PBDMA 3 and engine 1
are confirmed evicted.  With the PMU mutex granted the call returns 0 after
one preempt register write and one `nvgpu_pmu_lock_release`; with the
acquisition failing with -16 (and a release that would fail with -5) it
returns 0 after the same write and no release; the two runs have the same
return value, fifo and other calls. -/
theorem gv11b_fifo_preempt_tsg_pmu_lock_not_fatal_witness :
    (gv11b_fifo_preempt_tsg sample_config (scenario_oracle false true false 2)
        (gv11b_ops sample_config (scenario_oracle false true false 2) 4) ⟨7, 2⟩
        ⟨[], sample_fifo 8 2 5⟩).map
      (fun x => (x.1, x.2.trace.count (Event.nvgpu_writel 0x2634 0x1000007),
        (x.2.trace.filter Event.is_poll_call).length,
        (x.2.trace.filter Event.is_pmu_release).length)) = some (0, 1, 2, 1) ∧
    (gv11b_fifo_preempt_tsg sample_config
        ((scenario_oracle false true false 2).with_pmu_lock (fun _ => -16) (fun _ => -5))
        (gv11b_ops sample_config
          ((scenario_oracle false true false 2).with_pmu_lock (fun _ => -16) (fun _ => -5)) 4)
        ⟨7, 2⟩ ⟨[], sample_fifo 8 2 5⟩).map
      (fun x => (x.1, x.2.trace.count (Event.nvgpu_writel 0x2634 0x1000007),
        (x.2.trace.filter Event.is_poll_call).length,
        (x.2.trace.filter Event.is_pmu_release).length)) = some (0, 1, 2, 0) ∧
    (gv11b_fifo_preempt_tsg sample_config
          ((scenario_oracle false true false 2).with_pmu_lock (fun _ => -16) (fun _ => -5))
          (gv11b_ops sample_config
            ((scenario_oracle false true false 2).with_pmu_lock (fun _ => -16) (fun _ => -5))
            4) ⟨7, 2⟩ ⟨[], sample_fifo 8 2 5⟩).map outcome_without_pmu_release =
      (gv11b_fifo_preempt_tsg sample_config (scenario_oracle false true false 2)
          (gv11b_ops sample_config (scenario_oracle false true false 2) 4)
          ⟨7, 2⟩ ⟨[], sample_fifo 8 2 5⟩).map outcome_without_pmu_release :=
  ⟨by decide, by decide,
    (gv11b_fifo_preempt_tsg_pmu_lock_not_fatal sample_config (scenario_oracle false true false 2)
      (gv11b_ops sample_config (scenario_oracle false true false 2) 4) ⟨7, 2⟩
      ⟨[], sample_fifo 8 2 5⟩ (by decide)).2.1 (fun _ => -16) (fun _ => -5) 4⟩

/-! The accumulator of the engine poll -/

theorem fifo_check_eng_intr_pending_or (K : Config) (id eng_stat ctx_stat
    eng_intr_pending engine_id a c : Nat) :
    fifo_check_eng_intr_pending K id eng_stat ctx_stat eng_intr_pending engine_id (a ||| c) =
      ((fifo_check_eng_intr_pending K id eng_stat ctx_stat eng_intr_pending engine_id c).1,
        a ||| (fifo_check_eng_intr_pending K id eng_stat ctx_stat eng_intr_pending
          engine_id c).2) := by
  unfold fifo_check_eng_intr_pending
  split_ifs <;> simp [Nat.lor_assoc]

theorem poll_eng_loop_or (K : Config) (O : Oracle) (id engine_id a : Nat) :
    ∀ (fuel delay loop_count : Nat) (ret : Int) (c : Nat) (g : gk20a),
      gv11b_fifo_preempt_poll_eng_loop K O id engine_id fuel delay loop_count ret (a ||| c) g =
        (gv11b_fifo_preempt_poll_eng_loop K O id engine_id fuel delay loop_count ret c g).map
          (fun x => (x.1, a ||| x.2.1, x.2.2)) := by
  intro fuel
  induction fuel with
  | zero => intro delay lc ret c g; rfl
  | succ fuel ih =>
    intro delay lc ret c g
    simp only [gv11b_fifo_preempt_poll_eng_loop, fifo_check_eng_intr_pending_or]
    split_ifs <;> first | rfl | exact ih _ _ _ _ _

theorem poll_eng_or (K : Config) (O : Oracle) (fuel id engine_id acc : Nat) (g : gk20a) :
    gv11b_fifo_preempt_poll_eng K O fuel id engine_id acc g =
      (gv11b_fifo_preempt_poll_eng K O fuel id engine_id 0 g).map
        (fun x => (x.1, acc ||| x.2.1, x.2.2)) := by
  simp only [gv11b_fifo_preempt_poll_eng]
  by_cases h1 : O.nvgpu_timeout_init (g.emit (Event.poll_eng id engine_id)).trace ≠ 0
  · rw [if_pos h1, if_pos h1]
    simp
  · rw [if_neg h1, if_neg h1]
    have h := poll_eng_loop_or K O id engine_id acc fuel K.POLL_DELAY_MIN_US 0 (-EBUSY) 0
      ((g.emit (Event.poll_eng id engine_id)).emit Event.nvgpu_timeout_init)
    rw [Nat.or_zero] at h
    rw [h]
    cases gv11b_fifo_preempt_poll_eng_loop K O id engine_id fuel K.POLL_DELAY_MIN_US 0
        (-EBUSY) 0 ((g.emit (Event.poll_eng id engine_id)).emit Event.nvgpu_timeout_init) with
    | none => rfl
    | some x =>
      obtain ⟨r1, c1, g1⟩ := x
      simp only [Option.map_some']
      by_cases h2 : r1 ≠ 0
      · simp only [if_pos h2, Option.map_some', Nat.lor_assoc]
      · simp only [if_neg h2, Option.map_some']

theorem poll_eng_loop_fifo (K : Config) (O : Oracle) (id engine_id : Nat) :
    ∀ (fuel delay loop_count : Nat) (ret : Int) (acc : Nat) (tr : List Event)
      (f f' : nvgpu_fifo),
      gv11b_fifo_preempt_poll_eng_loop K O id engine_id fuel delay loop_count ret acc
          ⟨tr, f'⟩ =
        (gv11b_fifo_preempt_poll_eng_loop K O id engine_id fuel delay loop_count ret acc
          ⟨tr, f⟩).map (fun x => (x.1, x.2.1, ⟨x.2.2.trace, f'⟩)) := by
  intro fuel
  induction fuel with
  | zero => intro delay lc ret acc tr f f'; simp [gv11b_fifo_preempt_poll_eng_loop]
  | succ fuel ih =>
    intro delay lc ret acc tr f f'
    simp only [gv11b_fifo_preempt_poll_eng_loop, gk20a.emit]
    split_ifs <;> first | rfl | exact ih _ _ _ _ _ _ _

theorem poll_eng_fifo (K : Config) (O : Oracle) (fuel id engine_id acc : Nat)
    (tr : List Event) (f f' : nvgpu_fifo) :
    gv11b_fifo_preempt_poll_eng K O fuel id engine_id acc ⟨tr, f'⟩ =
      (gv11b_fifo_preempt_poll_eng K O fuel id engine_id acc ⟨tr, f⟩).map
        (fun x => (x.1, x.2.1, ⟨x.2.2.trace, f'⟩)) := by
  simp only [gv11b_fifo_preempt_poll_eng, gk20a.emit]
  by_cases h1 : O.nvgpu_timeout_init (tr ++ [Event.poll_eng id engine_id]) ≠ 0
  · rw [if_pos h1, if_pos h1]
    rfl
  · rw [if_neg h1, if_neg h1]
    rw [poll_eng_loop_fifo K O id engine_id fuel _ _ _ _ _ f f']
    cases gv11b_fifo_preempt_poll_eng_loop K O id engine_id fuel K.POLL_DELAY_MIN_US 0
      (-EBUSY) acc ⟨tr ++ [Event.poll_eng id engine_id] ++ [Event.nvgpu_timeout_init], f⟩ with
    | none => rfl
    | some x =>
      obtain ⟨r1, c1, g1⟩ := x
      simp only [Option.map_some']
      split_ifs <;> rfl

theorem eng_loop_confirming_sample (K : Config) (O : Oracle) (id engine_id : Nat) :
    ∀ (fuel j loop_count : Nat) (ret : Int) (acc : Nat) (g : gk20a) (r : Int) (acc' : Nat)
      (g' : gk20a),
      gv11b_fifo_preempt_poll_eng_loop K O id engine_id fuel (poll_delay K j)
          loop_count ret acc g = some (r, acc', g') →
      (∃ n, g'.trace = g.trace ++ eng_busy_iterations K engine_id j n ++
            [Event.nvgpu_readl (K.fifo_engine_status_r engine_id),
              Event.is_stall_and_eng_intr_pending engine_id] ∧
          eng_check_at K O id engine_id acc
            (g.trace ++ eng_busy_iterations K engine_id j n) = (0, acc') ∧ r = 0) ∨
        (acc' = acc ∧ (r = ret ∨ r = -EBUSY)) := by
  intro fuel
  induction fuel with
  | zero =>
    intro j lc ret acc g r acc' g' h
    simp [gv11b_fifo_preempt_poll_eng_loop] at h
  | succ fuel ih =>
    intro j lc ret acc g r acc' g' h
    obtain ⟨tr, f⟩ := g
    by_cases hc : O.nvgpu_platform_is_silicon = false ∧
        K.PREEMPT_PENDING_POLL_PRE_SI_RETRIES ≤ lc
    · rw [eng_loop_step_ceiling K O id engine_id fuel _ lc ret acc _ hc] at h
      cases h
      exact Or.inr ⟨rfl, Or.inl rfl⟩
    · by_cases hb : (eng_check_at K O id engine_id acc tr).1 = 0
      · rw [eng_loop_step_confirm K O id engine_id fuel _ lc ret acc tr f hc hb] at h
        cases h
        refine Or.inl ⟨0, by simp [eng_busy_iterations], ?_, rfl⟩
        simp only [eng_busy_iterations, List.append_nil]
        exact Prod.ext hb rfl
      · by_cases he : eng_expired_at K O engine_id j tr = 0
        · rw [eng_loop_step_busy K O id engine_id fuel j lc ret acc tr f hc hb he] at h
          rcases ih _ _ _ _ _ _ _ _ h with ⟨n, ht, hchk, hr⟩ | ⟨ha, hr⟩
          · refine Or.inl ⟨n + 1, ?_, ?_, hr⟩
            · rw [ht]; simp [eng_busy_iterations, List.append_assoc]
            · simpa [eng_busy_iterations, List.append_assoc] using hchk
          · refine Or.inr ⟨ha, ?_⟩
            rcases hr with hr | hr <;> exact Or.inr hr
        · rw [eng_loop_step_expire K O id engine_id fuel j lc ret acc tr f hc hb he] at h
          cases h
          exact Or.inr ⟨rfl, Or.inr rfl⟩

theorem eng_check_at_bits (K : Config) (O : Oracle) (id engine_id acc : Nat)
    (tr : List Event)
    (h : (eng_check_at K O id engine_id acc tr).2 ≠ acc) :
    (eng_check_at K O id engine_id acc tr).2 = acc ||| BIT32 engine_id ∧
      (O.is_stall_and_eng_intr_pending
        (tr ++ [Event.nvgpu_readl (K.fifo_engine_status_r engine_id)]) engine_id).2 ≠ 0 := by
  unfold eng_check_at at h ⊢
  rcases fifo_check_eng_intr_pending_acc K id
    (O.nvgpu_readl tr (K.fifo_engine_status_r engine_id))
    (K.fifo_engine_status_ctx_status_v
      (O.nvgpu_readl tr (K.fifo_engine_status_r engine_id)))
    (O.is_stall_and_eng_intr_pending
      (tr ++ [Event.nvgpu_readl (K.fifo_engine_status_r engine_id)]) engine_id).2
    engine_id acc with h1 | ⟨-, hp, h1⟩
  · exact absurd h1 h
  · exact ⟨h1, hp⟩

theorem poll_eng_outcome (K : Config) (O : Oracle) (fuel id engine_id acc : Nat)
    (g : gk20a) (r : Int) (acc' : Nat) (g' : gk20a)
    (h : gv11b_fifo_preempt_poll_eng K O fuel id engine_id acc g = some (r, acc', g')) :
    (O.nvgpu_timeout_init (g.trace ++ [Event.poll_eng id engine_id]) ≠ 0 →
      r = O.nvgpu_timeout_init (g.trace ++ [Event.poll_eng id engine_id]) ∧ acc' = acc) ∧
    (O.nvgpu_timeout_init (g.trace ++ [Event.poll_eng id engine_id]) = 0 → r ≠ 0 →
      r = -EBUSY ∧ acc' = acc ||| BIT32 engine_id) ∧
    (r = 0 → ∃ m,
      g'.trace = g.trace ++ (eng_poll_events K id engine_id m ++
        [Event.nvgpu_readl (K.fifo_engine_status_r engine_id),
          Event.is_stall_and_eng_intr_pending engine_id,
          Event.poll_eng_ret engine_id 0]) ∧
      eng_check_at K O id engine_id acc (g.trace ++ eng_poll_events K id engine_id m) =
        (0, acc')) := by
  simp only [gv11b_fifo_preempt_poll_eng] at h
  have hemit : (g.emit (Event.poll_eng id engine_id)).trace =
      g.trace ++ [Event.poll_eng id engine_id] := rfl
  rw [hemit] at h
  by_cases h1 : O.nvgpu_timeout_init (g.trace ++ [Event.poll_eng id engine_id]) ≠ 0
  · rw [if_pos h1] at h
    cases h
    exact ⟨fun _ => ⟨rfl, rfl⟩, fun h0 => absurd h0 h1, fun h0 => absurd h0 h1⟩
  · rw [if_neg h1] at h
    cases hl : gv11b_fifo_preempt_poll_eng_loop K O id engine_id fuel K.POLL_DELAY_MIN_US 0
        (-EBUSY) acc
        ((g.emit (Event.poll_eng id engine_id)).emit Event.nvgpu_timeout_init) with
    | none => rw [hl] at h; cases h
    | some x =>
      obtain ⟨r1, acc1, g1⟩ := x
      rw [hl] at h
      have hl0 : gv11b_fifo_preempt_poll_eng_loop K O id engine_id fuel
          (poll_delay K 0) 0 (-EBUSY) acc
          ((g.emit (Event.poll_eng id engine_id)).emit Event.nvgpu_timeout_init) =
          some (r1, acc1, g1) := hl
      have hne : (-EBUSY : Int) ≠ 0 := by decide
      have hsh := eng_loop_confirming_sample K O id engine_id _ _ _ _ _ _ _ _ _ hl0
      by_cases h2 : r1 ≠ 0
      · simp only [if_pos h2] at h
        cases h
        refine ⟨fun h0 => absurd h0 h1, fun _ _ => ?_, fun h0 => absurd h0 h2⟩
        rcases hsh with ⟨n, -, -, hr⟩ | ⟨ha, hr⟩
        · exact absurd hr h2
        · rw [ha]
          rcases hr with hr | hr <;> exact ⟨hr, rfl⟩
      · simp only [if_neg h2] at h
        cases h
        have hr0 : r = 0 := not_not.1 h2
        refine ⟨fun h0 => absurd h0 h1, fun _ hr => absurd hr0 hr, fun _ => ?_⟩
        rcases hsh with ⟨n, ht, hchk, -⟩ | ⟨-, hr⟩
        · refine ⟨n, ?_, ?_⟩
          · simp only [gk20a.emit, ht, eng_poll_events, hr0, List.append_assoc]
            rfl
          · simpa [gk20a.emit, eng_poll_events, List.append_assoc] using hchk
        · rcases hr with hr | hr
          · exact absurd (hr0 ▸ hr).symm hne
          · exact absurd (hr0 ▸ hr).symm hne

/-! The engine polls of one invocation -/

theorem foldl_or_init (l : List Nat) :
    ∀ a : Nat, l.foldl (fun a b => a ||| b) a = a ||| l.foldl (fun a b => a ||| b) 0 := by
  induction l with
  | nil => intro a; simp
  | cons b l ih =>
    intro a
    simp only [List.foldl_cons, Nat.zero_or]
    rw [ih (a ||| b), ih b, Nat.lor_assoc]

theorem or_all_cons (b : Nat) (l : List Nat) : or_all (b :: l) = b ||| or_all l := by
  unfold or_all
  simp only [List.foldl_cons, Nat.zero_or]
  exact foldl_or_init l b

theorem or_all_testBit (l : List Nat) (i : Nat) :
    (or_all l).testBit i = true ↔ ∃ x ∈ l, x.testBit i = true := by
  induction l with
  | nil => simp [or_all]
  | cons b l ih =>
    rw [or_all_cons, Nat.testBit_or, Bool.or_eq_true, ih]
    simp

theorem eng_poll_records_poll (K : Config) (O : Oracle) (fuel id : Nat) (f : nvgpu_fifo) :
    ∀ (l : List Nat) (tr : List Event) (rec : eng_poll_record),
      rec ∈ eng_poll_records K O fuel id f l tr →
      rec.engine_id ∈ l ∧
      gv11b_fifo_preempt_poll_eng K O fuel id rec.engine_id 0 ⟨rec.entry, f⟩ =
        some (rec.ret, rec.bits, ⟨rec.exit, f⟩) := by
  intro l
  induction l with
  | nil =>
    intro tr rec h
    simp [eng_poll_records] at h
  | cons e l ih =>
    intro tr rec h
    simp only [eng_poll_records] at h
    cases hp : gv11b_fifo_preempt_poll_eng K O fuel id e 0 ⟨tr, f⟩ with
    | none => rw [hp] at h; simp at h
    | some x =>
      obtain ⟨r, bits, g1⟩ := x
      rw [hp] at h
      rcases List.mem_cons.1 h with h | h
      · subst h
        have hf := (poll_eng_trace K O fuel id e 0 ⟨tr, f⟩ r bits g1 hp).1
        obtain ⟨tr1, f1⟩ := g1
        simp only at hf
        subst hf
        exact ⟨List.mem_cons_self _ _, hp⟩
      · obtain ⟨h1, h2⟩ := ih _ _ h
        exact ⟨List.mem_cons_of_mem _ h1, h2⟩

theorem eng_phase_records (K : Config) (O : Oracle) (fuel tsgid runlist_id : Nat)
    (f0 : nvgpu_fifo) :
    ∀ (l : List Nat) (ret : Int) (g : gk20a) (ret' : Int) (g' : gk20a),
      poll_each (gv11b_fifo_is_preempt_pending_eng_body K O fuel tsgid runlist_id) l
          (ret, g) = some (ret', g') →
      (eng_poll_records K O fuel tsgid f0 l g.trace).map (fun rec => rec.engine_id) = l ∧
        (g'.fifo.runlist runlist_id).reset_eng_bitmask =
          (g.fifo.runlist runlist_id).reset_eng_bitmask |||
            or_all ((eng_poll_records K O fuel tsgid f0 l g.trace).map (fun rec => rec.bits)) ∧
        (∀ rec ∈ eng_poll_records K O fuel tsgid f0 l g.trace,
          ∃ pre post, rec.entry = g.trace ++ pre ∧ g'.trace = rec.exit ++ post) := by
  intro l
  induction l with
  | nil =>
    intro ret g ret' g' h
    simp only [poll_each] at h
    cases h
    simp [eng_poll_records, or_all]
  | cons b bs ih =>
    intro ret g ret' g' h
    obtain ⟨tr, f⟩ := g
    simp only [poll_each, gv11b_fifo_is_preempt_pending_eng_body] at h
    rw [poll_eng_or, poll_eng_fifo K O fuel tsgid b 0 tr f0 f] at h
    cases hp : gv11b_fifo_preempt_poll_eng K O fuel tsgid b 0 ⟨tr, f0⟩ with
    | none => rw [hp] at h; cases h
    | some x =>
      obtain ⟨r, bits, g1⟩ := x
      rw [hp] at h
      simp only [Option.map_some'] at h
      obtain ⟨-, ⟨evs1, ht1, -⟩, -, -⟩ := poll_eng_trace K O fuel tsgid b 0 _ r bits g1 hp
      simp only at ht1
      obtain ⟨hmap, hres, hrec⟩ := ih _ _ _ _ h
      obtain ⟨-, evs2, -, ht2, -⟩ := eng_phase_trace K O fuel tsgid runlist_id _ _ _ _ _ h
      have htr : ((⟨g1.trace, f⟩ : gk20a).set_reset_eng_bitmask runlist_id
          ((nvgpu_fifo.runlist f runlist_id).reset_eng_bitmask ||| bits)).trace = g1.trace := rfl
      rw [htr] at hmap hres hrec ht2
      rw [set_reset_eng_bitmask_read] at hres
      have hrecs : eng_poll_records K O fuel tsgid f0 (b :: bs) tr =
          ⟨b, tr, r, bits, g1.trace⟩ :: eng_poll_records K O fuel tsgid f0 bs g1.trace := by
        simp only [eng_poll_records, hp]
      rw [hrecs]
      refine ⟨by simp [hmap], ?_, ?_⟩
      · rw [hres, List.map_cons, or_all_cons, Nat.lor_assoc]
      · intro rec hmem
        rcases List.mem_cons.1 hmem with hmem | hmem
        · subst hmem
          exact ⟨[], evs2, by simp, ht2⟩
        · obtain ⟨pre, post, h1, h2⟩ := hrec rec hmem
          refine ⟨(Event.poll_eng tsgid b :: evs1) ++ [Event.poll_eng_ret b r] ++ pre, post,
            ?_, h2⟩
          rw [h1, ht1]
          simp

theorem or_all_eq_zero (l : List Nat) (h : ∀ x ∈ l, x = 0) : or_all l = 0 := by
  induction l with
  | nil => rfl
  | cons b l ih =>
    rw [or_all_cons, h b (List.mem_cons_self _ _),
      ih (fun x hx => h x (List.mem_cons_of_mem _ hx))]
    rfl

theorem BIT32_testBit (e i : Nat) : (BIT32 e).testBit i = true ↔ i = e ∧ i < 32 := by
  unfold BIT32
  rw [Nat.one_shiftLeft, Nat.testBit_mod_two_pow, Nat.testBit_two_pow]
  simp only [Bool.and_eq_true, decide_eq_true_eq]
  constructor
  · rintro ⟨h1, h2⟩
    exact ⟨h2.symm, h1⟩
  · rintro ⟨h1, h2⟩
    exact ⟨h2, h1.symm⟩

/-- C5: the value of the runlist's `reset_eng_bitmask` when
`gv11b_fifo_is_preempt_pending` returns does not depend on the value it held
on entry (the whole outcome is the same for any two entry values).  The PBDMA
polls leave the fifo as it is, and the value on return is exactly the bitwise
OR, starting from 0, of the bits contributed by the engine polls of this
invocation: one poll for each set bit of `eng_bitmask` below `max_engines`,
in order, each a segment of the trace of the call.  The bits of a poll are 0
or `BIT32` of its engine: 0 when `nvgpu_timeout_init` failed; `BIT32` of the
engine when the poll returned non-zero after the timeout was initialised
(timeout or retry ceiling, return code `-EBUSY`); and when the poll returned
0, the bits computed by `fifo_check_eng_intr_pending` on the last status
sample of that poll, which are non-zero only if that sample found an
interrupt pending.  Hence every set bit of the value is the bit of a polled
engine below 32 whose poll contributed it, every polled engine below 32
whose poll contributed its bit has it set, and the value is 0 when every
engine poll returned 0 and its last sample found no interrupt pending.  Off
silicon the call returns whenever the fuel exceeds the retry ceiling.  The
bits contributed by a poll are well defined: a poll entered with accumulator
`acc` on any fifo returns the code and trace of the poll entered with 0, and
`acc` OR the bits that poll returns. -/
theorem gv11b_fifo_is_preempt_pending_reset_eng_bitmask (K : Config) (O : Oracle)
    (fuel id id_type : Nat) (g : gk20a) :
    (∀ v w,
      gv11b_fifo_is_preempt_pending K O fuel id id_type
          (g.set_reset_eng_bitmask (resolve_runlist_id K g.fifo id id_type) v) =
        gv11b_fifo_is_preempt_pending K O fuel id id_type
          (g.set_reset_eng_bitmask (resolve_runlist_id K g.fifo id id_type) w)) ∧
    (∀ r g', gv11b_fifo_is_preempt_pending K O fuel id id_type g = some (r, g') →
      ∃ (evs1 : List Event) (r1 : Int) (recs : List eng_poll_record),
        poll_each
            (gv11b_fifo_is_preempt_pending_pbdma_body K O fuel
              (resolve_tsgid K g.fifo id id_type))
            (set_bits (g.fifo.runlist (resolve_runlist_id K g.fifo id id_type)).pbdma_bitmask
              g.fifo.num_pbdma) (0, g) = some (r1, ⟨g.trace ++ evs1, g.fifo⟩) ∧
        recs = eng_poll_records K O fuel (resolve_tsgid K g.fifo id id_type) g.fifo
          (set_bits (g.fifo.runlist (resolve_runlist_id K g.fifo id id_type)).eng_bitmask
            g.fifo.max_engines) (g.trace ++ evs1) ∧
        recs.map (fun rec => rec.engine_id) =
          set_bits (g.fifo.runlist (resolve_runlist_id K g.fifo id id_type)).eng_bitmask
            g.fifo.max_engines ∧
        (g'.fifo.runlist (resolve_runlist_id K g.fifo id id_type)).reset_eng_bitmask =
          or_all (recs.map (fun rec => rec.bits)) ∧
        (∀ rec ∈ recs,
          (∃ pre post, rec.entry = g.trace ++ evs1 ++ pre ∧ g'.trace = rec.exit ++ post) ∧
          gv11b_fifo_preempt_poll_eng K O fuel (resolve_tsgid K g.fifo id id_type)
              rec.engine_id 0 ⟨rec.entry, g.fifo⟩ =
            some (rec.ret, rec.bits, ⟨rec.exit, g.fifo⟩) ∧
          (rec.bits = 0 ∨ rec.bits = BIT32 rec.engine_id) ∧
          (O.nvgpu_timeout_init (rec.entry ++
              [Event.poll_eng (resolve_tsgid K g.fifo id id_type) rec.engine_id]) ≠ 0 →
            rec.bits = 0) ∧
          (O.nvgpu_timeout_init (rec.entry ++
              [Event.poll_eng (resolve_tsgid K g.fifo id id_type) rec.engine_id]) = 0 →
            rec.ret ≠ 0 → rec.ret = -EBUSY ∧ rec.bits = BIT32 rec.engine_id) ∧
          (rec.ret = 0 → ∃ m,
            rec.exit = rec.entry ++
              (eng_poll_events K (resolve_tsgid K g.fifo id id_type) rec.engine_id m ++
                [Event.nvgpu_readl (K.fifo_engine_status_r rec.engine_id),
                  Event.is_stall_and_eng_intr_pending rec.engine_id,
                  Event.poll_eng_ret rec.engine_id 0]) ∧
            eng_check_at K O (resolve_tsgid K g.fifo id id_type) rec.engine_id 0
                (rec.entry ++
                  eng_poll_events K (resolve_tsgid K g.fifo id id_type) rec.engine_id m) =
              (0, rec.bits) ∧
            (rec.bits ≠ 0 →
              (O.is_stall_and_eng_intr_pending (rec.entry ++
                eng_poll_events K (resolve_tsgid K g.fifo id id_type) rec.engine_id m ++
                [Event.nvgpu_readl (K.fifo_engine_status_r rec.engine_id)])
                rec.engine_id).2 ≠ 0)) ∧
          (rec.engine_id < 32 → rec.bits ≠ 0 →
            (g'.fifo.runlist (resolve_runlist_id K g.fifo id id_type)).reset_eng_bitmask.testBit
              rec.engine_id = true)) ∧
        (∀ b, (g'.fifo.runlist
            (resolve_runlist_id K g.fifo id id_type)).reset_eng_bitmask.testBit b = true →
          b < 32 ∧
          b ∈ set_bits (g.fifo.runlist (resolve_runlist_id K g.fifo id id_type)).eng_bitmask
            g.fifo.max_engines ∧
          ∃ rec ∈ recs, rec.engine_id = b ∧ rec.bits = BIT32 b) ∧
        ((∀ rec ∈ recs, rec.ret = 0 ∧ ∀ m,
            rec.exit = rec.entry ++
              (eng_poll_events K (resolve_tsgid K g.fifo id id_type) rec.engine_id m ++
                [Event.nvgpu_readl (K.fifo_engine_status_r rec.engine_id),
                  Event.is_stall_and_eng_intr_pending rec.engine_id,
                  Event.poll_eng_ret rec.engine_id 0]) →
            (O.is_stall_and_eng_intr_pending (rec.entry ++
              eng_poll_events K (resolve_tsgid K g.fifo id id_type) rec.engine_id m ++
              [Event.nvgpu_readl (K.fifo_engine_status_r rec.engine_id)])
              rec.engine_id).2 = 0) →
          (g'.fifo.runlist (resolve_runlist_id K g.fifo id id_type)).reset_eng_bitmask
            = 0)) ∧
    (O.nvgpu_platform_is_silicon = false → K.PREEMPT_PENDING_POLL_PRE_SI_RETRIES < fuel →
      (gv11b_fifo_is_preempt_pending K O fuel id id_type g).isSome = true) ∧
    (∀ (t engine_id acc : Nat) (tr : List Event) (f : nvgpu_fifo),
      gv11b_fifo_preempt_poll_eng K O fuel t engine_id acc ⟨tr, f⟩ =
        (gv11b_fifo_preempt_poll_eng K O fuel t engine_id 0 ⟨tr, g.fifo⟩).map
          (fun x => (x.1, acc ||| x.2.1, ⟨x.2.2.trace, f⟩))) := by
  refine ⟨?_, ?_, fun hs hfuel =>
    gv11b_fifo_is_preempt_pending_returns K O fuel id id_type g
      (fun t p g1 => poll_pbdma_returns K O fuel t p g1 hs hfuel)
      (fun t e a g1 => poll_eng_returns K O fuel t e a g1 hs hfuel), ?_⟩
  rotate_left 2
  · intro t engine_id acc tr f
    rw [poll_eng_or, poll_eng_fifo K O fuel t engine_id 0 tr g.fifo f, Option.map_map]
    rfl
  · intro v w
    obtain ⟨tr, f⟩ := g
    simp only [gk20a.set_reset_eng_bitmask]
    rw [gv11b_fifo_is_preempt_pending_set_reset, gv11b_fifo_is_preempt_pending_set_reset]
  · intro r g' h
    rw [gv11b_fifo_is_preempt_pending_eq] at h
    obtain ⟨x, hx, h2⟩ := Option.bind_eq_some.1 h
    obtain ⟨ret1, g1⟩ := x
    obtain ⟨hf1, evs1, ht1, -⟩ := pbdma_phase_trace K O fuel _ _ _ _ _ _ hx
    obtain ⟨tr1, f1⟩ := g1
    simp only at hf1 ht1 h2
    subst hf1
    subst ht1
    obtain ⟨hmap, hres, hseg⟩ := eng_phase_records K O fuel
      (resolve_tsgid K g.fifo id id_type) (resolve_runlist_id K g.fifo id id_type) g.fifo
      _ _ _ _ _ h2
    have htr : ((⟨g.trace ++ evs1, g.fifo⟩ : gk20a).set_reset_eng_bitmask
        (resolve_runlist_id K g.fifo id id_type) 0).trace = g.trace ++ evs1 := rfl
    rw [htr] at hmap hres hseg
    rw [set_reset_eng_bitmask_read, Nat.zero_or] at hres
    have hfacts : ∀ rec ∈ eng_poll_records K O fuel (resolve_tsgid K g.fifo id id_type) g.fifo
        (set_bits (g.fifo.runlist (resolve_runlist_id K g.fifo id id_type)).eng_bitmask
          g.fifo.max_engines) (g.trace ++ evs1),
        rec.engine_id ∈
          set_bits (g.fifo.runlist (resolve_runlist_id K g.fifo id id_type)).eng_bitmask
            g.fifo.max_engines ∧
        (rec.bits = 0 ∨ rec.bits = BIT32 rec.engine_id) ∧
        (rec.ret = 0 → ∀ m,
          rec.exit = rec.entry ++
            (eng_poll_events K (resolve_tsgid K g.fifo id id_type) rec.engine_id m ++
              [Event.nvgpu_readl (K.fifo_engine_status_r rec.engine_id),
                Event.is_stall_and_eng_intr_pending rec.engine_id,
                Event.poll_eng_ret rec.engine_id 0]) →
          rec.bits ≠ 0 →
          (O.is_stall_and_eng_intr_pending (rec.entry ++
            eng_poll_events K (resolve_tsgid K g.fifo id id_type) rec.engine_id m ++
            [Event.nvgpu_readl (K.fifo_engine_status_r rec.engine_id)])
            rec.engine_id).2 ≠ 0) := by
      intro rec hrec
      obtain ⟨hmem, hp⟩ := eng_poll_records_poll K O fuel _ _ _ _ rec hrec
      obtain ⟨-, -, hb, -⟩ := poll_eng_trace K O fuel _ _ _ _ _ _ _ hp
      rw [Nat.zero_or] at hb
      refine ⟨hmem, hb, ?_⟩
      intro hr0 m hm hne
      obtain ⟨m', hm', hchk⟩ := (poll_eng_outcome K O fuel _ _ _ _ _ _ _ hp).2.2 hr0
      simp only at hm'
      have hmm : eng_poll_events K (resolve_tsgid K g.fifo id id_type) rec.engine_id m =
          eng_poll_events K (resolve_tsgid K g.fifo id id_type) rec.engine_id m' := by
        rw [hm] at hm'
        have h3 := List.append_cancel_left hm'
        exact List.append_cancel_right h3
      rw [hmm]
      have hb2 : (eng_check_at K O (resolve_tsgid K g.fifo id id_type) rec.engine_id 0
          (rec.entry ++ eng_poll_events K (resolve_tsgid K g.fifo id id_type)
            rec.engine_id m')).2 ≠ 0 := by
        rw [hchk]
        exact hne
      exact (eng_check_at_bits K O _ _ _ _ hb2).2
    refine ⟨evs1, ret1, _, hx, rfl, hmap, hres, ?_, ?_, ?_⟩
    · intro rec hrec
      obtain ⟨hmem, hp⟩ := eng_poll_records_poll K O fuel _ _ _ _ rec hrec
      obtain ⟨h1, h2, h3⟩ := poll_eng_outcome K O fuel _ _ _ _ _ _ _ hp
      obtain ⟨-, hb, hpend⟩ := hfacts rec hrec
      simp only [Nat.zero_or] at h1 h2 h3
      refine ⟨hseg rec hrec, hp, hb, fun hi => (h1 hi).2, h2, ?_, ?_⟩
      · intro hr0
        obtain ⟨m, hm, hchk⟩ := h3 hr0
        exact ⟨m, hm, hchk, hpend hr0 m hm⟩
      · intro hlt hne
        rw [hres, or_all_testBit]
        refine ⟨rec.bits, List.mem_map.2 ⟨rec, hrec, rfl⟩, ?_⟩
        rcases hb with hb | hb
        · exact absurd hb hne
        · rw [hb, BIT32_testBit]
          exact ⟨rfl, hlt⟩
    · intro b hb
      rw [hres, or_all_testBit] at hb
      obtain ⟨x, hxm, hxb⟩ := hb
      obtain ⟨rec, hrec, rfl⟩ := List.mem_map.1 hxm
      obtain ⟨hmem, hbits, -⟩ := hfacts rec hrec
      rcases hbits with hbits | hbits
      · rw [hbits] at hxb
        simp at hxb
      · rw [hbits, BIT32_testBit] at hxb
        obtain ⟨hbe, hlt⟩ := hxb
        subst hbe
        exact ⟨hlt, hmem, rec, hrec, rfl, hbits⟩
    · intro hall
      rw [hres]
      apply or_all_eq_zero
      intro x hxm
      obtain ⟨rec, hrec, rfl⟩ := List.mem_map.1 hxm
      obtain ⟨hr0, hnp⟩ := hall rec hrec
      obtain ⟨-, -, hpend⟩ := hfacts rec hrec
      obtain ⟨hmem, hp⟩ := eng_poll_records_poll K O fuel _ _ _ _ rec hrec
      obtain ⟨m, hm, -⟩ := (poll_eng_outcome K O fuel _ _ _ _ _ _ _ hp).2.2 hr0
      by_contra hne
      exact hpend hr0 m hm hne (hnp m hm)

/-- Witness of C5: entry value 5, off silicon, engine 1 stays valid with id 7
until the retry ceiling ends its poll: the call returns `-EBUSY` and leaves
the bitmask at 2, the bit contributed by the one engine poll. -/
theorem gv11b_fifo_is_preempt_pending_reset_eng_bitmask_witness :
    ∃ r g', gv11b_fifo_is_preempt_pending sample_config (scenario_oracle false true true 100)
        4 7 1 ⟨[], sample_fifo 8 2 5⟩ = some (r, g') ∧
      r = -EBUSY ∧ (g'.fifo.runlist 2).reset_eng_bitmask = 2 ∧
      ∃ recs : List eng_poll_record, recs.map (fun rec => rec.engine_id) = [1] ∧
        (g'.fifo.runlist 2).reset_eng_bitmask = or_all (recs.map (fun rec => rec.bits)) := by
  have hev : (gv11b_fifo_is_preempt_pending sample_config
        (scenario_oracle false true true 100) 4 7 1 ⟨[], sample_fifo 8 2 5⟩).map
      (fun x => (x.1, (x.2.fifo.runlist 2).reset_eng_bitmask)) = some (-EBUSY, 2) := by
    decide
  obtain ⟨⟨r, g'⟩, hx, hy⟩ := Option.map_eq_some'.1 hev
  obtain ⟨evs1, r1, recs, -, -, hmap, hres, -⟩ :=
    (gv11b_fifo_is_preempt_pending_reset_eng_bitmask sample_config
      (scenario_oracle false true true 100) 4 7 1 ⟨[], sample_fifo 8 2 5⟩).2.1 r g' hx
  exact ⟨r, g', hx, (Prod.mk.inj hy).1, (Prod.mk.inj hy).2, recs, hmap, hres⟩

end NvgpuPreempt
